import Mathlib

/-!
# Vultr provider: data-source lookups and the private-ISO resource

A shallow embedding of the data-source `Read` functions
(`data_source_vultr_*.go`), of the private-ISO / DNS-domain resources
(`resource_vultr_iso_private.go`, `resource_vultr_dns_domain.go`) and of the
maps of the provider (`provider.go`), with the filter engine and the poll
machine as the specification describes them.

* The remote API is a `Client σ`: every method takes the remote world `σ`
  and returns its answer together with the next world.
* Every operation returns a `Run σ`: its status (still running when the
  step budget is used up, or returned with or without diagnostics), the
  resource data, the remote world and the trace of the calls it issued.
* `for { ... }` loops and the recursion of `resourceVultrIsoDelete` take a
  step budget (`fuel`).
-/

set_option linter.dupNamespace false

namespace Vultr

deriving instance DecidableEq for Except

/-! ## Strings -/

/-- Go `strings.Contains(s, substr)` on character lists. -/
def containsChars : List Char → List Char → Bool
  | [], sub => sub.isEmpty
  | c :: cs, sub => sub.isPrefixOf (c :: cs) || containsChars cs sub

/-- Go `strings.Contains(s, substr)`: `substr` occurs within `s`. -/
def stringsContains (s substr : String) : Bool :=
  containsChars s.data substr.data

/-- Go `strings.Split` on character lists, for a one-character separator. -/
def splitChars (sep : Char) : List Char → List (List Char)
  | [] => [[]]
  | c :: cs =>
    match splitChars sep cs with
    | [] => [[]]
    | p :: ps => if c = sep then [] :: p :: ps else (c :: p) :: ps

/-- Go `strings.Split(s, " ")`. -/
def stringsSplit (s : String) : List String :=
  (splitChars ' ' s.data).map String.mk

/-- The expression `parts[len(parts)-1]` of `resourceVultrIsoDelete`. -/
def lastPart (parts : List String) : String :=
  parts.getLastD ""

/-! ## Resource data of the plugin host -/

/-- Values stored in the attributes of a resource. -/
inductive Val where
  | str (s : String)
  | int (i : Int)
  | strs (l : List String)
  | map (m : List (String × String))
  deriving DecidableEq, Repr

/-- The `filter` blocks of a data source: `name` and `values` of each. -/
abbrev RawFilter := List (String × List String)

/-- The `schema.ResourceData` handed to an operation: the id, the configured
`filter` set as `d.GetOk("filter")` yields it (`none` when `ok` is false), and
the attributes. -/
structure ResourceData where
  id : String
  filter : Option RawFilter
  attrs : List (String × Val)
  deriving DecidableEq, Repr

namespace ResourceData

/-- The call `d.SetId(v)`. -/
def SetId (d : ResourceData) (v : String) : ResourceData :=
  { d with id := v }

/-- The call `d.Set(key, v)`: the attribute `key` now holds `v`. The error
`d.Set` returns on a schema mismatch is outside this model. -/
def Set (d : ResourceData) (key : String) (v : Val) : ResourceData :=
  { d with attrs := (key, v) :: d.attrs.filter (fun kv => kv.1 != key) }

/-- The value of attribute `key`, if it was assigned. -/
def attr (d : ResourceData) (key : String) : Option Val :=
  (d.attrs.find? (fun kv => kv.1 == key)).map Prod.snd

/-- The call `d.Get(key).(string)`: the zero value when unset. -/
def GetString (d : ResourceData) (key : String) : String :=
  match d.attr key with
  | some (.str s) => s
  | _ => ""

/-- The call `d.GetOk(key)` on a string attribute: `ok` is false on the zero value. -/
def GetOkString (d : ResourceData) (key : String) : Option String :=
  match d.attr key with
  | some (.str s) => if s = "" then none else some s
  | _ => none

end ResourceData

/-! ## Records of the API client -/

/-- The type `govultr.ListOptions`. -/
structure ListOptions where
  Cursor : String := ""
  PerPage : Nat := 0
  deriving DecidableEq, Repr

/-- The fields of `govultr.BlockStorage` read by the data source. -/
structure BlockStorage where
  ID : String
  Cost : Int
  Status : String
  SizeGB : Int
  Region : String
  DateCreated : String
  AttachedToInstance : String
  Label : String
  MountID : String
  deriving DecidableEq, Repr

/-- The fields of `govultr.ISO` read by the data source and the resource. -/
structure ISO where
  ID : String
  DateCreated : String
  FileName : String
  Size : Int
  MD5Sum : String
  SHA512Sum : String
  Status : String
  deriving DecidableEq, Repr

/-- The fields of `govultr.IPv4` read by the reverse-IPv4 data source. -/
structure IPv4 where
  IP : String
  Netmask : String
  Gateway : String
  Reverse : String
  deriving DecidableEq, Repr

/-- The type `govultr.Domain`. -/
structure Domain where
  Domain : String
  DateCreated : String
  DNSSec : String
  deriving DecidableEq, Repr

/-- The type `govultr.DomainReq`. -/
structure DomainReq where
  Domain : String
  IP : String := ""
  DNSSec : String
  deriving DecidableEq, Repr

/-- The fields of `govultr.Instance` read by the data source and by the ISO delete. -/
structure Instance where
  ID : String
  Os : String
  RAM : Int
  Disk : Int
  MainIP : String
  VCPUCount : Int
  Region : String
  DateCreated : String
  AllowedBandwidth : Int
  NetmaskV4 : String
  GatewayV4 : String
  Status : String
  PowerStatus : String
  ServerStatus : String
  Plan : String
  Label : String
  InternalIP : String
  KVM : String
  Tag : String
  OsID : Int
  AppID : Int
  ImageID : String
  FirewallGroupID : String
  V6Network : String
  V6MainIP : String
  V6NetworkSize : Int
  Features : List String
  Hostname : String
  deriving DecidableEq, Repr

/-- The fields of `govultr.BareMetalServer` read by the data source. -/
structure BareMetalServer where
  ID : String
  Os : String
  RAM : String
  Disk : String
  MainIP : String
  CPUCount : Int
  Region : String
  DateCreated : String
  Status : String
  NetmaskV4 : String
  GatewayV4 : String
  Plan : String
  Label : String
  Tag : String
  MacAddress : Int
  OsID : Int
  AppID : Int
  ImageID : String
  V6Network : String
  V6MainIP : String
  V6NetworkSize : Int
  Features : List String
  deriving DecidableEq, Repr

/-- The type `govultr.BackupSchedule`. -/
structure BackupSchedule where
  Enabled : Option Bool
  ScheduleType : String
  Hour : Int
  Dom : Int
  Dow : Int
  deriving DecidableEq, Repr

/-- The type `govultr.Iso` returned by `Instance.ISOStatus`. -/
structure IsoStatus where
  State : String
  IsoID : String
  deriving DecidableEq, Repr

/-! ## Calls and runs -/

/-- What an operation does that is visible from outside: the calls it issues
on the API client and the waits it starts. -/
inductive Event where
  | blockStorageList (options : ListOptions)
  | bareMetalServerList (options : ListOptions)
  | instanceList (options : ListOptions)
  | isoList (options : ListOptions)
  | instanceListIPv4 (instanceID : String)
  | getBackupSchedule (instanceID : String)
  | getPrivateNetworks (instanceID : String)
  | domainGet (domain : String)
  | domainCreate (req : DomainReq)
  | isoCreate (url : String)
  | isoGet (id : String)
  | isoDelete (id : String)
  | detachISO (instanceID : String)
  | isoStatus (instanceID : String)
  | waitForIsoAvailable (id target : String) (pending : List String)
  | waitForIsoDetached (instanceID target : String) (pending : List String)
  deriving DecidableEq, Repr

/-- Where an operation stands: `running` when the step budget ended before
it returned, `done none` when it returned no error, `done (some msg)` when it
returned the error `msg`. -/
inductive Status where
  | running
  | done (diags : Option String)
  deriving DecidableEq, Repr

/-- The observable result of an operation. -/
structure Run (σ : Type) where
  status : Status
  d : ResourceData
  world : σ
  trace : List Event

namespace Run

/-- The run `r` preceded by the events `evs`. -/
def after {σ : Type} (evs : List Event) (r : Run σ) : Run σ :=
  { r with trace := evs ++ r.trace }

/-- The operation returned without diagnostics. -/
def succeeded {σ : Type} (r : Run σ) : Prop := r.status = .done none

/-- The operation returned an error. -/
def failed {σ : Type} (r : Run σ) : Prop := ∃ msg, r.status = .done (some msg)

instance {σ : Type} (r : Run σ) : Decidable r.succeeded :=
  inferInstanceAs (Decidable (r.status = .done none))

end Run

/-- The methods of the `govultr` client the sources call. Each takes the
remote world and returns its answer and the next world; a list call answers
the records of the page and `meta.Links.Next`. -/
structure Client (σ : Type) where
  BlockStorageList : σ → ListOptions → Except String (List BlockStorage × String) × σ
  BareMetalServerList : σ → ListOptions → Except String (List BareMetalServer × String) × σ
  InstanceList : σ → ListOptions → Except String (List Instance × String) × σ
  ISOList : σ → ListOptions → Except String (List ISO × String) × σ
  InstanceListIPv4 : σ → String → Except String (List IPv4) × σ
  InstanceGetBackupSchedule : σ → String → Except String BackupSchedule × σ
  InstanceDetachISO : σ → String → Option String × σ
  InstanceISOStatus : σ → String → Except String IsoStatus × σ
  DomainGet : σ → String → Except String Domain × σ
  DomainCreate : σ → DomainReq → Except String Domain × σ
  ISOCreate : σ → String → Except String ISO × σ
  ISOGet : σ → String → Except String ISO × σ
  ISODelete : σ → String → Option String × σ

/-- The helpers of the package that the data sources call and whose source
is not part of the development: the filter engine (`buildVultrDataSourceFilter`,
`filterLoop`, `structToMap` at each record type), `backupStatus` and
`getPrivateNetworks`. `F` is the type of a built filter, `M` of a flattened
record. -/
structure Helpers (σ F M : Type) where
  buildVultrDataSourceFilter : RawFilter → F
  filterLoop : F → M → Bool
  structToMapBlockStorage : BlockStorage → Except String M
  structToMapBareMetalServer : BareMetalServer → Except String M
  structToMapInstance : Instance → Except String M
  structToMapISO : ISO → Except String M
  structToMapIPv4 : IPv4 → Except String M
  backupStatus : Option Bool → String
  getPrivateNetworks : σ → String → Except String (List String) × σ

/-- The library functions `resourceVultrIsoDelete` calls: decoding the error
text as the JSON object with the fields `error` and `status` (answering the
`error` field, or the decoder's error), and `net.ParseIP` (answering whether
the result is non-nil). -/
structure GoLib where
  jsonDecodeError : String → Except String String
  netParseIP : String → Bool
  /-- The number of refreshes that fit into the timeout of a wait. -/
  waitTicks : Nat

/-! ## The paginated filter loop of the data sources -/

/-- The inner loop `for _, b := range block`: every record is flattened with
`structToMap` and appended to the matches when `filterLoop` accepts it; a
flattening error ends the loop. -/
def filterPage {α M : Type} (structToMap : α → Except String M) (keep : M → Bool) :
    List α → List α → Except String (List α)
  | [], acc => .ok acc
  | b :: rest, acc =>
    match structToMap b with
    | .error err => .error err
    | .ok sm => filterPage structToMap keep rest (if keep sm then acc ++ [b] else acc)

/-- How the paginated loop of a data source ends. -/
inductive Scan (α : Type) where
  | running
  | fetchError (err : String)
  | flattenError (err : String)
  | found (list : List α)

/-- The state after the paginated loop of a data source. -/
structure Paged (σ α : Type) where
  result : Scan α
  world : σ
  trace : List Event

/-- The loop `for { page, meta, err := client.X.List(ctx, options) ... }` that
`dataSourceVultrBlockStorageRead`, `dataSourceVultrBareMetalServerRead`,
`dataSourceVultrInstanceRead` and `dataSourceVultrIsoPrivateRead` share word
for word: fetch a page, stop on a fetch error, filter its records, stop when
`meta.Links.Next` is empty, otherwise set `options.Cursor` and go on. -/
def pagedFilter {σ α M : Type}
    (list : σ → ListOptions → Except String (List α × String) × σ)
    (call : ListOptions → Event)
    (structToMap : α → Except String M) (keep : M → Bool) :
    Nat → σ → ListOptions → List α → Paged σ α
  | 0, s, _, _ => ⟨.running, s, []⟩
  | fuel + 1, s, options, acc =>
    match list s options with
    | (.error err, s1) => ⟨.fetchError err, s1, [call options]⟩
    | (.ok (page, next), s1) =>
      match filterPage structToMap keep page acc with
      | .error err => ⟨.flattenError err, s1, [call options]⟩
      | .ok acc1 =>
        if next = "" then ⟨.found acc1, s1, [call options]⟩
        else
          let r := pagedFilter list call structToMap keep fuel s1
            { options with Cursor := next } acc1
          ⟨r.result, r.world, call options :: r.trace⟩

/-- The error text of a lookup that matched several records. -/
def tooManyResults : String :=
  "your search returned too many results. Please refine your search to be more specific"

/-- The error text of a lookup that matched no record. -/
def noResults : String := "no results were found"

/-! ## Data sources -/

/-- The assignments at the end of `dataSourceVultrBlockStorageRead`. -/
def setBlockStorage (d : ResourceData) (b : BlockStorage) : ResourceData :=
  d.SetId b.ID
    |>.Set "date_created" (.str b.DateCreated)
    |>.Set "cost" (.int b.Cost)
    |>.Set "status" (.str b.Status)
    |>.Set "size_gb" (.int b.SizeGB)
    |>.Set "region" (.str b.Region)
    |>.Set "attached_to_instance" (.str b.AttachedToInstance)
    |>.Set "label" (.str b.Label)
    |>.Set "mount_id" (.str b.MountID)

/-- The function `dataSourceVultrBlockStorageRead`. -/
def dataSourceVultrBlockStorageRead {σ F M : Type} (c : Client σ) (h : Helpers σ F M)
    (fuel : Nat) (d : ResourceData) (s : σ) : Run σ :=
  match d.filter with
  | none => ⟨.done (some "issue with filter: false"), d, s, []⟩
  | some filters =>
    let f := h.buildVultrDataSourceFilter filters
    let p := pagedFilter c.BlockStorageList Event.blockStorageList
      h.structToMapBlockStorage (h.filterLoop f) fuel s {} []
    match p.result with
    | .running => ⟨.running, d, p.world, p.trace⟩
    | .fetchError err => ⟨.done (some ("error getting block storages: " ++ err)), d, p.world, p.trace⟩
    | .flattenError err => ⟨.done (some err), d, p.world, p.trace⟩
    | .found blockList =>
      -- `len(blockList) > 1`, `len(blockList) < 1`, then `blockList[0]`
      match blockList with
      | _ :: _ :: _ => ⟨.done (some tooManyResults), d, p.world, p.trace⟩
      | [] => ⟨.done (some noResults), d, p.world, p.trace⟩
      | [b] => ⟨.done none, setBlockStorage d b, p.world, p.trace⟩

/-- The assignments at the end of `dataSourceVultrIsoPrivateRead`. -/
def setIsoPrivate (d : ResourceData) (i : ISO) : ResourceData :=
  d.SetId i.ID
    |>.Set "date_created" (.str i.DateCreated)
    |>.Set "filename" (.str i.FileName)
    |>.Set "size" (.int i.Size)
    |>.Set "md5sum" (.str i.MD5Sum)
    |>.Set "sha512sum" (.str i.SHA512Sum)
    |>.Set "status" (.str i.Status)

/-- The function `dataSourceVultrIsoPrivateRead`. -/
def dataSourceVultrIsoPrivateRead {σ F M : Type} (c : Client σ) (h : Helpers σ F M)
    (fuel : Nat) (d : ResourceData) (s : σ) : Run σ :=
  match d.filter with
  | none => ⟨.done (some "issue with filter: false"), d, s, []⟩
  | some filters =>
    let f := h.buildVultrDataSourceFilter filters
    let p := pagedFilter c.ISOList Event.isoList h.structToMapISO (h.filterLoop f) fuel s {} []
    match p.result with
    | .running => ⟨.running, d, p.world, p.trace⟩
    | .fetchError err => ⟨.done (some ("error getting isos: " ++ err)), d, p.world, p.trace⟩
    | .flattenError err => ⟨.done (some err), d, p.world, p.trace⟩
    | .found isoList =>
      match isoList with
      | _ :: _ :: _ => ⟨.done (some tooManyResults), d, p.world, p.trace⟩
      | [] => ⟨.done (some noResults), d, p.world, p.trace⟩
      | [i] => ⟨.done none, setIsoPrivate d i, p.world, p.trace⟩

/-- The assignments at the end of `dataSourceVultrBareMetalServerRead`. -/
def setBareMetalServer (d : ResourceData) (b : BareMetalServer) : ResourceData :=
  d.SetId b.ID
    |>.Set "os" (.str b.Os)
    |>.Set "ram" (.str b.RAM)
    |>.Set "disk" (.str b.Disk)
    |>.Set "main_ip" (.str b.MainIP)
    |>.Set "cpu_count" (.int b.CPUCount)
    |>.Set "region" (.str b.Region)
    |>.Set "date_created" (.str b.DateCreated)
    |>.Set "status" (.str b.Status)
    |>.Set "netmask_v4" (.str b.NetmaskV4)
    |>.Set "gateway_v4" (.str b.GatewayV4)
    |>.Set "plan" (.str b.Plan)
    |>.Set "label" (.str b.Label)
    |>.Set "tag" (.str b.Tag)
    |>.Set "mac_address" (.int b.MacAddress)
    |>.Set "os_id" (.int b.OsID)
    |>.Set "app_id" (.int b.AppID)
    |>.Set "image_id" (.str b.ImageID)
    |>.Set "v6_network" (.str b.V6Network)
    |>.Set "v6_main_ip" (.str b.V6MainIP)
    |>.Set "v6_network_size" (.int b.V6NetworkSize)
    |>.Set "features" (.strs b.Features)

/-- The function `dataSourceVultrBareMetalServerRead`. -/
def dataSourceVultrBareMetalServerRead {σ F M : Type} (c : Client σ) (h : Helpers σ F M)
    (fuel : Nat) (d : ResourceData) (s : σ) : Run σ :=
  match d.filter with
  | none => ⟨.done (some "issue with filter: false"), d, s, []⟩
  | some filters =>
    let f := h.buildVultrDataSourceFilter filters
    let p := pagedFilter c.BareMetalServerList Event.bareMetalServerList
      h.structToMapBareMetalServer (h.filterLoop f) fuel s {} []
    match p.result with
    | .running => ⟨.running, d, p.world, p.trace⟩
    | .fetchError err =>
      ⟨.done (some ("error getting bare metal servers: " ++ err)), d, p.world, p.trace⟩
    | .flattenError err => ⟨.done (some err), d, p.world, p.trace⟩
    | .found serverList =>
      match serverList with
      | _ :: _ :: _ => ⟨.done (some tooManyResults), d, p.world, p.trace⟩
      | [] => ⟨.done (some noResults), d, p.world, p.trace⟩
      | [b] => ⟨.done none, setBareMetalServer d b, p.world, p.trace⟩

/-- The assignments of `dataSourceVultrInstanceRead` from `d.SetId` to
`d.Set("hostname", ...)`, in the order of the source. -/
def setInstance (d : ResourceData) (i : Instance) : ResourceData :=
  d.SetId i.ID
    |>.Set "os" (.str i.Os)
    |>.Set "ram" (.int i.RAM)
    |>.Set "disk" (.int i.Disk)
    |>.Set "main_ip" (.str i.MainIP)
    |>.Set "vcpu_count" (.int i.VCPUCount)
    |>.Set "region" (.str i.Region)
    |>.Set "date_created" (.str i.DateCreated)
    |>.Set "allowed_bandwidth" (.int i.AllowedBandwidth)
    |>.Set "netmask_v4" (.str i.NetmaskV4)
    |>.Set "gateway_v4" (.str i.GatewayV4)
    |>.Set "status" (.str i.Status)
    |>.Set "power_status" (.str i.PowerStatus)
    |>.Set "server_status" (.str i.ServerStatus)
    |>.Set "plan" (.str i.Plan)
    |>.Set "label" (.str i.Label)
    |>.Set "internal_ip" (.str i.InternalIP)
    |>.Set "kvm" (.str i.KVM)
    |>.Set "tag" (.str i.Tag)
    |>.Set "os_id" (.int i.OsID)
    |>.Set "app_id" (.int i.AppID)
    |>.Set "image_id" (.str i.ImageID)
    |>.Set "firewall_group_id" (.str i.FirewallGroupID)
    |>.Set "v6_network" (.str i.V6Network)
    |>.Set "v6_main_ip" (.str i.V6MainIP)
    |>.Set "v6_network_size" (.int i.V6NetworkSize)
    |>.Set "features" (.strs i.Features)
    |>.Set "hostname" (.str i.Hostname)

/-- The map `bsInfo` of `dataSourceVultrInstanceRead`; `strconv.Itoa` is `toString`. -/
def bsInfo (schedule : BackupSchedule) : List (String × String) :=
  [("type", schedule.ScheduleType), ("hour", toString schedule.Hour),
   ("dom", toString schedule.Dom), ("dow", toString schedule.Dow)]

/-- The function `dataSourceVultrInstanceRead`. -/
def dataSourceVultrInstanceRead {σ F M : Type} (c : Client σ) (h : Helpers σ F M)
    (fuel : Nat) (d : ResourceData) (s : σ) : Run σ :=
  match d.filter with
  | none => ⟨.done (some "issue with filter: false"), d, s, []⟩
  | some filters =>
    let f := h.buildVultrDataSourceFilter filters
    let p := pagedFilter c.InstanceList Event.instanceList
      h.structToMapInstance (h.filterLoop f) fuel s {} []
    match p.result with
    | .running => ⟨.running, d, p.world, p.trace⟩
    | .fetchError err => ⟨.done (some ("error getting servers: " ++ err)), d, p.world, p.trace⟩
    | .flattenError err => ⟨.done (some err), d, p.world, p.trace⟩
    | .found serverList =>
      match serverList with
      | _ :: _ :: _ => ⟨.done (some tooManyResults), d, p.world, p.trace⟩
      | [] => ⟨.done (some noResults), d, p.world, p.trace⟩
      | [i] =>
        let d1 := setInstance d i
        match c.InstanceGetBackupSchedule p.world i.ID with
        | (.error err, s2) =>
          ⟨.done (some ("error getting backup schedule: " ++ err)), d1, s2,
            p.trace ++ [.getBackupSchedule i.ID]⟩
        | (.ok schedule, s2) =>
          let d2 := (d1.Set "backups" (.str (h.backupStatus schedule.Enabled))).Set
            "backups_schedule" (.map (bsInfo schedule))
          match h.getPrivateNetworks s2 d2.id with
          | (.error err, s3) =>
            ⟨.done (some err), d2, s3,
              p.trace ++ [.getBackupSchedule i.ID, .getPrivateNetworks d2.id]⟩
          | (.ok pn, s3) =>
            ⟨.done none, d2.Set "private_network_ids" (.strs pn), s3,
              p.trace ++ [.getBackupSchedule i.ID, .getPrivateNetworks d2.id]⟩

/-- The function `dataSourceVultrDNSDomainRead`. -/
def dataSourceVultrDNSDomainRead {σ : Type} (c : Client σ) (d : ResourceData) (s : σ) : Run σ :=
  match c.DomainGet s (d.GetString "domain") with
  | (.error err, s1) =>
    ⟨.done (some ("error getting dns domains: " ++ err)), d, s1, [.domainGet (d.GetString "domain")]⟩
  | (.ok domain, s1) =>
    ⟨.done none,
      (((d.SetId domain.Domain).Set "domain" (.str domain.Domain)).Set
        "date_created" (.str domain.DateCreated)).Set "dns_sec" (.str domain.DNSSec),
      s1, [.domainGet (d.GetString "domain")]⟩

/-! ### Reverse IPv4 -/

/-- The first loop of `dataSourceVultrReverseIPV4Read`: the values of every
`filter` block named `instance_id`, in order. (The branch for the name `ip`
stores every value back unchanged.) -/
def filterInstanceIDs : RawFilter → List String
  | [] => []
  | (name, values) :: rest =>
    (if name = "instance_id" then values else []) ++ filterInstanceIDs rest

/-- The state after the instance listing of `dataSourceVultrReverseIPV4Read`:
`ids` is `none` while the listing is still running. -/
structure Collected (σ : Type) where
  ids : Option (Except String (List String))
  world : σ
  trace : List Event

/-- The loop of `dataSourceVultrReverseIPV4Read` that lists all instances and
appends the ID of each to `instanceIDs`. -/
def collectInstanceIDs {σ : Type} (c : Client σ) :
    Nat → σ → ListOptions → List String → Collected σ
  | 0, s, _, _ => ⟨none, s, []⟩
  | fuel + 1, s, options, instanceIDs =>
    match c.InstanceList s options with
    | (.error err, s1) => ⟨some (.error err), s1, [.instanceList options]⟩
    | (.ok (servers, next), s1) =>
      let instanceIDs1 := instanceIDs ++ servers.map (fun server => server.ID)
      if next = "" then ⟨some (.ok instanceIDs1), s1, [.instanceList options]⟩
      else
        let r := collectInstanceIDs c fuel s1 { options with Cursor := next } instanceIDs1
        ⟨r.ids, r.world, .instanceList options :: r.trace⟩

/-- The error text of the reverse-IPv4 lookup when a second record matches. -/
def tooManyResultsIPv4 : String :=
  "your search returned too many results - please refine your search to be more specific"

/-- The variables `result` and `resultInstanceID` of
`dataSourceVultrReverseIPV4Read`. `result` is a pointer to the loop variable
`ipv4` (`result = &ipv4`); the sources predate Go 1.22, where the variable of a
`for ... range` statement is one variable for all its iterations. `target` is
the value the pointer currently points at, and `aliased` says that it points
at the variable of the loop now running. -/
structure IPv4Result where
  target : Option IPv4
  aliased : Bool
  resultInstanceID : String
  deriving DecidableEq, Repr

/-- The inner loop `for _, ipv4 := range ipv4s` of
`dataSourceVultrReverseIPV4Read`. Each iteration stores the next record in the
loop variable, so a `result` that points at it sees the new record. -/
def scanIPv4s {M : Type} (structToMap : IPv4 → Except String M) (keep : M → Bool)
    (instanceID : String) : List IPv4 → IPv4Result → Except String IPv4Result
  | [], r => .ok r
  | ipv4 :: rest, r =>
    let r1 : IPv4Result := if r.aliased then { r with target := some ipv4 } else r
    match structToMap ipv4 with
    | .error err => .error err
    | .ok m =>
      if keep m then
        if r1.target.isSome then .error tooManyResultsIPv4
        else scanIPv4s structToMap keep instanceID rest ⟨some ipv4, true, instanceID⟩
      else scanIPv4s structToMap keep instanceID rest r1

/-- The state after the loop over `instanceIDs`. -/
structure Searched (σ : Type) where
  result : Except String IPv4Result
  world : σ
  trace : List Event

/-- The loop `for _, instanceID := range instanceIDs` of
`dataSourceVultrReverseIPV4Read`. Every pass runs a new inner loop, whose
variable is a new one. -/
def searchIPv4s {σ M : Type} (c : Client σ) (structToMap : IPv4 → Except String M)
    (keep : M → Bool) : List String → σ → IPv4Result → Searched σ
  | [], s, r => ⟨.ok r, s, []⟩
  | instanceID :: rest, s, r =>
    match c.InstanceListIPv4 s instanceID with
    | (.error err, s1) => ⟨.error ("error getting IPv4s: " ++ err), s1, [.instanceListIPv4 instanceID]⟩
    | (.ok ipv4s, s1) =>
      match scanIPv4s structToMap keep instanceID ipv4s { r with aliased := false } with
      | .error err => ⟨.error err, s1, [.instanceListIPv4 instanceID]⟩
      | .ok r1 =>
        let t := searchIPv4s c structToMap keep rest s1 r1
        ⟨t.result, t.world, .instanceListIPv4 instanceID :: t.trace⟩

/-- The end of `dataSourceVultrReverseIPV4Read`, after the instances to search
are known. -/
def reverseIPV4Search {σ F M : Type} (c : Client σ) (h : Helpers σ F M) (filters : RawFilter)
    (instanceIDs : List String) (d : ResourceData) (s : σ) (before : List Event) : Run σ :=
  let filter := h.buildVultrDataSourceFilter filters
  let t := searchIPv4s c h.structToMapIPv4 (h.filterLoop filter) instanceIDs s ⟨none, false, ""⟩
  match t.result with
  | .error err => ⟨.done (some err), d, t.world, before ++ t.trace⟩
  | .ok r =>
    match r.target with
    | none => ⟨.done (some noResults), d, t.world, before ++ t.trace⟩
    | some result =>
      ⟨.done none,
        d.SetId result.IP
          |>.Set "instance_id" (.str r.resultInstanceID)
          |>.Set "ip" (.str result.IP)
          |>.Set "reverse" (.str result.Reverse)
          |>.Set "netmask" (.str result.Netmask)
          |>.Set "gateway" (.str result.Gateway),
        t.world, before ++ t.trace⟩

/-- The function `dataSourceVultrReverseIPV4Read`. -/
def dataSourceVultrReverseIPV4Read {σ F M : Type} (c : Client σ) (h : Helpers σ F M)
    (fuel : Nat) (d : ResourceData) (s : σ) : Run σ :=
  match d.filter with
  | none => ⟨.done (some "error getting filter: false"), d, s, []⟩
  | some filters =>
    let instanceIDs := filterInstanceIDs filters
    if instanceIDs.length = 0 then
      let l := collectInstanceIDs c fuel s {} instanceIDs
      match l.ids with
      | none => ⟨.running, d, l.world, l.trace⟩
      | some (.error err) => ⟨.done (some ("error getting servers: " ++ err)), d, l.world, l.trace⟩
      | some (.ok all) => reverseIPV4Search c h filters all d l.world l.trace
    else reverseIPV4Search c h filters instanceIDs d s []

/-! ## Schemas -/

/-- The kinds `schema.TypeString`, ... of an attribute. -/
inductive ValueType where
  | TypeString | TypeInt | TypeList | TypeMap | TypeSet
  deriving DecidableEq, Repr

/-- The fields of `schema.Schema` the sources set. -/
structure Schema where
  type : ValueType
  Computed : Bool := false
  Required : Bool := false
  Optional : Bool := false
  ForceNew : Bool := false
  deriving DecidableEq, Repr

/-- The names of the attributes a schema declares `Computed`. -/
def computedAttributes (schema : List (String × Schema)) : List String :=
  (schema.filter (fun e => e.2.Computed)).map Prod.fst

/-- The schema of `dataSourceVultrBlockStorage`. -/
def dataSourceVultrBlockStorage (dataSourceFiltersSchema : Schema) : List (String × Schema) :=
  [("filter", dataSourceFiltersSchema),
   ("date_created", { type := .TypeString, Computed := true }),
   ("cost", { type := .TypeInt, Computed := true }),
   ("status", { type := .TypeString, Computed := true }),
   ("size_gb", { type := .TypeInt, Computed := true }),
   ("region", { type := .TypeString, Computed := true }),
   ("attached_to_instance", { type := .TypeString, Computed := true }),
   ("label", { type := .TypeString, Computed := true }),
   ("mount_id", { type := .TypeString, Computed := true })]

/-- The schema of `dataSourceVultrIsoPrivate`. -/
def dataSourceVultrIsoPrivate (dataSourceFiltersSchema : Schema) : List (String × Schema) :=
  [("filter", dataSourceFiltersSchema),
   ("date_created", { type := .TypeString, Computed := true }),
   ("filename", { type := .TypeString, Computed := true }),
   ("size", { type := .TypeInt, Computed := true }),
   ("md5sum", { type := .TypeString, Computed := true }),
   ("sha512sum", { type := .TypeString, Computed := true }),
   ("status", { type := .TypeString, Computed := true })]

/-- The schema of `dataSourceVultrReverseIPV4`. -/
def dataSourceVultrReverseIPV4 (dataSourceFiltersSchema : Schema) : List (String × Schema) :=
  [("filter", dataSourceFiltersSchema),
   ("instance_id", { type := .TypeString, Computed := true }),
   ("ip", { type := .TypeString, Computed := true }),
   ("reverse", { type := .TypeString, Computed := true }),
   ("netmask", { type := .TypeString, Computed := true }),
   ("gateway", { type := .TypeString, Computed := true })]

/-- The schema of `dataSourceVultrDNSDomain`. -/
def dataSourceVultrDNSDomain : List (String × Schema) :=
  [("domain", { type := .TypeString, Required := true }),
   ("date_created", { type := .TypeString, Computed := true }),
   ("dns_sec", { type := .TypeString, Computed := true })]

/-- The schema of `dataSourceVultrInstance`. -/
def dataSourceVultrInstance (dataSourceFiltersSchema : Schema) : List (String × Schema) :=
  [("filter", dataSourceFiltersSchema),
   ("os", { type := .TypeString, Computed := true }),
   ("ram", { type := .TypeInt, Computed := true }),
   ("disk", { type := .TypeInt, Computed := true }),
   ("main_ip", { type := .TypeString, Computed := true }),
   ("vcpu_count", { type := .TypeInt, Computed := true }),
   ("location", { type := .TypeString, Computed := true }),
   ("region", { type := .TypeString, Computed := true }),
   ("date_created", { type := .TypeString, Computed := true }),
   ("allowed_bandwidth", { type := .TypeInt, Computed := true }),
   ("netmask_v4", { type := .TypeString, Computed := true }),
   ("gateway_v4", { type := .TypeString, Computed := true }),
   ("status", { type := .TypeString, Computed := true }),
   ("power_status", { type := .TypeString, Computed := true }),
   ("server_status", { type := .TypeString, Computed := true }),
   ("plan", { type := .TypeString, Computed := true }),
   ("v6_network", { type := .TypeString, Computed := true }),
   ("v6_main_ip", { type := .TypeString, Computed := true }),
   ("v6_network_size", { type := .TypeInt, Computed := true }),
   ("label", { type := .TypeString, Computed := true }),
   ("internal_ip", { type := .TypeString, Computed := true }),
   ("kvm", { type := .TypeString, Computed := true }),
   ("backups", { type := .TypeString, Computed := true }),
   ("tag", { type := .TypeString, Computed := true }),
   ("os_id", { type := .TypeInt, Computed := true }),
   ("app_id", { type := .TypeInt, Computed := true }),
   ("image_id", { type := .TypeString, Computed := true }),
   ("firewall_group_id", { type := .TypeString, Computed := true }),
   ("features", { type := .TypeList, Computed := true }),
   ("backups_schedule", { type := .TypeMap, Computed := true }),
   ("hostname", { type := .TypeString, Computed := true }),
   ("private_network_ids", { type := .TypeList, Computed := true })]

/-- The schema of `dataSourceVultrBareMetalServer`. -/
def dataSourceVultrBareMetalServer (dataSourceFiltersSchema : Schema) : List (String × Schema) :=
  [("filter", dataSourceFiltersSchema),
   ("os", { type := .TypeString, Computed := true }),
   ("ram", { type := .TypeString, Computed := true }),
   ("disk", { type := .TypeString, Computed := true }),
   ("main_ip", { type := .TypeString, Computed := true }),
   ("cpu_count", { type := .TypeInt, Computed := true }),
   ("region", { type := .TypeString, Computed := true }),
   ("date_created", { type := .TypeString, Computed := true }),
   ("status", { type := .TypeString, Computed := true }),
   ("netmask_v4", { type := .TypeString, Computed := true }),
   ("gateway_v4", { type := .TypeString, Computed := true }),
   ("plan", { type := .TypeString, Computed := true }),
   ("v6_network", { type := .TypeString, Computed := true }),
   ("v6_main_ip", { type := .TypeString, Computed := true }),
   ("v6_network_size", { type := .TypeInt, Computed := true }),
   ("label", { type := .TypeString, Computed := true }),
   ("mac_address", { type := .TypeInt, Computed := true }),
   ("tag", { type := .TypeString, Computed := true }),
   ("os_id", { type := .TypeInt, Computed := true }),
   ("app_id", { type := .TypeInt, Computed := true }),
   ("image_id", { type := .TypeString, Computed := true }),
   ("features", { type := .TypeList, Computed := true })]

/-! ## Waiting for a remote state -/

/-- The fields of `resource.StateChangeConf` the sources set (durations in seconds). -/
structure StateChangeConf where
  Pending : List String
  Target : List String
  Timeout : Nat
  Delay : Nat
  MinTimeout : Nat
  NotFoundChecks : Nat
  deriving DecidableEq, Repr

/-- How a wait fails. -/
inductive WaitError where
  | timeout
  | unexpectedState (state : String)
  | fetchError (err : String)
  deriving DecidableEq, Repr

/-- The text of a failed wait. -/
def WaitError.text : WaitError → String
  | .timeout => "timeout while waiting for state"
  | .unexpectedState state => "unexpected state " ++ state
  | .fetchError err => err

/-- The state after a wait. -/
structure Waited (σ P : Type) where
  result : Except WaitError P
  world : σ
  trace : List Event

/-- Modelled from the spec: `WaitForStateContext` of the plugin SDK, which the
sources call and do not contain, as the poll-until-state machine of the
specification. Each tick calls `refresh`. A fetch error is retried until the
consecutive failures exceed `NotFoundChecks`, then it is surfaced; the target
state ends the wait with the payload of that tick; a pending state leads to
the next tick; any other state is an unexpected-state error. The timeout is
the number `ticks` of refreshes it leaves room for. -/
def waitForState {σ P : Type} (refresh : σ → Except String (P × String) × σ) (call : Event)
    (conf : StateChangeConf) : Nat → Nat → σ → Waited σ P
  | 0, _, s => ⟨.error .timeout, s, []⟩
  | ticks + 1, misses, s =>
    match refresh s with
    | (.error err, s1) =>
      if misses + 1 > conf.NotFoundChecks then ⟨.error (.fetchError err), s1, [call]⟩
      else
        let w := waitForState refresh call conf ticks (misses + 1) s1
        ⟨w.result, w.world, call :: w.trace⟩
    | (.ok (payload, state), s1) =>
      if state ∈ conf.Target then ⟨.ok payload, s1, [call]⟩
      else if state ∈ conf.Pending then
        let w := waitForState refresh call conf ticks 0 s1
        ⟨w.result, w.world, call :: w.trace⟩
      else ⟨.error (.unexpectedState state), s1, [call]⟩

/-! ## The private-ISO resource -/

/-- The function `newIsoStateRefresh`. -/
def newIsoStateRefresh {σ : Type} (c : Client σ) (d : ResourceData) :
    σ → Except String (ISO × String) × σ :=
  fun s =>
    match c.ISOGet s d.id with
    | (.error err, s1) => (.error ("error retrieving ISO " ++ d.id ++ " : " ++ err), s1)
    | (.ok iso, s1) => (.ok (iso, iso.Status), s1)

/-- The function `waitForIsoAvailable`. -/
def waitForIsoAvailable {σ : Type} (c : Client σ) (lib : GoLib) (d : ResourceData)
    (target : String) (pending : List String) (_attribute : String) (s : σ) : Waited σ ISO :=
  let stateConf : StateChangeConf :=
    { Pending := pending, Target := [target], Timeout := 60 * 60, Delay := 10,
      MinTimeout := 3, NotFoundChecks := 60 }
  let w := waitForState (newIsoStateRefresh c d) (.isoGet d.id) stateConf lib.waitTicks 0 s
  ⟨w.result, w.world, .waitForIsoAvailable d.id target pending :: w.trace⟩

/-- The function `isoDetachStateRefresh`. -/
def isoDetachStateRefresh {σ : Type} (c : Client σ) (instanceID : String) :
    σ → Except String (IsoStatus × String) × σ :=
  fun s =>
    match c.InstanceISOStatus s instanceID with
    | (.error err, s1) =>
      (.error ("error getting ISO status for instance " ++ instanceID ++ " : " ++ err), s1)
    | (.ok iso, s1) => (.ok (iso, iso.State), s1)

/-- The function `waitForIsoDetached`. -/
def waitForIsoDetached {σ : Type} (c : Client σ) (lib : GoLib) (instanceID : String)
    (target : String) (pending : List String) (_attribute : String) (s : σ) :
    Waited σ IsoStatus :=
  let stateConf : StateChangeConf :=
    { Pending := pending, Target := [target], Timeout := 60 * 60, Delay := 10,
      MinTimeout := 3, NotFoundChecks := 60 }
  let w := waitForState (isoDetachStateRefresh c instanceID) (.isoStatus instanceID) stateConf
    lib.waitTicks 0 s
  ⟨w.result, w.world, .waitForIsoDetached instanceID target pending :: w.trace⟩

/-- The function `resourceVultrIsoRead`. The test on the error is
`strings.Contains("Invalid iso", err.Error())`, with the arguments in this order. -/
def resourceVultrIsoRead {σ : Type} (c : Client σ) (d : ResourceData) (s : σ) : Run σ :=
  match c.ISOGet s d.id with
  | (.error err, s1) =>
    if stringsContains "Invalid iso" err then ⟨.done none, d.SetId "", s1, [.isoGet d.id]⟩
    else ⟨.done (some ("Error getting ISO " ++ d.id ++ " : " ++ err)), d, s1, [.isoGet d.id]⟩
  | (.ok iso, s1) =>
    ⟨.done none,
      d.Set "date_created" (.str iso.DateCreated)
        |>.Set "filename" (.str iso.FileName)
        |>.Set "size" (.int iso.Size)
        |>.Set "md5sum" (.str iso.MD5Sum)
        |>.Set "sha512sum" (.str iso.SHA512Sum)
        |>.Set "status" (.str iso.Status),
      s1, [.isoGet d.id]⟩

/-- The function `resourceVultrIsoCreate`. -/
def resourceVultrIsoCreate {σ : Type} (c : Client σ) (lib : GoLib) (d : ResourceData) (s : σ) :
    Run σ :=
  match c.ISOCreate s (d.GetString "url") with
  | (.error err, s1) =>
    ⟨.done (some ("Error creating ISO : " ++ err)), d, s1, [.isoCreate (d.GetString "url")]⟩
  | (.ok iso, s1) =>
    let d1 := d.SetId iso.ID
    let w := waitForIsoAvailable c lib d1 "complete" ["pending"] "status" s1
    match w.result with
    | .error err =>
      ⟨.done (some ("error while waiting for ISO " ++ d1.id ++ " detach to be completed: "
          ++ err.text)), d1, w.world, .isoCreate (d.GetString "url") :: w.trace⟩
    | .ok _ =>
      (resourceVultrIsoRead c d1 w.world).after (.isoCreate (d.GetString "url") :: w.trace)

/-- The body of `if instance.MainIP == ip { ... }` in `resourceVultrIsoDelete`
(the same text in both loops): detach the ISO, wait for the detach, and return
what the recursive call `retry` returns. -/
def detachAndRetry {σ : Type} (c : Client σ) (lib : GoLib) (retry : ResourceData → σ → Run σ)
    (d : ResourceData) (inst : Instance) (s : σ) : Run σ :=
  match c.InstanceDetachISO s inst.ID with
  | (some err, s1) =>
    ⟨.done (some ("error destroying ISO " ++ d.id ++ " : failed to detach from instances "
        ++ inst.ID ++ " : " ++ err)), d, s1, [.detachISO inst.ID]⟩
  | (none, s1) =>
    let w := waitForIsoDetached c lib inst.ID "ready" ["isomounted"] "status" s1
    match w.result with
    | .error err =>
      ⟨.done (some ("error while waiting for ISO " ++ d.id ++ " to detach from instance "
          ++ inst.ID ++ ": " ++ err.text)), d, w.world, .detachISO inst.ID :: w.trace⟩
    | .ok _ => (retry d w.world).after (.detachISO inst.ID :: w.trace)

/-- The loop `for _, instance := range insts` of `resourceVultrIsoDelete`:
`none` when it ends without an instance whose `MainIP` is `ip`, otherwise what
the function returns from inside the loop. -/
def scanInstances {σ : Type} (c : Client σ) (lib : GoLib) (retry : ResourceData → σ → Run σ)
    (d : ResourceData) (ip : String) : List Instance → σ → Option (Run σ)
  | [], _ => none
  | inst :: rest, s =>
    if inst.MainIP = ip then some (detachAndRetry c lib retry d inst s)
    else scanInstances c lib retry d ip rest s

/-- The loop `for imeta.Links.Next != "" { ... }` of `resourceVultrIsoDelete`.
`next` is `imeta.Links.Next` of the first listing: the loop sets
`m.Cursor = imeta.Links.Next` and lists with
`insts, _, err = client.Instance.List(ctx, &m)`, which leaves `imeta` as it
was. When the condition fails the function goes on to its final `return nil`. -/
def laterBatches {σ : Type} (c : Client σ) (lib : GoLib) (retry : ResourceData → σ → Run σ)
    (d : ResourceData) (ip next : String) : Nat → σ → Run σ
  | 0, s => ⟨.running, d, s, []⟩
  | fuel + 1, s =>
    if next = "" then ⟨.done none, d, s, []⟩
    else
      let m : ListOptions := { PerPage := 50, Cursor := next }
      match c.InstanceList s m with
      | (.error _, s1) =>
        ⟨.done (some ("error destroying ISO " ++ d.id
            ++ " : failed to obtain list of instances using cursor " ++ next)), d, s1,
          [.instanceList m]⟩
      | (.ok (insts, _), s1) =>
        match scanInstances c lib retry d ip insts s1 with
        | some r => r.after [.instanceList m]
        | none => (laterBatches c lib retry d ip next fuel s1).after [.instanceList m]

/-- The function `resourceVultrIsoDelete`. Each invocation and each pass of
the cursor loop takes one unit of `fuel`. (The texts of the first error
returns are those of the format strings without their formatting slips.) -/
def resourceVultrIsoDelete {σ : Type} (c : Client σ) (lib : GoLib) :
    Nat → ResourceData → σ → Run σ
  | 0 => fun d s => ⟨.running, d, s, []⟩
  | fuel + 1 => fun d s =>
    match c.ISODelete s d.id with
    | (none, s1) => ⟨.done none, d, s1, [.isoDelete d.id]⟩
    | (some err, s1) =>
      match lib.jsonDecodeError err with
      | .error jsonErr =>
        ⟨.done (some ("error destroying ISO " ++ d.id ++ " : " ++ err ++ ": " ++ jsonErr)), d, s1,
          [.isoDelete d.id]⟩
      | .ok attachedErr =>
        if !stringsContains attachedErr "is still attached to" then
          ⟨.done (some ("error destroying ISO " ++ d.id ++ " : " ++ err)), d, s1,
            [.isoDelete d.id]⟩
        else
          let ip := lastPart (stringsSplit attachedErr)
          if !lib.netParseIP ip then
            ⟨.done (some ("error destroying ISO " ++ d.id
                ++ " : failed to parse IP to which ISO is attached")), d, s1, [.isoDelete d.id]⟩
          else
            let m : ListOptions := { PerPage := 50 }
            match c.InstanceList s1 m with
            | (.error _, s2) =>
              ⟨.done (some ("error destroying ISO " ++ d.id
                  ++ " : failed to list instances for detaching ISO")), d, s2,
                [.isoDelete d.id, .instanceList m]⟩
            | (.ok (insts, next), s2) =>
              match scanInstances c lib (resourceVultrIsoDelete c lib fuel) d ip insts s2 with
              | some r => r.after [.isoDelete d.id, .instanceList m]
              | none =>
                (laterBatches c lib (resourceVultrIsoDelete c lib fuel) d ip next fuel s2).after
                  [.isoDelete d.id, .instanceList m]

/-! ## The DNS-domain resource -/

/-- The function `resourceVultrDNSDomainRead`. -/
def resourceVultrDNSDomainRead {σ : Type} (c : Client σ) (d : ResourceData) (s : σ) : Run σ :=
  match c.DomainGet s d.id with
  | (.error err, s1) => ⟨.done (some ("error getting domains : " ++ err)), d, s1, [.domainGet d.id]⟩
  | (.ok domain, s1) =>
    ⟨.done none,
      d.Set "domain" (.str domain.Domain)
        |>.Set "date_created" (.str domain.DateCreated)
        |>.Set "dns_sec" (.str domain.DNSSec),
      s1, [.domainGet d.id]⟩

/-- The request `domainReq` of `resourceVultrDNSDomainCreate`. -/
def domainReq (d : ResourceData) : DomainReq :=
  let req : DomainReq := { Domain := d.GetString "domain", DNSSec := d.GetString "dns_sec" }
  match d.GetOkString "ip" with
  | some ip => { req with IP := ip }
  | none => req

/-- The function `resourceVultrDNSDomainCreate`. -/
def resourceVultrDNSDomainCreate {σ : Type} (c : Client σ) (d : ResourceData) (s : σ) : Run σ :=
  match c.DomainCreate s (domainReq d) with
  | (.error err, s1) =>
    ⟨.done (some ("error while creating domain : " ++ err)), d, s1, [.domainCreate (domainReq d)]⟩
  | (.ok domain, s1) =>
    (resourceVultrDNSDomainRead c (d.SetId domain.Domain) s1).after [.domainCreate (domainReq d)]

/-! ## Listings -/

/-- The listing that starts in world `s` with the options `o` answers the
pages `pages` (records and next cursor of each) one after the other: every
fetch succeeds, every page but the last has a non-empty next cursor, which is
the cursor of the following fetch, and the last page has an empty one. -/
def Listing {σ α : Type} (list : σ → ListOptions → Except String (List α × String) × σ) :
    σ → ListOptions → List (List α × String) → Prop
  | _, _, [] => False
  | s, o, [p] => (list s o).1 = .ok p ∧ p.2 = ""
  | s, o, p :: q :: rest =>
    (list s o).1 = .ok p ∧ p.2 ≠ "" ∧
      Listing list (list s o).2 { o with Cursor := p.2 } (q :: rest)

/-- The records of all pages, in listing order. -/
def records {α : Type} : List (List α × String) → List α
  | [] => []
  | p :: rest => p.1 ++ records rest

/-- The record `r` flattens and `filterLoop` accepts its flattening. -/
def accepts {α M : Type} (structToMap : α → Except String M) (keep : M → Bool) (r : α) : Bool :=
  match structToMap r with
  | .ok m => keep m
  | .error _ => false

/-- The records of all pages that satisfy the filter. -/
def matching {α M : Type} (structToMap : α → Except String M) (keep : M → Bool)
    (pages : List (List α × String)) : List α :=
  (records pages).filter (accepts structToMap keep)

/-- The contract of a lookup over `n` matching records: success exactly when
`n = 1`, "no results" when `n = 0`, "too many results" when `n ≥ 2`. -/
def LookupOutcome {σ : Type} (r : Run σ) (n : Nat) : Prop :=
  (r.succeeded ↔ n = 1) ∧ (n = 0 → r.status = .done (some noResults)) ∧
    (2 ≤ n → r.status = .done (some tooManyResults))

/-! ## A remote model for concrete runs -/

/-- A remote state: the page tables of the listings (cursor, records, next
cursor), the IPv4 records of each instance, the instances the ISO is still
attached to, and the answers of the coming `ISO.Get` calls. -/
structure Remote where
  blocks : List (String × List BlockStorage × String) := []
  servers : List (String × List BareMetalServer × String) := []
  instances : List (String × List Instance × String) := []
  isos : List (String × List ISO × String) := []
  ipv4s : List (String × List IPv4) := []
  attached : List Instance := []
  isoGets : List (Except String ISO) := []
  created : Except String ISO := .error "quota exceeded"

/-- The page a table holds for the cursor of `o`; an unknown cursor is a fetch error. -/
def pageOf {α : Type} (table : List (String × List α × String)) (o : ListOptions) :
    Except String (List α × String) :=
  match table.find? (fun e => e.1 == o.Cursor) with
  | some e => .ok e.2
  | none => .error ("invalid cursor " ++ o.Cursor)

/-- The error text of an ISO delete that an attachment to the instance with
main IP `ip` blocks. -/
def stillAttached (ip : String) : String :=
  "\x7b\"error\":\"Unable to delete ISO, it is still attached to " ++ ip ++ "\",\"status\":400\x7d"

/-- An instance with the given ID and main IP, all other fields empty. -/
def instanceOf (id mainIP : String) : Instance :=
  { ID := id, Os := "", RAM := 0, Disk := 0, MainIP := mainIP, VCPUCount := 0, Region := "",
    DateCreated := "", AllowedBandwidth := 0, NetmaskV4 := "", GatewayV4 := "", Status := "",
    PowerStatus := "", ServerStatus := "", Plan := "", Label := "", InternalIP := "", KVM := "",
    Tag := "", OsID := 0, AppID := 0, ImageID := "", FirewallGroupID := "", V6Network := "",
    V6MainIP := "", V6NetworkSize := 0, Features := [], Hostname := "" }

/-- A block-storage record with the given ID and label, all other fields empty. -/
def blockOf (id label : String) : BlockStorage :=
  { ID := id, Cost := 0, Status := "", SizeGB := 0, Region := "", DateCreated := "",
    AttachedToInstance := "", Label := label, MountID := "" }

/-- A bare-metal record with the given ID and label, all other fields empty. -/
def serverOf (id label : String) : BareMetalServer :=
  { ID := id, Os := "", RAM := "", Disk := "", MainIP := "", CPUCount := 0, Region := "",
    DateCreated := "", Status := "", NetmaskV4 := "", GatewayV4 := "", Plan := "", Label := label,
    Tag := "", MacAddress := 0, OsID := 0, AppID := 0, ImageID := "", V6Network := "",
    V6MainIP := "", V6NetworkSize := 0, Features := [] }

/-- An ISO record with the given ID, file name and status, all other fields empty. -/
def isoOf (id fileName status : String) : ISO :=
  { ID := id, DateCreated := "", FileName := fileName, Size := 0, MD5Sum := "", SHA512Sum := "",
    Status := status }

/-- A client over the remote model. Listings answer from the page tables and
leave the state as it is. `ISO.Delete` fails, naming the main IP of the first
instance still attached, while one is; `DetachISO` removes the attachment of
the instance; `ISOStatus` answers `isomounted` for an attached instance and
`ready` otherwise; `ISO.Get` gives the scripted answers in turn. -/
def remoteClient : Client Remote where
  BlockStorageList := fun w o => (pageOf w.blocks o, w)
  BareMetalServerList := fun w o => (pageOf w.servers o, w)
  InstanceList := fun w o => (pageOf w.instances o, w)
  ISOList := fun w o => (pageOf w.isos o, w)
  InstanceListIPv4 := fun w id =>
    (match w.ipv4s.find? (fun e => e.1 == id) with
      | some e => .ok e.2
      | none => .error "invalid instance", w)
  InstanceGetBackupSchedule := fun w _ =>
    (.ok { Enabled := some false, ScheduleType := "", Hour := 0, Dom := 0, Dow := 0 }, w)
  InstanceDetachISO := fun w id => (none, { w with attached := w.attached.filter (fun i => i.ID != id) })
  InstanceISOStatus := fun w id =>
    (.ok { State := if w.attached.any (fun i => i.ID == id) then "isomounted" else "ready",
           IsoID := "" }, w)
  DomainGet := fun w name => (.ok { Domain := name, DateCreated := "", DNSSec := "disabled" }, w)
  DomainCreate := fun w req => (.ok { Domain := req.Domain, DateCreated := "", DNSSec := req.DNSSec }, w)
  ISOCreate := fun w _ => (w.created, w)
  ISOGet := fun w _ =>
    match w.isoGets with
    | [] => (.error "connection reset", w)
    | a :: rest => (a, { w with isoGets := rest })
  ISODelete := fun w _ =>
    match w.attached with
    | [] => (none, w)
    | i :: _ => (some (stillAttached i.MainIP), w)

/-- A filter engine for concrete runs: a flattened record is the list of its
fields, and a record matches when every clause names a field whose value is
one of the clause's values. -/
def remoteHelpers : Helpers Remote RawFilter (List (String × String)) where
  buildVultrDataSourceFilter := fun f => f
  filterLoop := fun f m =>
    f.all (fun clause => (m.filter (fun kv => kv.1 == clause.1)).any (fun kv => clause.2.contains kv.2))
  structToMapBlockStorage := fun b => .ok [("id", b.ID), ("label", b.Label)]
  structToMapBareMetalServer := fun b => .ok [("id", b.ID), ("label", b.Label)]
  structToMapInstance := fun i => .ok [("id", i.ID), ("label", i.Label), ("main_ip", i.MainIP)]
  structToMapISO := fun i => .ok [("id", i.ID), ("filename", i.FileName)]
  structToMapIPv4 := fun i => .ok [("ip", i.IP), ("reverse", i.Reverse)]
  backupStatus := fun e => if e = some true then "enabled" else "disabled"
  getPrivateNetworks := fun w _ => (.ok [], w)

/-- The characters of `s` up to the first `stop`, when there is one. -/
def upTo (stop : Char) : List Char → Option (List Char)
  | [] => none
  | c :: cs => if c = stop then some [] else (upTo stop cs).map (fun t => c :: t)

/-- A decoder for error texts of the form `{"error":"<text>", ...}`: it
answers `<text>`, and fails on a text of another form. -/
def decodeErrorField (s : String) : Except String String :=
  let opening := "\x7b\"error\":\"".data
  if opening.isPrefixOf s.data then
    match upTo '"' (s.data.drop opening.length) with
    | some t => .ok (String.mk t)
    | none => .error "unexpected EOF"
  else .error "invalid character"

/-- A dotted quad of decimal numbers below 256. -/
def isDottedQuad (s : String) : Bool :=
  let parts := splitChars '.' s.data
  parts.length == 4 &&
    parts.all (fun p => !p.isEmpty && p.length ≤ 3 && p.all Char.isDigit &&
      p.foldl (fun n c => 10 * n + (c.toNat - 48)) 0 < 256)

/-- The library functions for concrete runs; a wait has room for 5 refreshes. -/
def remoteLib : GoLib where
  jsonDecodeError := decodeErrorField
  netParseIP := isDottedQuad
  waitTicks := 5

/-- A remote state with a block-storage listing of two pages; only `b2` has
the label `tf-bs-rs-1234`. -/
def twoPageRemote : Remote :=
  { blocks := [("", [blockOf "b1" "data", blockOf "b2" "tf-bs-rs-1234"], "p2"),
               ("p2", [blockOf "b3" "logs"], "")],
    servers := [("", [serverOf "m1" "tf-bs-rs-1234"], "")],
    isos := [("", [isoOf "i1" "tf-bs-rs-1234" "complete", isoOf "i2" "other.iso" "complete"], "")],
    instances := [("", [instanceOf "v1" "192.0.2.5"], "p2"),
                  ("p2", [instanceOf "v2" "192.0.2.6"], "")] }

/-- A resource data with the one filter clause `(name, [value])`. -/
def dataWithFilter (name value : String) : ResourceData :=
  { id := "", filter := some [(name, [value])], attrs := [] }


/-- A remote state in which every listing has two pages and the label
`dup` (for ISOs the file name `dup.iso`) occurs once on each. -/
def ambiguousRemote : Remote :=
  { blocks := [("", [blockOf "b1" "dup", blockOf "b2" "data"], "p2"), ("p2", [blockOf "b3" "dup"], "")],
    servers := [("", [serverOf "m1" "dup"], "p2"), ("p2", [serverOf "m2" "x", serverOf "m3" "dup"], "")],
    isos := [("", [isoOf "i1" "dup.iso" "complete"], "p2"), ("p2", [isoOf "i2" "dup.iso" "complete"], "")],
    instances := [("", [{ instanceOf "v1" "192.0.2.5" with Label := "dup" }], "p2"),
                  ("p2", [{ instanceOf "v2" "192.0.2.6" with Label := "dup" }], "")] }

/-- The listing that starts in world `s` with the options `o` answers the
pages `pages`, each with a non-empty next cursor, and then the fetch that
follows them fails with the fault `err`. -/
def FailingListing {σ α : Type} (list : σ → ListOptions → Except String (List α × String) × σ) :
    σ → ListOptions → List (List α × String) → String → Prop
  | s, o, [], err => (list s o).1 = .error err
  | s, o, p :: rest, err =>
    (list s o).1 = .ok p ∧ p.2 ≠ "" ∧
      FailingListing list (list s o).2 { o with Cursor := p.2 } rest err

/-- The fetches that walk through `pages` from the options `o` and then issue
one more: the first with `o`, each following one with the next cursor of the
page before it. -/
def fetches (call : ListOptions → Event) {α : Type} :
    ListOptions → List (List α × String) → List Event
  | o, [] => [call o]
  | o, p :: rest => call o :: fetches call { o with Cursor := p.2 } rest

/-- A remote state whose listings answer one page and name a second one that
cannot be fetched; the first page holds exactly one record labelled `only`. -/
def brokenRemote : Remote :=
  { blocks := [("", [blockOf "b1" "only", blockOf "b2" "data"], "gone")],
    servers := [("", [serverOf "m1" "only"], "gone")],
    isos := [("", [isoOf "i1" "only" "complete"], "gone")],
    instances := [("", [{ instanceOf "v1" "192.0.2.5" with Label := "only" }], "gone")] }

/-- A resource data without a `filter` block. -/
def dataWithoutFilter : ResourceData :=
  { id := "", filter := none, attrs := [] }

/-- A remote state whose instance listing has three pages; the ISO is attached
to the instance `v3` with main IP `192.0.2.5`, which is on the third page. -/
def threePageRemote : Remote :=
  { instances := [("", [instanceOf "v1" "192.0.2.6"], "p2"),
                  ("p2", [instanceOf "v2" "192.0.2.7"], "p3"),
                  ("p3", [instanceOf "v3" "192.0.2.5"], "")],
    attached := [instanceOf "v3" "192.0.2.5"] }

/-- A remote state whose instance listing is one page without the instance
the ISO is attached to. -/
def unlistedRemote : Remote :=
  { instances := [("", [instanceOf "v1" "192.0.2.6"], "")],
    attached := [instanceOf "v9" "192.0.2.5"] }

/-- A remote state whose instance listing has two pages; the ISO is attached
to the instance `v2` on the second page. -/
def attachedRemote : Remote :=
  { instances := [("", [instanceOf "v1" "192.0.2.6"], "p2"),
                  ("p2", [instanceOf "v2" "192.0.2.5"], "")],
    attached := [instanceOf "v2" "192.0.2.5"] }

/-- The resource data of the private ISO `iso-1`. -/
def isoData : ResourceData :=
  { id := "iso-1", filter := none, attrs := [("url", .str "https://example.com/a.iso")] }

/-- A remote state whose instance listing is one page; the ISO is attached to
the instance `v2` on it. -/
def firstPageRemote : Remote :=
  { instances := [("", [instanceOf "v1" "192.0.2.6", instanceOf "v2" "192.0.2.5"], "")],
    attached := [instanceOf "v2" "192.0.2.5"] }

/-- The options of the first instance listing of `resourceVultrIsoDelete`. -/
def firstBatch : ListOptions := { PerPage := 50 }

/-- The options of the later instance listings of `resourceVultrIsoDelete`. -/
def laterBatch (next : String) : ListOptions := { PerPage := 50, Cursor := next }

/-- What holds of the run `run` of an invocation of `resourceVultrIsoDelete`
that, after the calls `before`, found the instance `inst` in world `s`, where
`reattempt` is the recursive invocation: when `DetachISO` fails, or the wait
for the detach fails, `run` is an error, it ends with that call or wait, and
it issues no `ISO.Delete` after `before`; when both succeed, `run` is the
re-attempt started in the world the wait left, preceded by `before`, the
detach and the wait, and by nothing else. -/
def RetriesOnce {σ : Type} (c : Client σ) (lib : GoLib) (d : ResourceData) (inst : Instance)
    (s : σ) (before : List Event) (reattempt : ResourceData → σ → Run σ) (run : Run σ) : Prop :=
  (∀ e s1, c.InstanceDetachISO s inst.ID = (some e, s1) →
    run.failed ∧ run.trace = before ++ [.detachISO inst.ID] ∧
      ∀ id, Event.isoDelete id ∉ run.trace.drop before.length) ∧
  (∀ s1, c.InstanceDetachISO s inst.ID = (none, s1) →
    (∀ e, (waitForIsoDetached c lib inst.ID "ready" ["isomounted"] "status" s1).result = .error e →
      run.failed ∧
      run.trace = before ++ .detachISO inst.ID ::
        (waitForIsoDetached c lib inst.ID "ready" ["isomounted"] "status" s1).trace ∧
      ∀ id, Event.isoDelete id ∉ run.trace.drop before.length) ∧
    (∀ p, (waitForIsoDetached c lib inst.ID "ready" ["isomounted"] "status" s1).result = .ok p →
      run = (reattempt d
          (waitForIsoDetached c lib inst.ID "ready" ["isomounted"] "status" s1).world).after
        (before ++ .detachISO inst.ID ::
          (waitForIsoDetached c lib inst.ID "ready" ["isomounted"] "status" s1).trace)))

/-- A remote state in which the ISO is created, becomes `complete` at the
second refresh, and is gone when it is read after the wait. -/
def vanishingRemote : Remote :=
  { created := .ok (isoOf "iso-1" "a.iso" "pending"),
    isoGets := [.ok (isoOf "iso-1" "a.iso" "pending"), .ok (isoOf "iso-1" "a.iso" "complete"),
                .error "Invalid iso"] }

/-- A remote state in which the ISO is created and stays `pending` for as
long as the wait lasts. -/
def pendingRemote : Remote :=
  { created := .ok (isoOf "iso-1" "a.iso" "pending"),
    isoGets := List.replicate 5 (.ok (isoOf "iso-1" "a.iso" "pending")) }

/-- The resource data of a private ISO that is not yet created. -/
def newIsoData : ResourceData :=
  { id := "", filter := none, attrs := [("url", .str "https://example.com/a.iso")] }

/-- An IPv4 record with the given address and reverse name. -/
def ipv4Of (ip reverse : String) : IPv4 :=
  { IP := ip, Netmask := "255.255.255.0", Gateway := "192.0.2.1", Reverse := reverse }

/-- A remote state with the one instance `v1`, whose IPv4 listing holds the
record with the reverse name `a.example.com` first and another record after it. -/
def reverseRemote : Remote :=
  { instances := [("", [instanceOf "v1" "192.0.2.5"], "")],
    ipv4s := [("v1", [ipv4Of "192.0.2.5" "a.example.com", ipv4Of "192.0.2.9" "b.example.com"])] }

/-- The keys of `ResourcesMap`, `DataSourcesMap` and `Schema` of a `schema.Provider`. -/
structure ProviderMaps where
  Schema : List String
  DataSourcesMap : List String
  ResourcesMap : List String
  deriving DecidableEq, Repr

/-- The function `Provider`: the keys of its three maps, in the order of the source. -/
def Provider : ProviderMaps :=
  { Schema := ["api_key", "rate_limit", "retry_limit"],
    DataSourcesMap :=
      ["vultr_account", "vultr_application", "vultr_backup", "vultr_bare_metal_plan",
       "vultr_bare_metal_server", "vultr_block_storage", "vultr_dns_domain",
       "vultr_firewall_group", "vultr_iso_private", "vultr_iso_public", "vultr_load_balancer",
       "vultr_private_network", "vultr_object_storage", "vultr_os", "vultr_plan", "vultr_region",
       "vultr_reserved_ip", "vultr_reverse_ipv4", "vultr_reverse_ipv6", "vultr_instance",
       "vultr_instance_ipv4", "vultr_snapshot", "vultr_ssh_key", "vultr_startup_script",
       "vultr_user"],
    ResourcesMap :=
      ["vultr_bare_metal_server", "vultr_block_storage", "vultr_dns_domain", "vultr_dns_record",
       "vultr_firewall_group", "vultr_firewall_rule", "vultr_iso_private", "vultr_kubernetes",
       "vultr_kubernetes_node_pools", "vultr_load_balancer", "vultr_private_network",
       "vultr_object_storage", "vultr_reserved_ip", "vultr_reverse_ipv4", "vultr_reverse_ipv6",
       "vultr_snapshot", "vultr_snapshot_from_url", "vultr_instance", "vultr_instance_ipv4",
       "vultr_ssh_key", "vultr_startup_script", "vultr_user"] }

/-- The resource types of the configurations the acceptance tests apply:
`testAccVultrBlockStorageConfig` and its variants declare `vultr_block_storage`
and `vultr_instance`, `testAccVultrContainerRegistryBase` declares
`vultr_container_registry`. -/
def testedResourceTypes : List String :=
  ["vultr_block_storage", "vultr_instance", "vultr_container_registry"]

/-! ## The filter engine, from the specification -/

/-- A leaf value of a flattened record: a string, a number or a boolean. -/
inductive Scalar where
  | str (s : String)
  | int (i : Int)
  | bool (b : Bool)
  deriving DecidableEq, Repr

/-- Modelled from the spec: the string representation of a leaf value, which
the filter engine compares with the accepted values ("numeric and boolean leaf
values are converted to their string representation"). -/
def Scalar.text : Scalar → String
  | .str s => s
  | .int i => toString i
  | .bool b => toString b

/-- The value of a field of a flattened record: a scalar or a list of scalars. -/
inductive FieldValue where
  | scalar (v : Scalar)
  | list (l : List Scalar)
  deriving DecidableEq, Repr

/-- The string forms of a field value: that of the scalar, or those of the
elements of the list. -/
def FieldValue.texts : FieldValue → List String
  | .scalar v => [v.text]
  | .list l => l.map Scalar.text

/-- The `FlattenedRecord` of the specification: field names with their values. -/
abbrev FlattenedRecord := List (String × FieldValue)

/-- The `FilterSpec` of the specification: clauses `(fieldName, acceptedValues)`. -/
abbrev FilterSpec := List (String × List String)

/-- The normal form of a field name: its letters in lower case ("the engine
must normalize, e.g. lower-case, both sides before compare"). -/
def lowerName (s : String) : String :=
  String.mk (s.data.map Char.toLower)

/-- Modelled from the spec: the lookup of `name` in the flattened record, which
is case-insensitive on field names; `none` when the field is absent. -/
def lookupField (m : FlattenedRecord) (name : String) : Option FieldValue :=
  (m.find? (fun kv => lowerName kv.1 == lowerName name)).map Prod.snd

/-- Modelled from the spec: whether the string form `text` is one of the
accepted values of a clause (plain string comparison). -/
def valuesLoop : List String → String → Bool
  | [], _ => false
  | v :: rest, text => if v = text then true else valuesLoop rest text

/-- Modelled from the spec: whether the record satisfies one clause. An absent
field does not match; a scalar matches when its string form is accepted; a
list matches when the string form of one of its elements is. -/
def clauseMatches (m : FlattenedRecord) (clause : String × List String) : Bool :=
  match lookupField m clause.1 with
  | none => false
  | some (.scalar v) => valuesLoop clause.2 v.text
  | some (.list l) => l.any (fun v => valuesLoop clause.2 v.text)

/-- Modelled from the spec: `filterLoop`, whose source is not part of the
development, as `matches(filterSpec, flattenedRecord)` of the specification:
the record matches when every clause matches. -/
def filterLoop : FilterSpec → FlattenedRecord → Bool
  | [], _ => true
  | clause :: rest, m => if clauseMatches m clause then filterLoop rest m else false

/-- The flattened record with the one field `label`. -/
def labelled (label : String) : FlattenedRecord :=
  [("label", .scalar (.str label))]

/-- Successive refreshes from the world `s` succeed and observe `obs` (payload
and state of each tick), leaving the world `s2`. -/
def Observes {σ P : Type} (refresh : σ → Except String (P × String) × σ) :
    σ → List (P × String) → σ → Prop
  | s, [], s2 => s2 = s
  | s, o :: rest, s2 => (refresh s).1 = .ok o ∧ Observes refresh (refresh s).2 rest s2

/-- A remote state in which the ISO is `pending` at two refreshes and
`complete` at the third. -/
def completingRemote : Remote :=
  { isoGets := [.ok (isoOf "iso-1" "a.iso" "pending"), .ok (isoOf "iso-1" "a.iso" "pending"),
                .ok (isoOf "iso-1" "a.iso" "complete")] }

/-- The resource data of a DNS domain to create, with `ip` set. -/
def domainData : ResourceData :=
  { id := "", filter := none,
    attrs := [("domain", .str "example.com"), ("dns_sec", .str "disabled"),
              ("ip", .str "192.0.2.5")] }

/-- The fetches that walk through the pages `pages` from the options `o`: one
for each page, the first with `o`, each following one with the next cursor of
the page before it. -/
def pageFetches (call : ListOptions → Event) {α : Type} :
    ListOptions → List (List α × String) → List Event
  | _, [] => []
  | o, p :: rest => call o :: pageFetches call { o with Cursor := p.2 } rest

/-- A filter engine for concrete runs whose flattening of a block-storage
record fails when the record has no label. -/
def strictHelpers : Helpers Remote RawFilter (List (String × String)) :=
  { remoteHelpers with
    structToMapBlockStorage := fun b =>
      if b.Label = "" then .error "json: unsupported value"
      else .ok [("id", b.ID), ("label", b.Label)] }

/-- A remote state with a block-storage listing of two pages whose first page
holds a record without a label. -/
def unlabelledRemote : Remote :=
  { blocks := [("", [blockOf "b1" ""], "p2"), ("p2", [blockOf "b2" "data"], "")] }

/-- A resource data with the two filter clauses `instance_id = v1` and
`reverse = a.example.com`. -/
def dataWithInstanceFilter : ResourceData :=
  { id := "", filter := some [("instance_id", ["v1"]), ("reverse", ["a.example.com"])],
    attrs := [] }

/-- A remote state in which the delete error of the ISO names no IP address. -/
def namelessRemote : Remote :=
  { instances := [("", [instanceOf "v1" "192.0.2.5"], "")],
    attached := [instanceOf "v1" "unknown"] }

/-- The error text of the API for an ISO that does not exist. -/
def invalidIso : String :=
  "\x7b\"error\":\"Invalid iso\",\"status\":404\x7d"

/-- A remote state in which `ISO.Get` fails with the invalid-ISO error of the API. -/
def goneRemote : Remote :=
  { isoGets := [.error invalidIso] }

/-- A remote state in which `ISO.Get` fails with the error text `iso`. -/
def shortErrorRemote : Remote :=
  { isoGets := [.error "iso"] }

/-- The client over the remote model whose `GetBackupSchedule` fails. -/
def scheduleDownClient : Client Remote :=
  { remoteClient with
    InstanceGetBackupSchedule := fun w _ => (.error "service unavailable", w) }

/-- A remote state with a block-storage listing of two pages: one record
labelled `dup` on the first, and on the second a record without a label
followed by another record labelled `dup`. -/
def mixedRemote : Remote :=
  { blocks := [("", [blockOf "b1" "dup"], "p2"),
               ("p2", [blockOf "b2" "", blockOf "b3" "dup"], "")] }

/-- A remote state whose block-storage listing answers one page, which holds
a record without a label, and names a second page that cannot be fetched. -/
def brokenUnlabelledRemote : Remote :=
  { blocks := [("", [blockOf "b1" ""], "gone")] }

/-- A remote state with a block-storage listing of one page: the record
labelled `only` and a record without a label. -/
def partlyLabelledRemote : Remote :=
  { blocks := [("", [blockOf "b1" "only", blockOf "b2" ""], "")] }

/-- In the cursor loop of `resourceVultrIsoDelete`, `k` successive passes from
the world `s`: each lists with the cursor `next`, the listing succeeds and
holds no instance whose main IP is `ip`; `s2` is the world after them. -/
def EmptyPasses {σ : Type} (c : Client σ) (ip next : String) : Nat → σ → σ → Prop
  | 0, s, s2 => s2 = s
  | k + 1, s, s2 =>
    ∃ insts nx s1, c.InstanceList s (laterBatch next) = (.ok (insts, nx), s1) ∧
      insts.find? (fun i => i.MainIP == ip) = none ∧ EmptyPasses c ip next k s1 s2

/-- A client over the remote model whose instance listing changes between
calls: each call answers the first page left in the table, whatever the
cursor, and removes it. -/
def shiftingClient : Client Remote :=
  { remoteClient with
    InstanceList := fun w _ =>
      match w.instances with
      | [] => (.error "no more pages", w)
      | e :: rest => (.ok e.2, { w with instances := rest }) }

/-- A remote state for `shiftingClient`: the first listing and the first
listing with the cursor `p2` hold no instance with the main IP `192.0.2.5`;
the second listing with that cursor holds `v2`, to which the ISO is attached. -/
def shiftingRemote : Remote :=
  { instances := [("", [instanceOf "v1" "192.0.2.6"], "p2"),
                  ("p2", [instanceOf "v3" "192.0.2.7"], "p3"),
                  ("p2", [instanceOf "v2" "192.0.2.5"], "")],
    attached := [instanceOf "v2" "192.0.2.5"] }

/-- The fetches of the IPv4 listings of the instances `ids`, one after the
other from the world `s`, all succeed. -/
def IPv4Listings {σ : Type} (c : Client σ) : σ → List String → Prop
  | _, [] => True
  | s, id :: rest =>
    (∃ ipv4s, (c.InstanceListIPv4 s id).1 = .ok ipv4s) ∧
      IPv4Listings c (c.InstanceListIPv4 s id).2 rest

/-- A remote state with the three instances `v1`, `v2`, `v3` on one page, each
with one IPv4 record whose reverse name is `dup.example.com`. -/
def threeInstanceRemote : Remote :=
  { instances := [("", [instanceOf "v1" "192.0.2.5", instanceOf "v2" "192.0.2.6",
                        instanceOf "v3" "192.0.2.7"], "")],
    ipv4s := [("v1", [ipv4Of "192.0.2.5" "dup.example.com"]),
              ("v2", [ipv4Of "192.0.2.6" "dup.example.com"]),
              ("v3", [ipv4Of "192.0.2.7" "dup.example.com"])] }

/-! # Theorems

## Lemmas on the paginated loop -/

theorem filterPage_ok {α M : Type} (structToMap : α → Except String M) (keep : M → Bool) :
    ∀ (page acc : List α), (∀ r ∈ page, ∃ m, structToMap r = .ok m) →
      filterPage structToMap keep page acc = .ok (acc ++ page.filter (accepts structToMap keep))
  | [], acc, _ => by simp [filterPage]
  | b :: rest, acc, hflat => by
    obtain ⟨m, hm⟩ := hflat b (List.mem_cons_self _ _)
    have ih := fun acc1 => filterPage_ok structToMap keep rest acc1
      (fun r hr => hflat r (List.mem_cons_of_mem _ hr))
    simp only [filterPage, hm, ih]
    by_cases hk : keep m = true
    · simp [accepts, hm, hk, List.filter_cons]
    · simp [accepts, hm, hk, List.filter_cons]

theorem pagedFilter_listing {σ α M : Type}
    (list : σ → ListOptions → Except String (List α × String) × σ) (call : ListOptions → Event)
    (structToMap : α → Except String M) (keep : M → Bool) :
    ∀ (pages : List (List α × String)) (fuel : Nat) (s : σ) (o : ListOptions) (acc : List α),
      Listing list s o pages → (∀ r ∈ records pages, ∃ m, structToMap r = .ok m) →
      pages.length ≤ fuel →
      (pagedFilter list call structToMap keep fuel s o acc).result
        = .found (acc ++ matching structToMap keep pages)
  | [], _, _, _, _, hl, _, _ => by simp [Listing] at hl
  | [p], fuel, s, o, acc, hl, hflat, hfuel => by
    obtain ⟨hp, hnext⟩ := hl
    cases fuel with
    | zero => simp at hfuel
    | succ fuel =>
      obtain ⟨page, next⟩ := p
      simp only at hnext
      subst hnext
      have hpage := filterPage_ok structToMap keep page acc
        (fun r hr => hflat r (by simp [records, hr]))
      rcases hls : list s o with ⟨res, s1⟩
      rw [hls] at hp
      simp only at hp
      subst hp
      simp [pagedFilter, hls, hpage, matching, records]
  | p :: q :: rest, fuel, s, o, acc, hl, hflat, hfuel => by
    obtain ⟨hp, hnext, hrest⟩ := hl
    cases fuel with
    | zero => simp at hfuel
    | succ fuel =>
      obtain ⟨page, next⟩ := p
      simp only at hnext
      have hpage := filterPage_ok structToMap keep page acc
        (fun r hr => hflat r (by simp [records, hr]))
      rcases hls : list s o with ⟨res, s1⟩
      rw [hls] at hp hrest
      simp only at hp hrest
      subst hp
      have ih := pagedFilter_listing list call structToMap keep (q :: rest) fuel s1
        { o with Cursor := next } (acc ++ page.filter (accepts structToMap keep)) hrest
        (fun r hr => hflat r (by
          simp only [records, List.mem_append] at hr ⊢
          exact Or.inr hr))
        (by simpa using hfuel)
      simp only [pagedFilter, hls, hpage, hnext, if_false, ih]
      simp [matching, records, List.filter_append]

theorem lookupOutcome_of_list {σ α : Type} (r : Run σ) (l : List α)
    (h0 : l = [] → r.status = .done (some noResults))
    (h1 : ∀ b, l = [b] → r.status = .done none)
    (h2 : ∀ a b t, l = a :: b :: t → r.status = .done (some tooManyResults)) :
    LookupOutcome r l.length := by
  match l, h0, h1, h2 with
  | [], h0, _, _ => simp [LookupOutcome, Run.succeeded, h0 rfl]
  | [b], _, h1, _ => simp [LookupOutcome, Run.succeeded, h1 b rfl]
  | a :: b :: t, _, _, h2 => simp [LookupOutcome, Run.succeeded, h2 a b t rfl]

theorem matching_length_two {α M : Type} (structToMap : α → Except String M) (keep : M → Bool)
    (p : List α × String) (rest : List (List α × String)) (r : α)
    (h1 : (p.1.filter (accepts structToMap keep)).length = 1)
    (hr : r ∈ records rest) (ha : accepts structToMap keep r = true) :
    2 ≤ (matching structToMap keep (p :: rest)).length := by
  have hmem : r ∈ (records rest).filter (accepts structToMap keep) :=
    List.mem_filter.mpr ⟨hr, ha⟩
  have hpos : 0 < ((records rest).filter (accepts structToMap keep)).length :=
    List.length_pos_of_mem hmem
  simp only [matching, records, List.filter_append, List.length_append, h1]
  omega

/-! ## The four lookups over a finite listing -/

theorem blockStorageRead_listing {σ F M : Type} (c : Client σ) (h : Helpers σ F M)
    (fuel : Nat) (d : ResourceData) (s : σ) (filters : RawFilter)
    (hfilter : d.filter = some filters) (pages : List (List BlockStorage × String))
    (hl : Listing c.BlockStorageList s {} pages)
    (hflat : ∀ r ∈ records pages, ∃ m, h.structToMapBlockStorage r = .ok m)
    (hfuel : pages.length ≤ fuel) :
    LookupOutcome (dataSourceVultrBlockStorageRead c h fuel d s)
        (matching h.structToMapBlockStorage
          (h.filterLoop (h.buildVultrDataSourceFilter filters)) pages).length ∧
      ((dataSourceVultrBlockStorageRead c h fuel d s).status = .done (some tooManyResults) →
        (dataSourceVultrBlockStorageRead c h fuel d s).d = d) := by
  have hp := pagedFilter_listing c.BlockStorageList Event.blockStorageList
    h.structToMapBlockStorage (h.filterLoop (h.buildVultrDataSourceFilter filters))
    pages fuel s {} [] hl hflat hfuel
  rw [List.nil_append] at hp
  refine ⟨?_, ?_⟩
  · apply lookupOutcome_of_list
    · intro h0; simp [dataSourceVultrBlockStorageRead, hfilter, hp, h0]
    · intro b h1; simp [dataSourceVultrBlockStorageRead, hfilter, hp, h1]
    · intro a b t h2; simp [dataSourceVultrBlockStorageRead, hfilter, hp, h2]
  · simp only [dataSourceVultrBlockStorageRead, hfilter, hp]
    split <;> simp

theorem bareMetalServerRead_listing {σ F M : Type} (c : Client σ) (h : Helpers σ F M)
    (fuel : Nat) (d : ResourceData) (s : σ) (filters : RawFilter)
    (hfilter : d.filter = some filters) (pages : List (List BareMetalServer × String))
    (hl : Listing c.BareMetalServerList s {} pages)
    (hflat : ∀ r ∈ records pages, ∃ m, h.structToMapBareMetalServer r = .ok m)
    (hfuel : pages.length ≤ fuel) :
    LookupOutcome (dataSourceVultrBareMetalServerRead c h fuel d s)
        (matching h.structToMapBareMetalServer
          (h.filterLoop (h.buildVultrDataSourceFilter filters)) pages).length ∧
      ((dataSourceVultrBareMetalServerRead c h fuel d s).status = .done (some tooManyResults) →
        (dataSourceVultrBareMetalServerRead c h fuel d s).d = d) := by
  have hp := pagedFilter_listing c.BareMetalServerList Event.bareMetalServerList
    h.structToMapBareMetalServer (h.filterLoop (h.buildVultrDataSourceFilter filters))
    pages fuel s {} [] hl hflat hfuel
  rw [List.nil_append] at hp
  refine ⟨?_, ?_⟩
  · apply lookupOutcome_of_list
    · intro h0; simp [dataSourceVultrBareMetalServerRead, hfilter, hp, h0]
    · intro b h1; simp [dataSourceVultrBareMetalServerRead, hfilter, hp, h1]
    · intro a b t h2; simp [dataSourceVultrBareMetalServerRead, hfilter, hp, h2]
  · simp only [dataSourceVultrBareMetalServerRead, hfilter, hp]
    split <;> simp

theorem isoPrivateRead_listing {σ F M : Type} (c : Client σ) (h : Helpers σ F M)
    (fuel : Nat) (d : ResourceData) (s : σ) (filters : RawFilter)
    (hfilter : d.filter = some filters) (pages : List (List ISO × String))
    (hl : Listing c.ISOList s {} pages)
    (hflat : ∀ r ∈ records pages, ∃ m, h.structToMapISO r = .ok m)
    (hfuel : pages.length ≤ fuel) :
    LookupOutcome (dataSourceVultrIsoPrivateRead c h fuel d s)
        (matching h.structToMapISO
          (h.filterLoop (h.buildVultrDataSourceFilter filters)) pages).length ∧
      ((dataSourceVultrIsoPrivateRead c h fuel d s).status = .done (some tooManyResults) →
        (dataSourceVultrIsoPrivateRead c h fuel d s).d = d) := by
  have hp := pagedFilter_listing c.ISOList Event.isoList
    h.structToMapISO (h.filterLoop (h.buildVultrDataSourceFilter filters))
    pages fuel s {} [] hl hflat hfuel
  rw [List.nil_append] at hp
  refine ⟨?_, ?_⟩
  · apply lookupOutcome_of_list
    · intro h0; simp [dataSourceVultrIsoPrivateRead, hfilter, hp, h0]
    · intro b h1; simp [dataSourceVultrIsoPrivateRead, hfilter, hp, h1]
    · intro a b t h2; simp [dataSourceVultrIsoPrivateRead, hfilter, hp, h2]
  · simp only [dataSourceVultrIsoPrivateRead, hfilter, hp]
    split <;> simp

theorem instanceRead_listing {σ F M : Type} (c : Client σ) (h : Helpers σ F M)
    (fuel : Nat) (d : ResourceData) (s : σ) (filters : RawFilter)
    (hfilter : d.filter = some filters) (pages : List (List Instance × String))
    (hl : Listing c.InstanceList s {} pages)
    (hflat : ∀ r ∈ records pages, ∃ m, h.structToMapInstance r = .ok m)
    (hfuel : pages.length ≤ fuel) :
    ((∀ s1 id, ∃ schedule, (c.InstanceGetBackupSchedule s1 id).1 = .ok schedule) →
      (∀ s1 id, ∃ pn, (h.getPrivateNetworks s1 id).1 = .ok pn) →
      LookupOutcome (dataSourceVultrInstanceRead c h fuel d s)
        (matching h.structToMapInstance
          (h.filterLoop (h.buildVultrDataSourceFilter filters)) pages).length) ∧
      (2 ≤ (matching h.structToMapInstance
          (h.filterLoop (h.buildVultrDataSourceFilter filters)) pages).length →
        (dataSourceVultrInstanceRead c h fuel d s).status = .done (some tooManyResults) ∧
        (dataSourceVultrInstanceRead c h fuel d s).d = d) := by
  have hp := pagedFilter_listing c.InstanceList Event.instanceList
    h.structToMapInstance (h.filterLoop (h.buildVultrDataSourceFilter filters))
    pages fuel s {} [] hl hflat hfuel
  rw [List.nil_append] at hp
  refine ⟨?_, ?_⟩
  · intro hsched hpn
    apply lookupOutcome_of_list
    · intro h0; simp [dataSourceVultrInstanceRead, hfilter, hp, h0]
    · intro b h1
      simp only [dataSourceVultrInstanceRead, hfilter, hp, h1]
      obtain ⟨schedule, hs⟩ := hsched
        (pagedFilter c.InstanceList Event.instanceList h.structToMapInstance
          (h.filterLoop (h.buildVultrDataSourceFilter filters)) fuel s {} []).world b.ID
      rcases hgs : c.InstanceGetBackupSchedule
        (pagedFilter c.InstanceList Event.instanceList h.structToMapInstance
          (h.filterLoop (h.buildVultrDataSourceFilter filters)) fuel s {} []).world b.ID
        with ⟨res, s2⟩
      rw [hgs] at hs
      simp only at hs
      subst hs
      simp only
      generalize hd2 : ((setInstance d b).Set "backups"
        (Val.str (h.backupStatus schedule.Enabled))).Set "backups_schedule"
        (Val.map (bsInfo schedule)) = d2
      obtain ⟨pn, hn⟩ := hpn s2 d2.id
      rcases hgn : h.getPrivateNetworks s2 d2.id with ⟨res, s3⟩
      rw [hgn] at hn
      simp only at hn
      subst hn
      rfl
    · intro a b t h2; simp [dataSourceVultrInstanceRead, hfilter, hp, h2]
  · intro h2
    simp only [dataSourceVultrInstanceRead, hfilter, hp]
    generalize matching h.structToMapInstance
      (h.filterLoop (h.buildVultrDataSourceFilter filters)) pages = l at h2
    match l, h2 with
    | _ :: _ :: _, _ => simp

theorem instanceRead_outcome {σ F M : Type} (c : Client σ) (h : Helpers σ F M)
    (fuel : Nat) (d : ResourceData) (s : σ) (filters : RawFilter)
    (hfilter : d.filter = some filters) (pages : List (List Instance × String))
    (hl : Listing c.InstanceList s {} pages)
    (hflat : ∀ r ∈ records pages, ∃ m, h.structToMapInstance r = .ok m)
    (hfuel : pages.length ≤ fuel) :
    ((matching h.structToMapInstance
        (h.filterLoop (h.buildVultrDataSourceFilter filters)) pages).length = 0 →
      (dataSourceVultrInstanceRead c h fuel d s).status = .done (some noResults)) ∧
    (2 ≤ (matching h.structToMapInstance
        (h.filterLoop (h.buildVultrDataSourceFilter filters)) pages).length →
      (dataSourceVultrInstanceRead c h fuel d s).status = .done (some tooManyResults)) ∧
    ((dataSourceVultrInstanceRead c h fuel d s).succeeded →
      (matching h.structToMapInstance
        (h.filterLoop (h.buildVultrDataSourceFilter filters)) pages).length = 1) ∧
    ((∀ s1 id, ∃ schedule, (c.InstanceGetBackupSchedule s1 id).1 = .ok schedule) →
      (∀ s1 id, ∃ pn, (h.getPrivateNetworks s1 id).1 = .ok pn) →
      (matching h.structToMapInstance
        (h.filterLoop (h.buildVultrDataSourceFilter filters)) pages).length = 1 →
      (dataSourceVultrInstanceRead c h fuel d s).succeeded) ∧
    ((∀ s1 id, ∃ err, (c.InstanceGetBackupSchedule s1 id).1 = .error err) →
      (matching h.structToMapInstance
        (h.filterLoop (h.buildVultrDataSourceFilter filters)) pages).length = 1 →
      (dataSourceVultrInstanceRead c h fuel d s).failed) ∧
    ((∀ s1 id, ∃ err, (h.getPrivateNetworks s1 id).1 = .error err) →
      (matching h.structToMapInstance
        (h.filterLoop (h.buildVultrDataSourceFilter filters)) pages).length = 1 →
      (dataSourceVultrInstanceRead c h fuel d s).failed) := by
  have hp := pagedFilter_listing c.InstanceList Event.instanceList
    h.structToMapInstance (h.filterLoop (h.buildVultrDataSourceFilter filters))
    pages fuel s {} [] hl hflat hfuel
  rw [List.nil_append] at hp
  generalize matching h.structToMapInstance
    (h.filterLoop (h.buildVultrDataSourceFilter filters)) pages = l at hp
  match l, hp with
  | [], hp =>
    simp [dataSourceVultrInstanceRead, hfilter, hp, Run.succeeded]
  | a :: b :: t, hp =>
    simp [dataSourceVultrInstanceRead, hfilter, hp, Run.succeeded]
  | [i], hp =>
    simp only [dataSourceVultrInstanceRead, hfilter, hp, List.length_singleton]
    rcases hgs : c.InstanceGetBackupSchedule
        (pagedFilter c.InstanceList Event.instanceList h.structToMapInstance
          (h.filterLoop (h.buildVultrDataSourceFilter filters)) fuel s {} []).world i.ID
      with ⟨res, s2⟩
    cases res with
    | error err =>
      refine ⟨by simp, by simp, by simp, ?_, ?_, ?_⟩
      · intro hsched _ _
        obtain ⟨schedule, hs⟩ := hsched
          (pagedFilter c.InstanceList Event.instanceList h.structToMapInstance
            (h.filterLoop (h.buildVultrDataSourceFilter filters)) fuel s {} []).world i.ID
        rw [hgs] at hs
        cases hs
      · intro _ _
        exact ⟨_, rfl⟩
      · intro _ _
        exact ⟨_, rfl⟩
    | ok schedule =>
      simp only
      generalize ((setInstance d i).Set "backups"
        (Val.str (h.backupStatus schedule.Enabled))).Set "backups_schedule"
        (Val.map (bsInfo schedule)) = d2
      rcases hgn : h.getPrivateNetworks s2 d2.id with ⟨res, s3⟩
      cases res with
      | error err =>
        refine ⟨by simp, by simp, by simp, ?_, ?_, ?_⟩
        · intro _ hpn _
          obtain ⟨pn, hn⟩ := hpn s2 d2.id
          rw [hgn] at hn
          cases hn
        · intro _ _
          exact ⟨_, rfl⟩
        · intro _ _
          exact ⟨_, rfl⟩
      | ok pn =>
        refine ⟨by simp, by simp, by simp, fun _ _ _ => rfl, ?_, ?_⟩
        · intro hsched _
          obtain ⟨err, hs⟩ := hsched
            (pagedFilter c.InstanceList Event.instanceList h.structToMapInstance
              (h.filterLoop (h.buildVultrDataSourceFilter filters)) fuel s {} []).world i.ID
          rw [hgs] at hs
          cases hs
        · intro hpn _
          obtain ⟨err, hn⟩ := hpn s2 d2.id
          rw [hgn] at hn
          cases hn

/-! ## Lookups -/

/-- C1, counterexample: the instance listing has two pages whose fetches and
flattenings succeed and exactly one record, `v1`, satisfies the filter, but
`GetBackupSchedule` fails: the instance lookup does not succeed, it returns
the error of the follow-up call. -/
theorem instanceRead_fails_with_exactly_one_match :
    Listing scheduleDownClient.InstanceList twoPageRemote {}
      [([instanceOf "v1" "192.0.2.5"], "p2"), ([instanceOf "v2" "192.0.2.6"], "")] ∧
    (∀ r ∈ records [([instanceOf "v1" "192.0.2.5"], "p2"), ([instanceOf "v2" "192.0.2.6"], "")],
      ∃ m, remoteHelpers.structToMapInstance r = .ok m) ∧
    matching remoteHelpers.structToMapInstance (remoteHelpers.filterLoop [("id", ["v1"])])
      [([instanceOf "v1" "192.0.2.5"], "p2"), ([instanceOf "v2" "192.0.2.6"], "")]
      = [instanceOf "v1" "192.0.2.5"] ∧
    (dataSourceVultrInstanceRead scheduleDownClient remoteHelpers 2 (dataWithFilter "id" "v1")
      twoPageRemote).status
      = .done (some ("error getting backup schedule: " ++ "service unavailable")) ∧
    ¬ (dataSourceVultrInstanceRead scheduleDownClient remoteHelpers 2 (dataWithFilter "id" "v1")
      twoPageRemote).succeeded := by
  refine ⟨⟨rfl, by decide, rfl, rfl⟩, fun _ _ => ⟨_, rfl⟩, by decide, by decide, by decide⟩

/-- C1, amended: over a finite listing whose fetches and flattenings all
succeed, each of the block-storage, bare-metal and private-ISO lookups succeeds
exactly when one record of all pages satisfies `filterLoop`, fails with "no
results were found" when none does and with "your search returned too many
results..." when two or more do. The instance lookup fails in these two ways
when no record or several records satisfy the filter and succeeds only when
exactly one does; with exactly one, it succeeds when its follow-up calls
`GetBackupSchedule` and `getPrivateNetworks` succeed and returns an error when
one of them fails. -/
theorem lookup_succeeds_iff_exactly_one {σ F M : Type} (c : Client σ) (h : Helpers σ F M)
    (fuel : Nat) (d : ResourceData) (s : σ) (filters : RawFilter)
    (hfilter : d.filter = some filters) :
    (∀ pages, Listing c.BlockStorageList s {} pages →
      (∀ r ∈ records pages, ∃ m, h.structToMapBlockStorage r = .ok m) → pages.length ≤ fuel →
      LookupOutcome (dataSourceVultrBlockStorageRead c h fuel d s)
        (matching h.structToMapBlockStorage
          (h.filterLoop (h.buildVultrDataSourceFilter filters)) pages).length) ∧
    (∀ pages, Listing c.BareMetalServerList s {} pages →
      (∀ r ∈ records pages, ∃ m, h.structToMapBareMetalServer r = .ok m) → pages.length ≤ fuel →
      LookupOutcome (dataSourceVultrBareMetalServerRead c h fuel d s)
        (matching h.structToMapBareMetalServer
          (h.filterLoop (h.buildVultrDataSourceFilter filters)) pages).length) ∧
    (∀ pages, Listing c.ISOList s {} pages →
      (∀ r ∈ records pages, ∃ m, h.structToMapISO r = .ok m) → pages.length ≤ fuel →
      LookupOutcome (dataSourceVultrIsoPrivateRead c h fuel d s)
        (matching h.structToMapISO
          (h.filterLoop (h.buildVultrDataSourceFilter filters)) pages).length) ∧
    (∀ pages, Listing c.InstanceList s {} pages →
      (∀ r ∈ records pages, ∃ m, h.structToMapInstance r = .ok m) → pages.length ≤ fuel →
      ((matching h.structToMapInstance
          (h.filterLoop (h.buildVultrDataSourceFilter filters)) pages).length = 0 →
        (dataSourceVultrInstanceRead c h fuel d s).status = .done (some noResults)) ∧
      (2 ≤ (matching h.structToMapInstance
          (h.filterLoop (h.buildVultrDataSourceFilter filters)) pages).length →
        (dataSourceVultrInstanceRead c h fuel d s).status = .done (some tooManyResults)) ∧
      ((dataSourceVultrInstanceRead c h fuel d s).succeeded →
        (matching h.structToMapInstance
          (h.filterLoop (h.buildVultrDataSourceFilter filters)) pages).length = 1) ∧
      ((∀ s1 id, ∃ schedule, (c.InstanceGetBackupSchedule s1 id).1 = .ok schedule) →
        (∀ s1 id, ∃ pn, (h.getPrivateNetworks s1 id).1 = .ok pn) →
        (matching h.structToMapInstance
          (h.filterLoop (h.buildVultrDataSourceFilter filters)) pages).length = 1 →
        (dataSourceVultrInstanceRead c h fuel d s).succeeded) ∧
      ((∀ s1 id, ∃ err, (c.InstanceGetBackupSchedule s1 id).1 = .error err) →
        (matching h.structToMapInstance
          (h.filterLoop (h.buildVultrDataSourceFilter filters)) pages).length = 1 →
        (dataSourceVultrInstanceRead c h fuel d s).failed) ∧
      ((∀ s1 id, ∃ err, (h.getPrivateNetworks s1 id).1 = .error err) →
        (matching h.structToMapInstance
          (h.filterLoop (h.buildVultrDataSourceFilter filters)) pages).length = 1 →
        (dataSourceVultrInstanceRead c h fuel d s).failed)) :=
  ⟨fun pages hl hflat hfuel =>
      (blockStorageRead_listing c h fuel d s filters hfilter pages hl hflat hfuel).1,
   fun pages hl hflat hfuel =>
      (bareMetalServerRead_listing c h fuel d s filters hfilter pages hl hflat hfuel).1,
   fun pages hl hflat hfuel =>
      (isoPrivateRead_listing c h fuel d s filters hfilter pages hl hflat hfuel).1,
   fun pages hl hflat hfuel =>
      instanceRead_outcome c h fuel d s filters hfilter pages hl hflat hfuel⟩

/-- C1, amended, at a two-page block-storage listing with one record labelled
`tf-bs-rs-1234`, at listings of the two other kinds, and at an instance
listing with the one match `v1`, once with follow-up calls that succeed and
once with a `GetBackupSchedule` that fails. -/
theorem lookup_succeeds_iff_exactly_one_witness :
    LookupOutcome (dataSourceVultrBlockStorageRead remoteClient remoteHelpers 2
      (dataWithFilter "label" "tf-bs-rs-1234") twoPageRemote) 1 ∧
    LookupOutcome (dataSourceVultrBareMetalServerRead remoteClient remoteHelpers 2
      (dataWithFilter "label" "tf-bs-rs-1234") twoPageRemote) 1 ∧
    LookupOutcome (dataSourceVultrIsoPrivateRead remoteClient remoteHelpers 2
      (dataWithFilter "label" "tf-bs-rs-1234") twoPageRemote) 0 ∧
    (dataSourceVultrInstanceRead remoteClient remoteHelpers 2
      (dataWithFilter "label" "tf-bs-rs-1234") twoPageRemote).status
      = .done (some noResults) ∧
    (dataSourceVultrInstanceRead remoteClient remoteHelpers 2 (dataWithFilter "id" "v1")
      twoPageRemote).succeeded ∧
    (dataSourceVultrInstanceRead scheduleDownClient remoteHelpers 2 (dataWithFilter "id" "v1")
      twoPageRemote).failed :=
  have t := lookup_succeeds_iff_exactly_one remoteClient remoteHelpers 2
    (dataWithFilter "label" "tf-bs-rs-1234") twoPageRemote [("label", ["tf-bs-rs-1234"])] rfl
  have u := (lookup_succeeds_iff_exactly_one remoteClient remoteHelpers 2
    (dataWithFilter "id" "v1") twoPageRemote [("id", ["v1"])] rfl).2.2.2
    [([instanceOf "v1" "192.0.2.5"], "p2"), ([instanceOf "v2" "192.0.2.6"], "")]
    ⟨rfl, by decide, rfl, rfl⟩ (fun _ _ => ⟨_, rfl⟩) (by decide)
  have v := (lookup_succeeds_iff_exactly_one scheduleDownClient remoteHelpers 2
    (dataWithFilter "id" "v1") twoPageRemote [("id", ["v1"])] rfl).2.2.2
    [([instanceOf "v1" "192.0.2.5"], "p2"), ([instanceOf "v2" "192.0.2.6"], "")]
    ⟨rfl, by decide, rfl, rfl⟩ (fun _ _ => ⟨_, rfl⟩) (by decide)
  ⟨t.1 [([blockOf "b1" "data", blockOf "b2" "tf-bs-rs-1234"], "p2"), ([blockOf "b3" "logs"], "")]
      ⟨rfl, by decide, rfl, rfl⟩ (fun _ _ => ⟨_, rfl⟩) (by decide),
   t.2.1 [([serverOf "m1" "tf-bs-rs-1234"], "")] ⟨rfl, rfl⟩ (fun _ _ => ⟨_, rfl⟩) (by decide),
   t.2.2.1 [([isoOf "i1" "tf-bs-rs-1234" "complete", isoOf "i2" "other.iso" "complete"], "")]
      ⟨rfl, rfl⟩ (fun _ _ => ⟨_, rfl⟩) (by decide),
   (t.2.2.2 [([instanceOf "v1" "192.0.2.5"], "p2"), ([instanceOf "v2" "192.0.2.6"], "")]
      ⟨rfl, by decide, rfl, rfl⟩ (fun _ _ => ⟨_, rfl⟩) (by decide)).1 (by decide),
   u.2.2.2.1 (fun _ _ => ⟨_, rfl⟩) (fun _ _ => ⟨_, rfl⟩) (by decide),
   v.2.2.2.2.1 (fun _ _ => ⟨_, rfl⟩) (by decide)⟩

/-- C2, amended: in a listing of two or more pages whose records all flatten
and whose first page holds exactly one matching record and a later page
another, each lookup goes on through all pages and returns the "too many
results" error, with the resource data left as it was: the match of page 1 is
not returned. -/
theorem lookup_detects_match_on_later_page {σ F M : Type} (c : Client σ) (h : Helpers σ F M)
    (fuel : Nat) (d : ResourceData) (s : σ) (filters : RawFilter)
    (hfilter : d.filter = some filters) :
    (∀ p rest r, Listing c.BlockStorageList s {} (p :: rest) →
      (∀ x ∈ records (p :: rest), ∃ m, h.structToMapBlockStorage x = .ok m) →
      (p :: rest).length ≤ fuel →
      (p.1.filter (accepts h.structToMapBlockStorage
        (h.filterLoop (h.buildVultrDataSourceFilter filters)))).length = 1 →
      r ∈ records rest →
      accepts h.structToMapBlockStorage
        (h.filterLoop (h.buildVultrDataSourceFilter filters)) r = true →
      (dataSourceVultrBlockStorageRead c h fuel d s).status = .done (some tooManyResults) ∧
      (dataSourceVultrBlockStorageRead c h fuel d s).d = d) ∧
    (∀ p rest r, Listing c.BareMetalServerList s {} (p :: rest) →
      (∀ x ∈ records (p :: rest), ∃ m, h.structToMapBareMetalServer x = .ok m) →
      (p :: rest).length ≤ fuel →
      (p.1.filter (accepts h.structToMapBareMetalServer
        (h.filterLoop (h.buildVultrDataSourceFilter filters)))).length = 1 →
      r ∈ records rest →
      accepts h.structToMapBareMetalServer
        (h.filterLoop (h.buildVultrDataSourceFilter filters)) r = true →
      (dataSourceVultrBareMetalServerRead c h fuel d s).status = .done (some tooManyResults) ∧
      (dataSourceVultrBareMetalServerRead c h fuel d s).d = d) ∧
    (∀ p rest r, Listing c.ISOList s {} (p :: rest) →
      (∀ x ∈ records (p :: rest), ∃ m, h.structToMapISO x = .ok m) →
      (p :: rest).length ≤ fuel →
      (p.1.filter (accepts h.structToMapISO
        (h.filterLoop (h.buildVultrDataSourceFilter filters)))).length = 1 →
      r ∈ records rest →
      accepts h.structToMapISO (h.filterLoop (h.buildVultrDataSourceFilter filters)) r = true →
      (dataSourceVultrIsoPrivateRead c h fuel d s).status = .done (some tooManyResults) ∧
      (dataSourceVultrIsoPrivateRead c h fuel d s).d = d) ∧
    (∀ p rest r, Listing c.InstanceList s {} (p :: rest) →
      (∀ x ∈ records (p :: rest), ∃ m, h.structToMapInstance x = .ok m) →
      (p :: rest).length ≤ fuel →
      (p.1.filter (accepts h.structToMapInstance
        (h.filterLoop (h.buildVultrDataSourceFilter filters)))).length = 1 →
      r ∈ records rest →
      accepts h.structToMapInstance
        (h.filterLoop (h.buildVultrDataSourceFilter filters)) r = true →
      (dataSourceVultrInstanceRead c h fuel d s).status = .done (some tooManyResults) ∧
      (dataSourceVultrInstanceRead c h fuel d s).d = d) := by
  refine ⟨?_, ?_, ?_, ?_⟩
  · intro p rest r hl hflat hfuel h1 hr ha
    have t := blockStorageRead_listing c h fuel d s filters hfilter (p :: rest) hl hflat hfuel
    have hst := t.1.2.2 (matching_length_two _ _ p rest r h1 hr ha)
    exact ⟨hst, t.2 hst⟩
  · intro p rest r hl hflat hfuel h1 hr ha
    have t := bareMetalServerRead_listing c h fuel d s filters hfilter (p :: rest) hl hflat hfuel
    have hst := t.1.2.2 (matching_length_two _ _ p rest r h1 hr ha)
    exact ⟨hst, t.2 hst⟩
  · intro p rest r hl hflat hfuel h1 hr ha
    have t := isoPrivateRead_listing c h fuel d s filters hfilter (p :: rest) hl hflat hfuel
    have hst := t.1.2.2 (matching_length_two _ _ p rest r h1 hr ha)
    exact ⟨hst, t.2 hst⟩
  · intro p rest r hl hflat hfuel h1 hr ha
    exact (instanceRead_listing c h fuel d s filters hfilter (p :: rest) hl hflat hfuel).2
      (matching_length_two _ _ p rest r h1 hr ha)

/-- C2, amended, at listings of two pages with one match on each page. -/
theorem lookup_detects_match_on_later_page_witness :
    ((dataSourceVultrBlockStorageRead remoteClient remoteHelpers 2
        (dataWithFilter "label" "dup") ambiguousRemote).status = .done (some tooManyResults) ∧
      (dataSourceVultrBlockStorageRead remoteClient remoteHelpers 2
        (dataWithFilter "label" "dup") ambiguousRemote).d = dataWithFilter "label" "dup") ∧
    ((dataSourceVultrBareMetalServerRead remoteClient remoteHelpers 2
        (dataWithFilter "label" "dup") ambiguousRemote).status = .done (some tooManyResults) ∧
      (dataSourceVultrBareMetalServerRead remoteClient remoteHelpers 2
        (dataWithFilter "label" "dup") ambiguousRemote).d = dataWithFilter "label" "dup") ∧
    ((dataSourceVultrIsoPrivateRead remoteClient remoteHelpers 2
        (dataWithFilter "filename" "dup.iso") ambiguousRemote).status
          = .done (some tooManyResults) ∧
      (dataSourceVultrIsoPrivateRead remoteClient remoteHelpers 2
        (dataWithFilter "filename" "dup.iso") ambiguousRemote).d
          = dataWithFilter "filename" "dup.iso") ∧
    ((dataSourceVultrInstanceRead remoteClient remoteHelpers 2
        (dataWithFilter "label" "dup") ambiguousRemote).status = .done (some tooManyResults) ∧
      (dataSourceVultrInstanceRead remoteClient remoteHelpers 2
        (dataWithFilter "label" "dup") ambiguousRemote).d = dataWithFilter "label" "dup") :=
  have t := lookup_detects_match_on_later_page remoteClient remoteHelpers 2
    (dataWithFilter "label" "dup") ambiguousRemote [("label", ["dup"])] rfl
  have u := lookup_detects_match_on_later_page remoteClient remoteHelpers 2
    (dataWithFilter "filename" "dup.iso") ambiguousRemote [("filename", ["dup.iso"])] rfl
  ⟨t.1 ([blockOf "b1" "dup", blockOf "b2" "data"], "p2") [([blockOf "b3" "dup"], "")]
      (blockOf "b3" "dup") ⟨rfl, by decide, rfl, rfl⟩ (fun _ _ => ⟨_, rfl⟩) (by decide)
      (by decide) (by decide) (by decide),
   t.2.1 ([serverOf "m1" "dup"], "p2") [([serverOf "m2" "x", serverOf "m3" "dup"], "")]
      (serverOf "m3" "dup") ⟨rfl, by decide, rfl, rfl⟩ (fun _ _ => ⟨_, rfl⟩) (by decide)
      (by decide) (by decide) (by decide),
   u.2.2.1 ([isoOf "i1" "dup.iso" "complete"], "p2") [([isoOf "i2" "dup.iso" "complete"], "")]
      (isoOf "i2" "dup.iso" "complete") ⟨rfl, by decide, rfl, rfl⟩ (fun _ _ => ⟨_, rfl⟩)
      (by decide) (by decide) (by decide) (by decide),
   t.2.2.2 ([{ instanceOf "v1" "192.0.2.5" with Label := "dup" }], "p2")
      [([{ instanceOf "v2" "192.0.2.6" with Label := "dup" }], "")]
      { instanceOf "v2" "192.0.2.6" with Label := "dup" } ⟨rfl, by decide, rfl, rfl⟩
      (fun _ _ => ⟨_, rfl⟩) (by decide) (by decide) (by decide) (by decide)⟩

/-! ## Fetch failures -/

theorem pagedFilter_failing {σ α M : Type}
    (list : σ → ListOptions → Except String (List α × String) × σ) (call : ListOptions → Event)
    (structToMap : α → Except String M) (keep : M → Bool) (err : String) :
    ∀ (pages : List (List α × String)) (fuel : Nat) (s : σ) (o : ListOptions) (acc : List α),
      FailingListing list s o pages err → (∀ r ∈ records pages, ∃ m, structToMap r = .ok m) →
      pages.length < fuel →
      (pagedFilter list call structToMap keep fuel s o acc).result = .fetchError err ∧
      (pagedFilter list call structToMap keep fuel s o acc).trace = fetches call o pages
  | [], fuel, s, o, acc, hl, _, hfuel => by
    cases fuel with
    | zero => simp at hfuel
    | succ fuel =>
      rcases hls : list s o with ⟨res, s1⟩
      simp only [FailingListing, hls] at hl
      subst hl
      simp [pagedFilter, hls, fetches]
  | p :: rest, fuel, s, o, acc, hl, hflat, hfuel => by
    obtain ⟨hp, hnext, hrest⟩ := hl
    cases fuel with
    | zero => simp at hfuel
    | succ fuel =>
      obtain ⟨page, next⟩ := p
      simp only at hnext
      have hpage := filterPage_ok structToMap keep page acc
        (fun r hr => hflat r (by simp [records, hr]))
      rcases hls : list s o with ⟨res, s1⟩
      rw [hls] at hp hrest
      simp only at hp hrest
      subst hp
      have ih := pagedFilter_failing list call structToMap keep err rest fuel s1
        { o with Cursor := next } (acc ++ page.filter (accepts structToMap keep)) hrest
        (fun r hr => hflat r (by
          simp only [records, List.mem_append] at hr ⊢
          exact Or.inr hr))
        (by simpa using hfuel)
      simp only [pagedFilter, hls, hpage, hnext, if_false, ih, fetches]
      exact ⟨trivial, trivial⟩

/-- C7, amended: when the records of the pages `pages` all flatten and the
fetch after these pages fails with the fault `err`, each lookup returns the
error that wraps `err`, its calls are the fetches of those pages and the
failing one and no more, and the resource data is left as it was, whatever the
pages fetched before contained. -/
theorem lookup_aborts_on_fetch_failure {σ F M : Type} (c : Client σ) (h : Helpers σ F M)
    (fuel : Nat) (d : ResourceData) (s : σ) (filters : RawFilter) (err : String)
    (hfilter : d.filter = some filters) :
    (∀ pages, FailingListing c.BlockStorageList s {} pages err →
      (∀ r ∈ records pages, ∃ m, h.structToMapBlockStorage r = .ok m) → pages.length < fuel →
      (dataSourceVultrBlockStorageRead c h fuel d s).status
        = .done (some ("error getting block storages: " ++ err)) ∧
      (dataSourceVultrBlockStorageRead c h fuel d s).trace
        = fetches Event.blockStorageList {} pages ∧
      (dataSourceVultrBlockStorageRead c h fuel d s).d = d) ∧
    (∀ pages, FailingListing c.BareMetalServerList s {} pages err →
      (∀ r ∈ records pages, ∃ m, h.structToMapBareMetalServer r = .ok m) → pages.length < fuel →
      (dataSourceVultrBareMetalServerRead c h fuel d s).status
        = .done (some ("error getting bare metal servers: " ++ err)) ∧
      (dataSourceVultrBareMetalServerRead c h fuel d s).trace
        = fetches Event.bareMetalServerList {} pages ∧
      (dataSourceVultrBareMetalServerRead c h fuel d s).d = d) ∧
    (∀ pages, FailingListing c.ISOList s {} pages err →
      (∀ r ∈ records pages, ∃ m, h.structToMapISO r = .ok m) → pages.length < fuel →
      (dataSourceVultrIsoPrivateRead c h fuel d s).status
        = .done (some ("error getting isos: " ++ err)) ∧
      (dataSourceVultrIsoPrivateRead c h fuel d s).trace = fetches Event.isoList {} pages ∧
      (dataSourceVultrIsoPrivateRead c h fuel d s).d = d) ∧
    (∀ pages, FailingListing c.InstanceList s {} pages err →
      (∀ r ∈ records pages, ∃ m, h.structToMapInstance r = .ok m) → pages.length < fuel →
      (dataSourceVultrInstanceRead c h fuel d s).status
        = .done (some ("error getting servers: " ++ err)) ∧
      (dataSourceVultrInstanceRead c h fuel d s).trace = fetches Event.instanceList {} pages ∧
      (dataSourceVultrInstanceRead c h fuel d s).d = d) := by
  refine ⟨?_, ?_, ?_, ?_⟩
  · intro pages hl hflat hfuel
    obtain ⟨hr, ht⟩ := pagedFilter_failing c.BlockStorageList Event.blockStorageList
      h.structToMapBlockStorage (h.filterLoop (h.buildVultrDataSourceFilter filters)) err
      pages fuel s {} [] hl hflat hfuel
    simp [dataSourceVultrBlockStorageRead, hfilter, hr, ht]
  · intro pages hl hflat hfuel
    obtain ⟨hr, ht⟩ := pagedFilter_failing c.BareMetalServerList Event.bareMetalServerList
      h.structToMapBareMetalServer (h.filterLoop (h.buildVultrDataSourceFilter filters)) err
      pages fuel s {} [] hl hflat hfuel
    simp [dataSourceVultrBareMetalServerRead, hfilter, hr, ht]
  · intro pages hl hflat hfuel
    obtain ⟨hr, ht⟩ := pagedFilter_failing c.ISOList Event.isoList
      h.structToMapISO (h.filterLoop (h.buildVultrDataSourceFilter filters)) err
      pages fuel s {} [] hl hflat hfuel
    simp [dataSourceVultrIsoPrivateRead, hfilter, hr, ht]
  · intro pages hl hflat hfuel
    obtain ⟨hr, ht⟩ := pagedFilter_failing c.InstanceList Event.instanceList
      h.structToMapInstance (h.filterLoop (h.buildVultrDataSourceFilter filters)) err
      pages fuel s {} [] hl hflat hfuel
    simp [dataSourceVultrInstanceRead, hfilter, hr, ht]

/-- C7, amended, at listings whose second fetch fails after a first page with
exactly one match. -/
theorem lookup_aborts_on_fetch_failure_witness :
    ((dataSourceVultrBlockStorageRead remoteClient remoteHelpers 3
        (dataWithFilter "label" "only") brokenRemote).status
        = .done (some ("error getting block storages: " ++ "invalid cursor gone")) ∧
      (dataSourceVultrBlockStorageRead remoteClient remoteHelpers 3
        (dataWithFilter "label" "only") brokenRemote).trace
        = [.blockStorageList {}, .blockStorageList { Cursor := "gone" }] ∧
      (dataSourceVultrBlockStorageRead remoteClient remoteHelpers 3
        (dataWithFilter "label" "only") brokenRemote).d = dataWithFilter "label" "only") ∧
    ((dataSourceVultrBareMetalServerRead remoteClient remoteHelpers 3
        (dataWithFilter "label" "only") brokenRemote).status
        = .done (some ("error getting bare metal servers: " ++ "invalid cursor gone")) ∧
      (dataSourceVultrBareMetalServerRead remoteClient remoteHelpers 3
        (dataWithFilter "label" "only") brokenRemote).trace
        = [.bareMetalServerList {}, .bareMetalServerList { Cursor := "gone" }] ∧
      (dataSourceVultrBareMetalServerRead remoteClient remoteHelpers 3
        (dataWithFilter "label" "only") brokenRemote).d = dataWithFilter "label" "only") ∧
    ((dataSourceVultrIsoPrivateRead remoteClient remoteHelpers 3
        (dataWithFilter "label" "only") brokenRemote).status
        = .done (some ("error getting isos: " ++ "invalid cursor gone")) ∧
      (dataSourceVultrIsoPrivateRead remoteClient remoteHelpers 3
        (dataWithFilter "label" "only") brokenRemote).trace
        = [.isoList {}, .isoList { Cursor := "gone" }] ∧
      (dataSourceVultrIsoPrivateRead remoteClient remoteHelpers 3
        (dataWithFilter "label" "only") brokenRemote).d = dataWithFilter "label" "only") ∧
    ((dataSourceVultrInstanceRead remoteClient remoteHelpers 3
        (dataWithFilter "label" "only") brokenRemote).status
        = .done (some ("error getting servers: " ++ "invalid cursor gone")) ∧
      (dataSourceVultrInstanceRead remoteClient remoteHelpers 3
        (dataWithFilter "label" "only") brokenRemote).trace
        = [.instanceList {}, .instanceList { Cursor := "gone" }] ∧
      (dataSourceVultrInstanceRead remoteClient remoteHelpers 3
        (dataWithFilter "label" "only") brokenRemote).d = dataWithFilter "label" "only") :=
  have t := lookup_aborts_on_fetch_failure remoteClient remoteHelpers 3
    (dataWithFilter "label" "only") brokenRemote [("label", ["only"])] "invalid cursor gone" rfl
  ⟨t.1 [([blockOf "b1" "only", blockOf "b2" "data"], "gone")] ⟨rfl, by decide, rfl⟩
      (fun _ _ => ⟨_, rfl⟩) (by decide),
   t.2.1 [([serverOf "m1" "only"], "gone")] ⟨rfl, by decide, rfl⟩
      (fun _ _ => ⟨_, rfl⟩) (by decide),
   t.2.2.1 [([isoOf "i1" "only" "complete"], "gone")] ⟨rfl, by decide, rfl⟩
      (fun _ _ => ⟨_, rfl⟩) (by decide),
   t.2.2.2 [([{ instanceOf "v1" "192.0.2.5" with Label := "only" }], "gone")]
      ⟨rfl, by decide, rfl⟩ (fun _ _ => ⟨_, rfl⟩) (by decide)⟩

/-! ## Missing filter -/

/-- C8: without a `filter` block each of the five filter-based data sources
returns an error at once: whatever the helpers (the filter builder among them)
and the client are, the run is the error with an empty trace, so no filter was
built and no remote call issued, and world and resource data are as before. -/
theorem read_without_filter_fails_first {σ F M : Type} (c : Client σ) (h : Helpers σ F M)
    (fuel : Nat) (d : ResourceData) (s : σ) (hfilter : d.filter = none) :
    dataSourceVultrBlockStorageRead c h fuel d s
      = ⟨.done (some "issue with filter: false"), d, s, []⟩ ∧
    dataSourceVultrBareMetalServerRead c h fuel d s
      = ⟨.done (some "issue with filter: false"), d, s, []⟩ ∧
    dataSourceVultrInstanceRead c h fuel d s
      = ⟨.done (some "issue with filter: false"), d, s, []⟩ ∧
    dataSourceVultrIsoPrivateRead c h fuel d s
      = ⟨.done (some "issue with filter: false"), d, s, []⟩ ∧
    dataSourceVultrReverseIPV4Read c h fuel d s
      = ⟨.done (some "error getting filter: false"), d, s, []⟩ := by
  simp [dataSourceVultrBlockStorageRead, dataSourceVultrBareMetalServerRead,
    dataSourceVultrInstanceRead, dataSourceVultrIsoPrivateRead, dataSourceVultrReverseIPV4Read,
    hfilter]

/-- C8 at a resource data without a `filter` block. -/
theorem read_without_filter_fails_first_witness :
    (dataSourceVultrBlockStorageRead remoteClient remoteHelpers 0 dataWithoutFilter
        twoPageRemote).trace = [] ∧
    (dataSourceVultrReverseIPV4Read remoteClient remoteHelpers 5 dataWithoutFilter
        twoPageRemote).status = .done (some "error getting filter: false") :=
  have t := read_without_filter_fails_first remoteClient remoteHelpers 0 dataWithoutFilter
    twoPageRemote rfl
  have u := read_without_filter_fails_first remoteClient remoteHelpers 5 dataWithoutFilter
    twoPageRemote rfl
  ⟨by rw [t.1], by rw [u.2.2.2.2]⟩

/-! ## The private-ISO delete -/

theorem waitForState_trace {σ P : Type} (refresh : σ → Except String (P × String) × σ)
    (call : Event) (conf : StateChangeConf) :
    ∀ (ticks misses : Nat) (s : σ),
      ∀ e ∈ (waitForState refresh call conf ticks misses s).trace, e = call
  | 0, _, _ => by simp [waitForState]
  | ticks + 1, misses, s => by
    intro e he
    simp only [waitForState] at he
    rcases hr : refresh s with ⟨res, s1⟩
    rw [hr] at he
    cases res with
    | error err =>
      simp only at he
      split at he
      · simpa using he
      · simp only [List.mem_cons] at he
        rcases he with he | he
        · exact he
        · exact waitForState_trace refresh call conf ticks (misses + 1) s1 e he
    | ok v =>
      obtain ⟨payload, state⟩ := v
      simp only at he
      split at he
      · simpa using he
      · split at he
        · simp only [List.mem_cons] at he
          rcases he with he | he
          · exact he
          · exact waitForState_trace refresh call conf ticks 0 s1 e he
        · simpa using he

theorem waitForIsoDetached_count {σ : Type} (c : Client σ) (lib : GoLib)
    (instanceID target : String) (pending : List String) (attr : String) (s : σ)
    (id : String) :
    (waitForIsoDetached c lib instanceID target pending attr s).trace.count
      (.isoDelete id) = 0 := by
  rw [List.count_eq_zero]
  intro hmem
  simp only [waitForIsoDetached, List.mem_cons] at hmem
  rcases hmem with hmem | hmem
  · cases hmem
  · have := waitForState_trace _ _ _ _ _ _ _ hmem
    cases this

theorem scanInstances_find {σ : Type} (c : Client σ) (lib : GoLib)
    (retry : ResourceData → σ → Run σ) (d : ResourceData) (ip : String) (s : σ) :
    ∀ insts : List Instance,
      scanInstances c lib retry d ip insts s
        = (insts.find? (fun i => i.MainIP == ip)).map (fun i => detachAndRetry c lib retry d i s)
  | [] => by simp [scanInstances]
  | inst :: rest => by
    by_cases h : inst.MainIP = ip
    · simp [scanInstances, h]
    · simp [scanInstances, h, scanInstances_find c lib retry d ip s rest]

theorem isoDelete_step {σ : Type} (c : Client σ) (lib : GoLib) (fuel : Nat) (d : ResourceData)
    (s s1 s2 : σ) (err attachedErr : String) (insts : List Instance) (next : String)
    (hdel : c.ISODelete s d.id = (some err, s1))
    (hdec : lib.jsonDecodeError err = .ok attachedErr)
    (hcont : stringsContains attachedErr "is still attached to" = true)
    (hip : lib.netParseIP (lastPart (stringsSplit attachedErr)) = true)
    (hlist : c.InstanceList s1 firstBatch = (.ok (insts, next), s2)) :
    resourceVultrIsoDelete c lib (fuel + 1) d s
      = Run.after [.isoDelete d.id, .instanceList firstBatch]
          (match insts.find? (fun i => i.MainIP == lastPart (stringsSplit attachedErr)) with
            | some inst => detachAndRetry c lib (resourceVultrIsoDelete c lib fuel) d inst s2
            | none => laterBatches c lib (resourceVultrIsoDelete c lib fuel) d
                (lastPart (stringsSplit attachedErr)) next fuel s2) := by
  have hlist1 : c.InstanceList s1 { PerPage := 50 } = (.ok (insts, next), s2) := hlist
  simp only [resourceVultrIsoDelete, hdel, hdec, hcont, hip, hlist1, scanInstances_find]
  cases insts.find? (fun i => i.MainIP == lastPart (stringsSplit attachedErr)) <;> rfl

theorem laterBatches_step {σ : Type} (c : Client σ) (lib : GoLib)
    (retry : ResourceData → σ → Run σ) (d : ResourceData) (ip next : String) (fuel : Nat)
    (s s1 : σ) (insts : List Instance) (nx : String) (hnext : next ≠ "")
    (hlist : c.InstanceList s (laterBatch next) = (.ok (insts, nx), s1)) :
    laterBatches c lib retry d ip next (fuel + 1) s
      = Run.after [.instanceList (laterBatch next)]
          (match insts.find? (fun i => i.MainIP == ip) with
            | some inst => detachAndRetry c lib retry d inst s1
            | none => laterBatches c lib retry d ip next fuel s1) := by
  have hlist1 : c.InstanceList s { PerPage := 50, Cursor := next } = (.ok (insts, nx), s1) := hlist
  simp only [laterBatches, hnext, if_false, hlist1, scanInstances_find]
  cases insts.find? (fun i => i.MainIP == ip) <;> rfl

theorem laterBatches_stuck {σ : Type} (c : Client σ) (lib : GoLib)
    (retry : ResourceData → σ → Run σ) (d : ResourceData) (ip next : String)
    (s : σ) (insts : List Instance) (nx : String) (hnext : next ≠ "")
    (hlist : c.InstanceList s (laterBatch next) = (.ok (insts, nx), s))
    (hnone : insts.find? (fun i => i.MainIP == ip) = none) :
    ∀ fuel, laterBatches c lib retry d ip next fuel s
      = ⟨.running, d, s, List.replicate fuel (.instanceList (laterBatch next))⟩
  | 0 => by simp [laterBatches]
  | fuel + 1 => by
    rw [laterBatches_step c lib retry d ip next fuel s s insts nx hnext hlist, hnone]
    simp only [laterBatches_stuck c lib retry d ip next s insts nx hnext hlist hnone fuel]
    simp [Run.after, List.replicate_succ]

theorem detachAndRetry_retriesOnce {σ : Type} (c : Client σ) (lib : GoLib) (d : ResourceData)
    (inst : Instance) (s : σ) (before : List Event) (reattempt : ResourceData → σ → Run σ) :
    RetriesOnce c lib d inst s before reattempt
      (Run.after before (detachAndRetry c lib reattempt d inst s)) := by
  refine ⟨?_, ?_⟩
  · intro e s1 hdet
    simp [detachAndRetry, hdet, Run.after, Run.failed]
  · intro s1 hdet
    refine ⟨?_, ?_⟩
    · intro e hw
      have hcount := fun id =>
        List.count_eq_zero.mp (waitForIsoDetached_count c lib inst.ID "ready" ["isomounted"]
          "status" s1 id)
      simp [detachAndRetry, hdet, hw, Run.after, Run.failed, hcount]
    · intro p hw
      simp [detachAndRetry, hdet, hw, Run.after]

theorem after_nil {σ : Type} (r : Run σ) : Run.after [] r = r := by
  cases r
  simp [Run.after]

theorem after_after {σ : Type} (a b : List Event) (r : Run σ) :
    Run.after a (Run.after b r) = Run.after (a ++ b) r := by
  cases r
  simp [Run.after]

theorem laterBatches_passes {σ : Type} (c : Client σ) (lib : GoLib)
    (retry : ResourceData → σ → Run σ) (d : ResourceData) (ip next : String)
    (hnext : next ≠ "") :
    ∀ (k fuel : Nat) (s s2 : σ), EmptyPasses c ip next k s s2 →
      laterBatches c lib retry d ip next (fuel + k) s
        = Run.after (List.replicate k (.instanceList (laterBatch next)))
            (laterBatches c lib retry d ip next fuel s2)
  | 0, fuel, s, s2, hp => by
    simp only [EmptyPasses] at hp
    subst hp
    simp [after_nil]
  | k + 1, fuel, s, s2, hp => by
    obtain ⟨insts, nx, s1, hlist, hnone, hrest⟩ := hp
    have ih := laterBatches_passes c lib retry d ip next hnext k fuel s1 s2 hrest
    have hstep := laterBatches_step c lib retry d ip next (fuel + k) s s1 insts nx hnext hlist
    rw [hnone] at hstep
    simp only at hstep
    rw [show fuel + (k + 1) = fuel + k + 1 from rfl, hstep, ih, after_after]
    rfl

/-- C6: in an invocation of `resourceVultrIsoDelete` whose `ISO.Delete` failed
with a parsed "is still attached to <ip>" error, once the first instance with
that main IP is found, be it in the first batch or in any pass of the cursor
loop (after `k` passes that listed no such instance): if `DetachISO` and the
wait for `ready` succeed, the run is one recursive invocation, started where
the wait ended, preceded only by the delete, the listings up to that batch,
the detach and the wait, and its outcome is that of the recursive invocation;
if `DetachISO` or the wait fails, the run is an error that ends there. -/
theorem isoDelete_retries_once_after_detach {σ : Type} (c : Client σ) (lib : GoLib)
    (fuel : Nat) (d : ResourceData) (s s1 s2 : σ) (err attachedErr : String)
    (insts : List Instance) (next : String)
    (hdel : c.ISODelete s d.id = (some err, s1))
    (hdec : lib.jsonDecodeError err = .ok attachedErr)
    (hcont : stringsContains attachedErr "is still attached to" = true)
    (hip : lib.netParseIP (lastPart (stringsSplit attachedErr)) = true)
    (hlist : c.InstanceList s1 firstBatch = (.ok (insts, next), s2)) :
    (∀ inst, insts.find? (fun i => i.MainIP == lastPart (stringsSplit attachedErr)) = some inst →
      RetriesOnce c lib d inst s2 [.isoDelete d.id, .instanceList firstBatch]
        (resourceVultrIsoDelete c lib fuel) (resourceVultrIsoDelete c lib (fuel + 1) d s)) ∧
    (insts.find? (fun i => i.MainIP == lastPart (stringsSplit attachedErr)) = none →
      next ≠ "" →
      ∀ (k : Nat) (s3 s4 : σ) (insts2 : List Instance) (nx : String) (inst : Instance),
        EmptyPasses c (lastPart (stringsSplit attachedErr)) next k s2 s3 →
        c.InstanceList s3 (laterBatch next) = (.ok (insts2, nx), s4) →
        insts2.find? (fun i => i.MainIP == lastPart (stringsSplit attachedErr)) = some inst →
        RetriesOnce c lib d inst s4
          ([.isoDelete d.id, .instanceList firstBatch] ++
            List.replicate (k + 1) (.instanceList (laterBatch next)))
          (resourceVultrIsoDelete c lib (fuel + k + 1))
          (resourceVultrIsoDelete c lib (fuel + k + 2) d s)) := by
  refine ⟨?_, ?_⟩
  · intro inst hfind
    rw [isoDelete_step c lib fuel d s s1 s2 err attachedErr insts next hdel hdec hcont hip hlist,
      hfind]
    exact detachAndRetry_retriesOnce c lib d inst s2 _ _
  · intro hnone hnext k s3 s4 insts2 nx inst hpass hlist2 hfind
    have hstep := isoDelete_step c lib (fuel + k + 1) d s s1 s2 err attachedErr insts next hdel
      hdec hcont hip hlist
    rw [hnone] at hstep
    simp only at hstep
    have hfuel : fuel + k + 1 = fuel + 1 + k := by omega
    have hpasses := laterBatches_passes c lib (resourceVultrIsoDelete c lib (fuel + k + 1)) d
      (lastPart (stringsSplit attachedErr)) next hnext k (fuel + 1) s2 s3 hpass
    have hlast := laterBatches_step c lib (resourceVultrIsoDelete c lib (fuel + k + 1)) d
      (lastPart (stringsSplit attachedErr)) next fuel s3 s4 insts2 nx hnext hlist2
    rw [hfind] at hlast
    simp only at hlast
    have hrun : resourceVultrIsoDelete c lib (fuel + k + 2) d s
        = Run.after ([.isoDelete d.id, .instanceList firstBatch] ++
            List.replicate (k + 1) (.instanceList (laterBatch next)))
          (detachAndRetry c lib (resourceVultrIsoDelete c lib (fuel + k + 1)) d inst s4) := by
      rw [show resourceVultrIsoDelete c lib (fuel + k + 2) d s
          = resourceVultrIsoDelete c lib (fuel + k + 1 + 1) d s from rfl, hstep]
      have hlb : laterBatches c lib (resourceVultrIsoDelete c lib (fuel + k + 1)) d
            (lastPart (stringsSplit attachedErr)) next (fuel + k + 1) s2
          = laterBatches c lib (resourceVultrIsoDelete c lib (fuel + k + 1)) d
            (lastPart (stringsSplit attachedErr)) next (fuel + 1 + k) s2 := by
        congr 1
      rw [hlb, hpasses, hlast, after_after, after_after, List.replicate_succ',
        List.append_assoc]
    rw [hrun]
    exact detachAndRetry_retriesOnce c lib d inst s4 _ _

/-- C6 at a remote state where the blocking instance is on the first page, at
one where it is on the second, and at a listing that changes between calls,
where it is found in the second pass of the cursor loop. -/
theorem isoDelete_retries_once_after_detach_witness :
    RetriesOnce remoteClient remoteLib isoData (instanceOf "v2" "192.0.2.5") firstPageRemote
      [.isoDelete "iso-1", .instanceList firstBatch]
      (resourceVultrIsoDelete remoteClient remoteLib 1)
      (resourceVultrIsoDelete remoteClient remoteLib 2 isoData firstPageRemote) ∧
    RetriesOnce remoteClient remoteLib isoData (instanceOf "v2" "192.0.2.5") attachedRemote
      [.isoDelete "iso-1", .instanceList firstBatch, .instanceList (laterBatch "p2")]
      (resourceVultrIsoDelete remoteClient remoteLib 1)
      (resourceVultrIsoDelete remoteClient remoteLib 2 isoData attachedRemote) ∧
    RetriesOnce shiftingClient remoteLib isoData (instanceOf "v2" "192.0.2.5")
      { shiftingRemote with instances := [] }
      [.isoDelete "iso-1", .instanceList firstBatch, .instanceList (laterBatch "p2"),
       .instanceList (laterBatch "p2")]
      (resourceVultrIsoDelete shiftingClient remoteLib 2)
      (resourceVultrIsoDelete shiftingClient remoteLib 3 isoData shiftingRemote) :=
  ⟨(isoDelete_retries_once_after_detach remoteClient remoteLib 1 isoData firstPageRemote
      firstPageRemote firstPageRemote (stillAttached "192.0.2.5")
      "Unable to delete ISO, it is still attached to 192.0.2.5"
      [instanceOf "v1" "192.0.2.6", instanceOf "v2" "192.0.2.5"] ""
      rfl rfl (by decide) (by decide) rfl).1 (instanceOf "v2" "192.0.2.5") (by decide),
   (isoDelete_retries_once_after_detach remoteClient remoteLib 0 isoData attachedRemote
      attachedRemote attachedRemote (stillAttached "192.0.2.5")
      "Unable to delete ISO, it is still attached to 192.0.2.5"
      [instanceOf "v1" "192.0.2.6"] "p2"
      rfl rfl (by decide) (by decide) rfl).2 (by decide) (by decide) 0 attachedRemote
      attachedRemote [instanceOf "v2" "192.0.2.5"] "" (instanceOf "v2" "192.0.2.5") rfl rfl
      (by decide),
   (isoDelete_retries_once_after_detach shiftingClient remoteLib 0 isoData shiftingRemote
      shiftingRemote
      { shiftingRemote with instances := [("p2", [instanceOf "v3" "192.0.2.7"], "p3"),
                                         ("p2", [instanceOf "v2" "192.0.2.5"], "")] }
      (stillAttached "192.0.2.5")
      "Unable to delete ISO, it is still attached to 192.0.2.5"
      [instanceOf "v1" "192.0.2.6"] "p2"
      rfl rfl (by decide) (by decide) rfl).2 (by decide) (by decide) 1
      { shiftingRemote with instances := [("p2", [instanceOf "v2" "192.0.2.5"], "")] }
      { shiftingRemote with instances := [] }
      [instanceOf "v2" "192.0.2.5"] "" (instanceOf "v2" "192.0.2.5")
      ⟨[instanceOf "v3" "192.0.2.7"], "p3", _, rfl, by decide, rfl⟩ rfl (by decide)⟩

/-- C3 (the code departs from the claim): the instance listing has three
pages and the instance `v3`, whose main IP the delete error names, is on the
third. Whatever the step budget, the delete is still running, and all it has
issued is the `ISO.Delete`, the first listing and listings with the cursor of
page 2: page 3 is never listed, and no `DetachISO` and no wait is issued. -/
theorem isoDelete_never_lists_third_page (fuel : Nat) :
    Listing remoteClient.InstanceList threePageRemote firstBatch
      [([instanceOf "v1" "192.0.2.6"], "p2"), ([instanceOf "v2" "192.0.2.7"], "p3"),
       ([instanceOf "v3" "192.0.2.5"], "")] ∧
    (remoteClient.ISODelete threePageRemote "iso-1").1 = some (stillAttached "192.0.2.5") ∧
    (resourceVultrIsoDelete remoteClient remoteLib fuel isoData threePageRemote).status
      = .running ∧
    ∀ e ∈ (resourceVultrIsoDelete remoteClient remoteLib fuel isoData threePageRemote).trace,
      e = .isoDelete "iso-1" ∨ e = .instanceList firstBatch ∨
        e = .instanceList (laterBatch "p2") := by
  refine ⟨⟨rfl, by decide, rfl, by decide, rfl, rfl⟩, rfl, ?_⟩
  cases fuel with
  | zero => simp [resourceVultrIsoDelete]
  | succ fuel =>
    rw [isoDelete_step remoteClient remoteLib fuel isoData threePageRemote threePageRemote
      threePageRemote (stillAttached "192.0.2.5")
      "Unable to delete ISO, it is still attached to 192.0.2.5"
      [instanceOf "v1" "192.0.2.6"] "p2" rfl rfl (by decide) (by decide) rfl]
    have hnone : [instanceOf "v1" "192.0.2.6"].find? (fun i => i.MainIP ==
        lastPart (stringsSplit "Unable to delete ISO, it is still attached to 192.0.2.5"))
        = none := by decide
    rw [hnone]
    simp only
    rw [laterBatches_stuck remoteClient remoteLib _ isoData _ "p2" threePageRemote
      [instanceOf "v2" "192.0.2.7"] "p3" (by decide) rfl (by decide) fuel]
    refine ⟨rfl, ?_⟩
    intro e he
    simp only [Run.after, List.mem_append, List.mem_cons, List.mem_singleton,
      List.not_mem_nil, or_false] at he
    rcases he with (he | he) | he
    · exact Or.inl he
    · exact Or.inr (Or.inl he)
    · exact Or.inr (Or.inr (List.eq_of_mem_replicate he))

/-- C4 (the code departs from the claim): `ISO.Delete` fails with a well-formed
"is still attached to 192.0.2.5" error and the one page of the instance listing
has no instance with that main IP. The operation returns without diagnostics,
and the `ISO.Delete` that failed is the only one it issued. -/
theorem isoDelete_succeeds_after_failed_delete :
    (remoteClient.ISODelete unlistedRemote "iso-1").1 = some (stillAttached "192.0.2.5") ∧
    (remoteClient.InstanceList unlistedRemote firstBatch).1
      = .ok ([instanceOf "v1" "192.0.2.6"], "") ∧
    (resourceVultrIsoDelete remoteClient remoteLib 2 isoData unlistedRemote).status
      = .done none ∧
    (resourceVultrIsoDelete remoteClient remoteLib 2 isoData unlistedRemote).trace
      = [.isoDelete "iso-1", .instanceList firstBatch] := by
  decide

/-- C5 (the code departs from the claim): one instance is attached to the ISO,
`ISO.Delete` fails naming its main IP while it is attached and succeeds once it
is detached, and the instance listing is a chain of three pages with that
instance on the third. Whatever the step budget, `resourceVultrIsoDelete` has
not returned. -/
theorem isoDelete_diverges_with_one_attachment (fuel : Nat) :
    threePageRemote.attached.length = 1 ∧
    (remoteClient.ISODelete threePageRemote "iso-1").1 = some (stillAttached "192.0.2.5") ∧
    (remoteClient.ISODelete (remoteClient.InstanceDetachISO threePageRemote "v3").2 "iso-1").1
      = none ∧
    Listing remoteClient.InstanceList threePageRemote firstBatch
      [([instanceOf "v1" "192.0.2.6"], "p2"), ([instanceOf "v2" "192.0.2.7"], "p3"),
       ([instanceOf "v3" "192.0.2.5"], "")] ∧
    (resourceVultrIsoDelete remoteClient remoteLib fuel isoData threePageRemote).status
      = .running := by
  refine ⟨rfl, rfl, by decide, ⟨rfl, by decide, rfl, by decide, rfl, rfl⟩, ?_⟩
  cases fuel with
  | zero => simp [resourceVultrIsoDelete]
  | succ fuel =>
    rw [isoDelete_step remoteClient remoteLib fuel isoData threePageRemote threePageRemote
      threePageRemote (stillAttached "192.0.2.5")
      "Unable to delete ISO, it is still attached to 192.0.2.5"
      [instanceOf "v1" "192.0.2.6"] "p2" rfl rfl (by decide) (by decide) rfl]
    have hnone : [instanceOf "v1" "192.0.2.6"].find? (fun i => i.MainIP ==
        lastPart (stringsSplit "Unable to delete ISO, it is still attached to 192.0.2.5"))
        = none := by decide
    rw [hnone]
    simp only
    rw [laterBatches_stuck remoteClient remoteLib _ isoData _ "p2" threePageRemote
      [instanceOf "v2" "192.0.2.7"] "p3" (by decide) rfl (by decide) fuel]
    rfl

/-! ## The private-ISO create -/

/-- C9, counterexample: `ISO.Create` succeeds with the id `iso-1`, the wait
reaches `complete`, and the `ISO.Get` of the final read fails with
`Invalid iso`: the operation returns without diagnostics and the resource id
is empty, not `iso-1`. -/
theorem isoCreate_clears_id_when_gone :
    (remoteClient.ISOCreate vanishingRemote (newIsoData.GetString "url")).1
      = .ok (isoOf "iso-1" "a.iso" "pending") ∧
    (resourceVultrIsoCreate remoteClient remoteLib newIsoData vanishingRemote).status
      = .done none ∧
    (resourceVultrIsoCreate remoteClient remoteLib newIsoData vanishingRemote).d.id = "" ∧
    (resourceVultrIsoCreate remoteClient remoteLib newIsoData vanishingRemote).d.id ≠ "iso-1" := by
  decide

theorem isoRead_id {σ : Type} (c : Client σ) (d : ResourceData) (s : σ) :
    ((resourceVultrIsoRead c d s).failed → (resourceVultrIsoRead c d s).d.id = d.id) ∧
    ((resourceVultrIsoRead c d s).d.id = d.id ∨
      ((resourceVultrIsoRead c d s).succeeded ∧ (resourceVultrIsoRead c d s).d.id = "" ∧
        ∃ e, (c.ISOGet s d.id).1 = .error e)) := by
  rcases hg : c.ISOGet s d.id with ⟨res, s1⟩
  cases res with
  | error err =>
    by_cases hgone : stringsContains "Invalid iso" err = true
    · simp [resourceVultrIsoRead, hg, hgone, Run.failed, Run.succeeded, ResourceData.SetId]
    · simp [resourceVultrIsoRead, hg, hgone]
  | ok iso =>
    simp [resourceVultrIsoRead, hg, ResourceData.Set]

/-- C9, amended: when `ISO.Create` fails, `resourceVultrIsoCreate` returns an
error and leaves the resource data, the id with it, as it was. When it succeeds
with an ISO of id `i`: if the wait for `complete` fails, an error is returned
and the id is `i`; whenever an error is returned, the id is `i`; and in every
case the id is `i` when the operation returns, unless the wait succeeded, the
`ISO.Get` of the final read failed and the read cleared the id and returned no
diagnostics. -/
theorem isoCreate_keeps_id_unless_gone {σ : Type} (c : Client σ) (lib : GoLib)
    (d : ResourceData) (s : σ) :
    (∀ err s1, c.ISOCreate s (d.GetString "url") = (.error err, s1) →
      (resourceVultrIsoCreate c lib d s).failed ∧ (resourceVultrIsoCreate c lib d s).d = d) ∧
    (∀ iso s1, c.ISOCreate s (d.GetString "url") = (.ok iso, s1) →
      (∀ e, (waitForIsoAvailable c lib (d.SetId iso.ID) "complete" ["pending"] "status"
          s1).result = .error e →
        (resourceVultrIsoCreate c lib d s).failed ∧
        (resourceVultrIsoCreate c lib d s).d.id = iso.ID) ∧
      ((resourceVultrIsoCreate c lib d s).failed →
        (resourceVultrIsoCreate c lib d s).d.id = iso.ID) ∧
      ((resourceVultrIsoCreate c lib d s).d.id = iso.ID ∨
        ((resourceVultrIsoCreate c lib d s).succeeded ∧
          (resourceVultrIsoCreate c lib d s).d.id = "" ∧
          (∃ p, (waitForIsoAvailable c lib (d.SetId iso.ID) "complete" ["pending"] "status"
            s1).result = .ok p) ∧
          ∃ e, (c.ISOGet (waitForIsoAvailable c lib (d.SetId iso.ID) "complete" ["pending"]
            "status" s1).world iso.ID).1 = .error e))) := by
  refine ⟨?_, ?_⟩
  · intro err s1 hc
    simp [resourceVultrIsoCreate, hc, Run.failed]
  · intro iso s1 hc
    have hread := isoRead_id c (d.SetId iso.ID)
      (waitForIsoAvailable c lib (d.SetId iso.ID) "complete" ["pending"] "status" s1).world
    cases hw : (waitForIsoAvailable c lib (d.SetId iso.ID) "complete" ["pending"] "status"
        s1).result with
    | error e =>
      have hrun : resourceVultrIsoCreate c lib d s
          = ⟨.done (some ("error while waiting for ISO " ++ (d.SetId iso.ID).id
              ++ " detach to be completed: " ++ e.text)), d.SetId iso.ID,
            (waitForIsoAvailable c lib (d.SetId iso.ID) "complete" ["pending"] "status" s1).world,
            .isoCreate (d.GetString "url") ::
              (waitForIsoAvailable c lib (d.SetId iso.ID) "complete" ["pending"] "status"
                s1).trace⟩ := by
        simp only [resourceVultrIsoCreate, hc, hw]
      rw [hrun]
      simp [Run.failed, ResourceData.SetId]
    | ok p =>
      have hrun : resourceVultrIsoCreate c lib d s
          = (resourceVultrIsoRead c (d.SetId iso.ID)
              (waitForIsoAvailable c lib (d.SetId iso.ID) "complete" ["pending"] "status"
                s1).world).after
            (.isoCreate (d.GetString "url") ::
              (waitForIsoAvailable c lib (d.SetId iso.ID) "complete" ["pending"] "status"
                s1).trace) := by
        simp only [resourceVultrIsoCreate, hc, hw]
      rw [hrun]
      refine ⟨(fun e he => nomatch he), ?_, ?_⟩
      · intro hf
        exact hread.1 hf
      · rcases hread.2 with h | ⟨h1, h2, h3⟩
        · exact Or.inl h
        · exact Or.inr ⟨h1, h2, ⟨p, rfl⟩, h3⟩

/-- C9, amended, at a remote state where the created ISO stays `pending` until
the wait times out: an error is returned and the id is `iso-1`. -/
theorem isoCreate_keeps_id_unless_gone_witness :
    (resourceVultrIsoCreate remoteClient remoteLib newIsoData pendingRemote).failed ∧
    (resourceVultrIsoCreate remoteClient remoteLib newIsoData pendingRemote).d.id = "iso-1" :=
  ((isoCreate_keeps_id_unless_gone remoteClient remoteLib newIsoData pendingRemote).2
    (isoOf "iso-1" "a.iso" "pending") pendingRemote rfl).1 WaitError.timeout (by decide)

/-! ## Computed attributes -/

theorem attr_SetId (d : ResourceData) (v key : String) : (d.SetId v).attr key = d.attr key := rfl

theorem find?_filter_ne (k key : String) (h : k ≠ key) :
    ∀ l : List (String × Val),
      (l.filter (fun kv => kv.1 != k)).find? (fun kv => kv.1 == key)
        = l.find? (fun kv => kv.1 == key)
  | [] => rfl
  | kv :: rest => by
    have ih := find?_filter_ne k key h rest
    simp only [List.filter_cons, List.find?_cons]
    by_cases hk : kv.1 = k
    · have hkey : (kv.1 == key) = false := by simpa [hk] using h
      have hf : (kv.1 != k) = false := by simp [hk]
      simp only [hf, hkey, ih, Bool.false_eq_true, if_false]
    · have hf : (kv.1 != k) = true := by simpa using hk
      simp only [hf, if_true, List.find?_cons, ih]

theorem attr_Set (d : ResourceData) (k key : String) (v : Val) :
    (d.Set k v).attr key = if k = key then some v else d.attr key := by
  by_cases h : k = key
  · simp [ResourceData.Set, ResourceData.attr, h]
  · have hkey : (k == key) = false := by simpa using h
    simp only [ResourceData.Set, ResourceData.attr, h, if_false, List.find?_cons, hkey,
      find?_filter_ne k key h]

/-- C10 (the code departs from the claim): the schema of the instance data
source declares `location` as `Computed`, and `dataSourceVultrInstanceRead`
never assigns it: after every run the attribute is what it was before, and in
the successful run that looks up the instance `v1` it is unset. -/
theorem instanceRead_leaves_location_unset :
    (∀ filtersSchema, "location" ∈ computedAttributes (dataSourceVultrInstance filtersSchema)) ∧
    (∀ (σ F M : Type) (c : Client σ) (h : Helpers σ F M) (fuel : Nat) (d : ResourceData) (s : σ),
      (dataSourceVultrInstanceRead c h fuel d s).d.attr "location" = d.attr "location") ∧
    (dataSourceVultrInstanceRead remoteClient remoteHelpers 2 (dataWithFilter "id" "v1")
      twoPageRemote).status = .done none ∧
    (dataSourceVultrInstanceRead remoteClient remoteHelpers 2 (dataWithFilter "id" "v1")
      twoPageRemote).d.attr "location" = none := by
  refine ⟨?_, ?_, by decide, by decide⟩
  · intro fs
    simp [computedAttributes, dataSourceVultrInstance]
  · intro σ F M c h fuel d s
    unfold dataSourceVultrInstanceRead
    split
    · rfl
    · simp only
      split
      · rfl
      · rfl
      · rfl
      · split
        · rfl
        · rfl
        · split
          · simp [setInstance, attr_Set, attr_SetId]
          · split
            · simp [setInstance, attr_Set, attr_SetId]
            · simp [setInstance, attr_Set, attr_SetId]

/-! ## The block-storage lookup -/

theorem id_Set (d : ResourceData) (k : String) (v : Val) : (d.Set k v).id = d.id := rfl

theorem id_SetId (d : ResourceData) (v : String) : (d.SetId v).id = v := rfl

theorem blockStorageRead_one {σ F M : Type} (c : Client σ) (h : Helpers σ F M)
    (fuel : Nat) (d : ResourceData) (s : σ) (filters : RawFilter)
    (hfilter : d.filter = some filters) (pages : List (List BlockStorage × String))
    (hl : Listing c.BlockStorageList s {} pages)
    (hflat : ∀ r ∈ records pages, ∃ m, h.structToMapBlockStorage r = .ok m)
    (hfuel : pages.length ≤ fuel) (b : BlockStorage)
    (hone : matching h.structToMapBlockStorage
      (h.filterLoop (h.buildVultrDataSourceFilter filters)) pages = [b]) :
    (dataSourceVultrBlockStorageRead c h fuel d s).status = .done none ∧
    (dataSourceVultrBlockStorageRead c h fuel d s).d = setBlockStorage d b := by
  have hp := pagedFilter_listing c.BlockStorageList Event.blockStorageList
    h.structToMapBlockStorage (h.filterLoop (h.buildVultrDataSourceFilter filters))
    pages fuel s {} [] hl hflat hfuel
  rw [List.nil_append, hone] at hp
  simp [dataSourceVultrBlockStorageRead, hfilter, hp]

/-- C11, amended: when the records of the listing all flatten and exactly one
block-storage record `b` of the listing matches the filter,
`dataSourceVultrBlockStorageRead` succeeds, the id is `b.ID`, and
`date_created`, `cost`, `status`, `size_gb`, `region`, `attached_to_instance`,
`label` and `mount_id` hold the fields of `b`. -/
theorem blockStorageRead_sets_fields_of_match {σ F M : Type} (c : Client σ) (h : Helpers σ F M)
    (fuel : Nat) (d : ResourceData) (s : σ) (filters : RawFilter)
    (hfilter : d.filter = some filters) (pages : List (List BlockStorage × String))
    (hl : Listing c.BlockStorageList s {} pages)
    (hflat : ∀ r ∈ records pages, ∃ m, h.structToMapBlockStorage r = .ok m)
    (hfuel : pages.length ≤ fuel) (b : BlockStorage)
    (hone : matching h.structToMapBlockStorage
      (h.filterLoop (h.buildVultrDataSourceFilter filters)) pages = [b]) :
    (dataSourceVultrBlockStorageRead c h fuel d s).status = .done none ∧
    (dataSourceVultrBlockStorageRead c h fuel d s).d.id = b.ID ∧
    (dataSourceVultrBlockStorageRead c h fuel d s).d.attr "date_created"
      = some (.str b.DateCreated) ∧
    (dataSourceVultrBlockStorageRead c h fuel d s).d.attr "cost" = some (.int b.Cost) ∧
    (dataSourceVultrBlockStorageRead c h fuel d s).d.attr "status" = some (.str b.Status) ∧
    (dataSourceVultrBlockStorageRead c h fuel d s).d.attr "size_gb" = some (.int b.SizeGB) ∧
    (dataSourceVultrBlockStorageRead c h fuel d s).d.attr "region" = some (.str b.Region) ∧
    (dataSourceVultrBlockStorageRead c h fuel d s).d.attr "attached_to_instance"
      = some (.str b.AttachedToInstance) ∧
    (dataSourceVultrBlockStorageRead c h fuel d s).d.attr "label" = some (.str b.Label) ∧
    (dataSourceVultrBlockStorageRead c h fuel d s).d.attr "mount_id"
      = some (.str b.MountID) := by
  obtain ⟨hs, hd⟩ := blockStorageRead_one c h fuel d s filters hfilter pages hl hflat hfuel b hone
  rw [hs, hd]
  simp [setBlockStorage, attr_Set, id_Set, id_SetId]

/-- C11, amended, at the two-page listing in which only `b2` has the label
`tf-bs-rs-1234`. -/
theorem blockStorageRead_sets_fields_of_match_witness :
    (dataSourceVultrBlockStorageRead remoteClient remoteHelpers 2
      (dataWithFilter "label" "tf-bs-rs-1234") twoPageRemote).d.id = "b2" ∧
    (dataSourceVultrBlockStorageRead remoteClient remoteHelpers 2
      (dataWithFilter "label" "tf-bs-rs-1234") twoPageRemote).d.attr "label"
      = some (.str "tf-bs-rs-1234") :=
  have t := blockStorageRead_sets_fields_of_match remoteClient remoteHelpers 2
    (dataWithFilter "label" "tf-bs-rs-1234") twoPageRemote [("label", ["tf-bs-rs-1234"])] rfl
    [([blockOf "b1" "data", blockOf "b2" "tf-bs-rs-1234"], "p2"), ([blockOf "b3" "logs"], "")]
    ⟨rfl, by decide, rfl, rfl⟩ (fun _ _ => ⟨_, rfl⟩) (by decide) (blockOf "b2" "tf-bs-rs-1234")
    (by decide)
  ⟨t.2.1, t.2.2.2.2.2.2.2.2.1⟩

/-! ## The reverse-IPv4 lookup -/

/-- C12 (the code departs from the claim): the instance `v1` has the IPv4
records `192.0.2.5` (reverse `a.example.com`) and `192.0.2.9` (reverse
`b.example.com`), in this order, and the filter asks for the reverse name
`a.example.com`, which exactly one record has. The lookup succeeds, but id,
`ip` and `reverse` are those of the last record of the listing, `192.0.2.9`
and `b.example.com`, not those of the matching record. -/
theorem reverseIPV4Read_returns_last_record :
    ((records [([ipv4Of "192.0.2.5" "a.example.com", ipv4Of "192.0.2.9" "b.example.com"],
        "")]).filter (accepts remoteHelpers.structToMapIPv4
          (remoteHelpers.filterLoop [("reverse", ["a.example.com"])])))
      = [ipv4Of "192.0.2.5" "a.example.com"] ∧
    (dataSourceVultrReverseIPV4Read remoteClient remoteHelpers 2
      (dataWithFilter "reverse" "a.example.com") reverseRemote).status = .done none ∧
    (dataSourceVultrReverseIPV4Read remoteClient remoteHelpers 2
      (dataWithFilter "reverse" "a.example.com") reverseRemote).d.id = "192.0.2.9" ∧
    (dataSourceVultrReverseIPV4Read remoteClient remoteHelpers 2
      (dataWithFilter "reverse" "a.example.com") reverseRemote).d.attr "ip"
      = some (.str "192.0.2.9") ∧
    (dataSourceVultrReverseIPV4Read remoteClient remoteHelpers 2
      (dataWithFilter "reverse" "a.example.com") reverseRemote).d.attr "reverse"
      = some (.str "b.example.com") ∧
    (dataSourceVultrReverseIPV4Read remoteClient remoteHelpers 2
      (dataWithFilter "reverse" "a.example.com") reverseRemote).d.attr "instance_id"
      = some (.str "v1") := by
  decide

/-! ## The provider -/

/-- C13 (the code departs from the claim): of the resource types the acceptance
tests configure, `vultr_block_storage` and `vultr_instance` are keys of the
provider's `ResourcesMap`, and `vultr_container_registry` is not. -/
theorem provider_lacks_container_registry :
    "vultr_block_storage" ∈ Provider.ResourcesMap ∧
    "vultr_instance" ∈ Provider.ResourcesMap ∧
    "vultr_container_registry" ∈ testedResourceTypes ∧
    "vultr_container_registry" ∉ Provider.ResourcesMap ∧
    testedResourceTypes.filter (fun t => !Provider.ResourcesMap.contains t)
      = ["vultr_container_registry"] := by
  decide

/-! ## The filter engine -/

theorem valuesLoop_iff (values : List String) (text : String) :
    valuesLoop values text = true ↔ text ∈ values := by
  induction values with
  | nil => simp [valuesLoop]
  | cons v rest ih =>
    by_cases h : v = text
    · simp [valuesLoop, h]
    · have h2 : ¬ text = v := fun e => h e.symm
      simp [valuesLoop, h, h2, ih]

theorem clauseMatches_iff (m : FlattenedRecord) (clause : String × List String) :
    clauseMatches m clause = true ↔
      ∃ v, lookupField m clause.1 = some v ∧ ∃ t ∈ v.texts, t ∈ clause.2 := by
  unfold clauseMatches
  cases hl : lookupField m clause.1 with
  | none => simp
  | some v =>
    cases v with
    | scalar x => simp [FieldValue.texts, valuesLoop_iff]
    | list l => simp [FieldValue.texts, valuesLoop_iff]

theorem filterLoop_all (f : FilterSpec) (m : FlattenedRecord) :
    filterLoop f m = true ↔ ∀ clause ∈ f, clauseMatches m clause = true := by
  induction f with
  | nil => simp [filterLoop]
  | cons clause rest ih =>
    by_cases h : clauseMatches m clause = true
    · simp [filterLoop, h, ih]
    · simp [filterLoop, h]

/-- C14: `filterLoop f m` is true exactly when, for every clause of `f`, the
record has the field the clause names (looked up without regard to letter case)
and the string form of its value, or of one element of a list value, is one of
the accepted values; a field is absent exactly when no field of the record has
that name, and a clause that names an absent field makes the result false, as
a value and not a fault. -/
theorem filterLoop_iff_every_clause (f : FilterSpec) (m : FlattenedRecord) :
    (filterLoop f m = true ↔
      ∀ clause ∈ f, ∃ v, lookupField m clause.1 = some v ∧ ∃ t ∈ v.texts, t ∈ clause.2) ∧
    (∀ name, lookupField m name = none ↔ ∀ kv ∈ m, lowerName kv.1 ≠ lowerName name) ∧
    (∀ clause ∈ f, lookupField m clause.1 = none → filterLoop f m = false) := by
  refine ⟨?_, ?_, ?_⟩
  · rw [filterLoop_all]
    exact forall₂_congr (fun clause _ => clauseMatches_iff m clause)
  · intro name
    simp [lookupField, List.find?_eq_none]
  · intro clause hc hnone
    cases hf : filterLoop f m with
    | false => rfl
    | true =>
      have h := (clauseMatches_iff m clause).mp ((filterLoop_all f m).mp hf clause hc)
      obtain ⟨v, hv, _⟩ := h
      rw [hnone] at hv
      cases hv

theorem lookupField_lower (m : FlattenedRecord) (n n' : String)
    (h : lowerName n = lowerName n') : lookupField m n' = lookupField m n := by
  simp [lookupField, h]

theorem filterLoop_append (pre post : FilterSpec) (m : FlattenedRecord) :
    filterLoop (pre ++ post) m = (filterLoop pre m && filterLoop post m) := by
  induction pre with
  | nil => simp [filterLoop]
  | cons clause rest ih =>
    by_cases h : clauseMatches m clause = true
    · simp [filterLoop, h, ih]
    · simp [filterLoop, h]

/-- C15: replacing the name `n` of a clause by a name `n2` that differs from it
only in letter case does not change `filterLoop f m`; the clause
`("Label", ["Foo"])` matches a record whose field `label` is `Foo`; values are
compared as they are, so the accepted value `foo` does not match `Foo`. -/
theorem filterLoop_ignores_name_case (pre post : FilterSpec) (m : FlattenedRecord)
    (n n2 : String) (values : List String) (h : lowerName n = lowerName n2) :
    filterLoop (pre ++ (n2, values) :: post) m = filterLoop (pre ++ (n, values) :: post) m ∧
    filterLoop [("Label", ["Foo"])] (labelled "Foo") = true ∧
    filterLoop [("label", ["foo"])] (labelled "Foo") = false := by
  refine ⟨?_, by decide, by decide⟩
  have hc : clauseMatches m (n2, values) = clauseMatches m (n, values) := by
    simp [clauseMatches, lookupField_lower m n n2 h]
  simp [filterLoop_append, filterLoop, hc]

/-- C15 at the names `label` and `LABEL`. -/
theorem filterLoop_ignores_name_case_witness :
    filterLoop ([("id", ["b1"])] ++ ("LABEL", ["Foo"]) :: []) (("id", .scalar (.str "b1")) ::
        labelled "Foo")
      = filterLoop ([("id", ["b1"])] ++ ("label", ["Foo"]) :: []) (("id", .scalar (.str "b1")) ::
        labelled "Foo") :=
  (filterLoop_ignores_name_case [("id", ["b1"])] [] (("id", .scalar (.str "b1")) ::
    labelled "Foo") "label" "LABEL" ["Foo"] (by decide)).1

/-! ## The poll machine -/

theorem waitForState_decided {σ P : Type} (refresh : σ → Except String (P × String) × σ)
    (call : Event) (conf : StateChangeConf) (p : P) (st : String) (s2 : σ)
    (hst : st ∉ conf.Pending) :
    ∀ (pendings : List (P × String)) (ticks misses : Nat) (s : σ),
      (∀ o ∈ pendings, o.2 ∈ conf.Pending ∧ o.2 ∉ conf.Target) →
      Observes refresh s (pendings ++ [(p, st)]) s2 → pendings.length < ticks →
      (waitForState refresh call conf ticks misses s).result
          = (if st ∈ conf.Target then .ok p else .error (.unexpectedState st)) ∧
        (waitForState refresh call conf ticks misses s).world = s2 ∧
        (waitForState refresh call conf ticks misses s).trace
          = List.replicate (pendings.length + 1) call
  | [], ticks, misses, s, _, hobs, hticks => by
    cases ticks with
    | zero => simp at hticks
    | succ ticks =>
      obtain ⟨ho, hs2⟩ := hobs
      rcases hr : refresh s with ⟨res, s1⟩
      rw [hr] at ho hs2
      simp only at ho hs2
      subst ho
      simp only [Observes] at hs2
      subst hs2
      by_cases ht : st ∈ conf.Target
      · simp [waitForState, hr, ht]
      · simp [waitForState, hr, ht, hst]
  | o :: rest, ticks, misses, s, hpend, hobs, hticks => by
    cases ticks with
    | zero => simp at hticks
    | succ ticks =>
      obtain ⟨ho, hrest⟩ := hobs
      rcases hr : refresh s with ⟨res, s1⟩
      rw [hr] at ho hrest
      simp only at ho hrest
      subst ho
      obtain ⟨hin, hnot⟩ := hpend o (List.mem_cons_self _ _)
      have ih := waitForState_decided refresh call conf p st s2 hst rest ticks 0 s1
        (fun x hx => hpend x (List.mem_cons_of_mem _ hx)) hrest (by simpa using hticks)
      obtain ⟨payload, state⟩ := o
      simp only at hin hnot
      simp only [waitForState, hr, hnot, hin, if_true, if_false, ih, List.length_cons]
      exact ⟨trivial, trivial, (List.replicate_succ _ _).symm⟩

/-- C16: in a poll started by `waitForIsoAvailable` or `waitForIsoDetached`
(with a target that is not among the pending states), when the refreshes
succeed and observe pending states and then, within the room the timeout
leaves, a first state that is not pending: the poll returns the payload of
that tick if the state is the target and the unexpected-state error otherwise,
and its refreshes are those up to that tick and no more. -/
theorem wait_decided_by_first_non_pending_state {σ : Type} (c : Client σ) (lib : GoLib)
    (target : String) (pending : List String) (attr : String) (htarget : target ∉ pending) :
    (∀ (d : ResourceData) (s s2 : σ) (pendings : List (ISO × String)) (p : ISO) (st : String),
      (∀ o ∈ pendings, o.2 ∈ pending) → st ∉ pending →
      Observes (newIsoStateRefresh c d) s (pendings ++ [(p, st)]) s2 →
      pendings.length < lib.waitTicks →
      (waitForIsoAvailable c lib d target pending attr s).result
          = (if st = target then .ok p else .error (.unexpectedState st)) ∧
        (waitForIsoAvailable c lib d target pending attr s).world = s2 ∧
        (waitForIsoAvailable c lib d target pending attr s).trace
          = .waitForIsoAvailable d.id target pending ::
              List.replicate (pendings.length + 1) (.isoGet d.id)) ∧
    (∀ (instanceID : String) (s s2 : σ) (pendings : List (IsoStatus × String)) (p : IsoStatus)
        (st : String),
      (∀ o ∈ pendings, o.2 ∈ pending) → st ∉ pending →
      Observes (isoDetachStateRefresh c instanceID) s (pendings ++ [(p, st)]) s2 →
      pendings.length < lib.waitTicks →
      (waitForIsoDetached c lib instanceID target pending attr s).result
          = (if st = target then .ok p else .error (.unexpectedState st)) ∧
        (waitForIsoDetached c lib instanceID target pending attr s).world = s2 ∧
        (waitForIsoDetached c lib instanceID target pending attr s).trace
          = .waitForIsoDetached instanceID target pending ::
              List.replicate (pendings.length + 1) (.isoStatus instanceID)) := by
  refine ⟨?_, ?_⟩
  · intro d s s2 pendings p st hpend hst hobs hticks
    have h := waitForState_decided (newIsoStateRefresh c d) (.isoGet d.id)
      { Pending := pending, Target := [target], Timeout := 60 * 60, Delay := 10,
        MinTimeout := 3, NotFoundChecks := 60 } p st s2 hst pendings lib.waitTicks 0 s
      (fun o ho => ⟨hpend o ho, by
        intro hmem
        simp only [List.mem_singleton] at hmem
        exact htarget (hmem ▸ hpend o ho)⟩) hobs hticks
    simpa [waitForIsoAvailable] using h
  · intro instanceID s s2 pendings p st hpend hst hobs hticks
    have h := waitForState_decided (isoDetachStateRefresh c instanceID) (.isoStatus instanceID)
      { Pending := pending, Target := [target], Timeout := 60 * 60, Delay := 10,
        MinTimeout := 3, NotFoundChecks := 60 } p st s2 hst pendings lib.waitTicks 0 s
      (fun o ho => ⟨hpend o ho, by
        intro hmem
        simp only [List.mem_singleton] at hmem
        exact htarget (hmem ▸ hpend o ho)⟩) hobs hticks
    simpa [waitForIsoDetached] using h

/-- C16 at the refresh sequence `pending`, `pending`, `complete` of an ISO,
which returns the payload of the third tick, and at an instance whose ISO
state is `ready` at the first tick. -/
theorem wait_decided_by_first_non_pending_state_witness :
    ((waitForIsoAvailable remoteClient remoteLib isoData "complete" ["pending"] "status"
        completingRemote).result = .ok (isoOf "iso-1" "a.iso" "complete") ∧
      (waitForIsoAvailable remoteClient remoteLib isoData "complete" ["pending"] "status"
        completingRemote).trace
        = [.waitForIsoAvailable "iso-1" "complete" ["pending"], .isoGet "iso-1", .isoGet "iso-1",
           .isoGet "iso-1"]) ∧
    (waitForIsoDetached remoteClient remoteLib "v1" "ready" ["isomounted"] "status"
        completingRemote).trace
      = [.waitForIsoDetached "v1" "ready" ["isomounted"], .isoStatus "v1"] :=
  have a := (wait_decided_by_first_non_pending_state remoteClient remoteLib "complete"
    ["pending"] "status" (by decide)).1 isoData completingRemote
    { isoGets := [] }
    [(isoOf "iso-1" "a.iso" "pending", "pending"), (isoOf "iso-1" "a.iso" "pending", "pending")]
    (isoOf "iso-1" "a.iso" "complete") "complete" (by decide) (by decide)
    ⟨rfl, rfl, rfl, rfl⟩ (by decide)
  have b := (wait_decided_by_first_non_pending_state remoteClient remoteLib "ready"
    ["isomounted"] "status" (by decide)).2 "v1" completingRemote completingRemote []
    { State := "ready", IsoID := "" } "ready" (by decide) (by decide) ⟨rfl, rfl⟩ (by decide)
  ⟨⟨a.1, a.2.2⟩, b.2.2⟩

/-! ## The DNS-domain create -/

theorem dnsDomainRead_id {σ : Type} (c : Client σ) (d : ResourceData) (s : σ) :
    (resourceVultrDNSDomainRead c d s).d.id = d.id ∧
    (resourceVultrDNSDomainRead c d s).trace = [.domainGet d.id] := by
  rcases hg : c.DomainGet s d.id with ⟨res, s1⟩
  cases res <;> simp [resourceVultrDNSDomainRead, hg, id_Set]

/-- C17: when `Domain.Create` fails, `resourceVultrDNSDomainCreate` returns the
error, leaves the resource data (the id with it) as it was and issues nothing
after the create, so no read; when it succeeds, the run is the read performed
on the resource data whose id is already the `Domain` of the returned record,
and the id is that name on return. The request carries `domain` and `dns_sec`,
and the configured `ip` when `ip` is set, an empty `IP` otherwise. -/
theorem dnsDomainCreate_fails_or_sets_id {σ : Type} (c : Client σ) (d : ResourceData) (s : σ) :
    (∀ err s1, c.DomainCreate s (domainReq d) = (.error err, s1) →
      resourceVultrDNSDomainCreate c d s
        = ⟨.done (some ("error while creating domain : " ++ err)), d, s1,
            [.domainCreate (domainReq d)]⟩) ∧
    (∀ domain s1, c.DomainCreate s (domainReq d) = (.ok domain, s1) →
      resourceVultrDNSDomainCreate c d s
        = (resourceVultrDNSDomainRead c (d.SetId domain.Domain) s1).after
            [.domainCreate (domainReq d)] ∧
      (resourceVultrDNSDomainCreate c d s).d.id = domain.Domain ∧
      (resourceVultrDNSDomainCreate c d s).trace
        = [.domainCreate (domainReq d), .domainGet domain.Domain]) ∧
    ((domainReq d).Domain = d.GetString "domain" ∧
      (domainReq d).DNSSec = d.GetString "dns_sec") ∧
    (∀ ip, d.GetOkString "ip" = some ip → (domainReq d).IP = ip) ∧
    (d.GetOkString "ip" = none → (domainReq d).IP = "") := by
  refine ⟨?_, ?_, ?_, ?_, ?_⟩
  · intro err s1 hc
    simp [resourceVultrDNSDomainCreate, hc]
  · intro domain s1 hc
    have hr := dnsDomainRead_id c (d.SetId domain.Domain) s1
    have hrun : resourceVultrDNSDomainCreate c d s
        = (resourceVultrDNSDomainRead c (d.SetId domain.Domain) s1).after
            [.domainCreate (domainReq d)] := by
      simp [resourceVultrDNSDomainCreate, hc]
    refine ⟨hrun, ?_, ?_⟩
    · rw [hrun]
      exact hr.1
    · rw [hrun]
      simp [Run.after, hr.2, id_SetId]
  · cases hip : d.GetOkString "ip" <;> simp [domainReq, hip]
  · intro ip hip
    simp [domainReq, hip]
  · intro hip
    simp [domainReq, hip]

/-- C17 at a domain with `ip` set, where the create succeeds. -/
theorem dnsDomainCreate_fails_or_sets_id_witness :
    (resourceVultrDNSDomainCreate remoteClient domainData twoPageRemote).d.id = "example.com" ∧
    (domainReq domainData).IP = "192.0.2.5" :=
  have t := dnsDomainCreate_fails_or_sets_id remoteClient domainData twoPageRemote
  ⟨(t.2.1 { Domain := "example.com", DateCreated := "", DNSSec := "disabled" } twoPageRemote
      rfl).2.1,
   t.2.2.2.1 "192.0.2.5" (by decide)⟩

/-! ## The list calls of a lookup -/

theorem pageFetches_length (call : ListOptions → Event) {α : Type} :
    ∀ (pages : List (List α × String)) (o : ListOptions),
      (pageFetches call o pages).length = pages.length
  | [], _ => rfl
  | p :: rest, o => by
    simp [pageFetches, pageFetches_length call rest]

theorem pagedFilter_trace {σ α M : Type}
    (list : σ → ListOptions → Except String (List α × String) × σ) (call : ListOptions → Event)
    (structToMap : α → Except String M) (keep : M → Bool) :
    ∀ (pages : List (List α × String)) (fuel : Nat) (s : σ) (o : ListOptions) (acc : List α),
      Listing list s o pages → (∀ r ∈ records pages, ∃ m, structToMap r = .ok m) →
      pages.length ≤ fuel →
      (pagedFilter list call structToMap keep fuel s o acc).trace = pageFetches call o pages
  | [], _, _, _, _, hl, _, _ => by simp [Listing] at hl
  | [p], fuel, s, o, acc, hl, hflat, hfuel => by
    obtain ⟨hp, hnext⟩ := hl
    cases fuel with
    | zero => simp at hfuel
    | succ fuel =>
      obtain ⟨page, next⟩ := p
      simp only at hnext
      subst hnext
      have hpage := filterPage_ok structToMap keep page acc
        (fun r hr => hflat r (by simp [records, hr]))
      rcases hls : list s o with ⟨res, s1⟩
      rw [hls] at hp
      simp only at hp
      subst hp
      simp [pagedFilter, hls, hpage, pageFetches]
  | p :: q :: rest, fuel, s, o, acc, hl, hflat, hfuel => by
    obtain ⟨hp, hnext, hrest⟩ := hl
    cases fuel with
    | zero => simp at hfuel
    | succ fuel =>
      obtain ⟨page, next⟩ := p
      simp only at hnext
      have hpage := filterPage_ok structToMap keep page acc
        (fun r hr => hflat r (by simp [records, hr]))
      rcases hls : list s o with ⟨res, s1⟩
      rw [hls] at hp hrest
      simp only at hp hrest
      subst hp
      have ih := pagedFilter_trace list call structToMap keep (q :: rest) fuel s1
        { o with Cursor := next } (acc ++ page.filter (accepts structToMap keep)) hrest
        (fun r hr => hflat r (by
          simp only [records, List.mem_append] at hr ⊢
          exact Or.inr hr))
        (by simpa using hfuel)
      simp only [pagedFilter, hls, hpage, hnext, if_false, ih]
      rfl

/-- C18, counterexample: the block-storage listing has two pages and both
fetches succeed, but the flattening of a record of the first page fails: the
lookup issues one list call, not two. -/
theorem lookup_stops_listing_on_flatten_error :
    Listing remoteClient.BlockStorageList unlabelledRemote {}
      [([blockOf "b1" ""], "p2"), ([blockOf "b2" "data"], "")] ∧
    (dataSourceVultrBlockStorageRead remoteClient strictHelpers 2
      (dataWithFilter "label" "data") unlabelledRemote).trace = [.blockStorageList {}] ∧
    (dataSourceVultrBlockStorageRead remoteClient strictHelpers 2
      (dataWithFilter "label" "data") unlabelledRemote).trace.length ≠ 2 := by
  refine ⟨⟨rfl, by decide, rfl, rfl⟩, by decide, by decide⟩

/-- C18, amended: over a listing of `n` pages whose fetches and flattenings all
succeed, the list calls of each lookup are exactly the `n` page fetches, the
first with an empty cursor and each following one with the next cursor of the
page before it; the instance lookup issues no list call besides them. -/
theorem lookup_fetches_each_page_once {σ F M : Type} (c : Client σ) (h : Helpers σ F M)
    (fuel : Nat) (d : ResourceData) (s : σ) (filters : RawFilter)
    (hfilter : d.filter = some filters) :
    (∀ pages, Listing c.BlockStorageList s {} pages →
      (∀ r ∈ records pages, ∃ m, h.structToMapBlockStorage r = .ok m) → pages.length ≤ fuel →
      (dataSourceVultrBlockStorageRead c h fuel d s).trace
        = pageFetches Event.blockStorageList {} pages ∧
      (dataSourceVultrBlockStorageRead c h fuel d s).trace.length = pages.length) ∧
    (∀ pages, Listing c.BareMetalServerList s {} pages →
      (∀ r ∈ records pages, ∃ m, h.structToMapBareMetalServer r = .ok m) → pages.length ≤ fuel →
      (dataSourceVultrBareMetalServerRead c h fuel d s).trace
        = pageFetches Event.bareMetalServerList {} pages ∧
      (dataSourceVultrBareMetalServerRead c h fuel d s).trace.length = pages.length) ∧
    (∀ pages, Listing c.ISOList s {} pages →
      (∀ r ∈ records pages, ∃ m, h.structToMapISO r = .ok m) → pages.length ≤ fuel →
      (dataSourceVultrIsoPrivateRead c h fuel d s).trace = pageFetches Event.isoList {} pages ∧
      (dataSourceVultrIsoPrivateRead c h fuel d s).trace.length = pages.length) ∧
    (∀ pages, Listing c.InstanceList s {} pages →
      (∀ r ∈ records pages, ∃ m, h.structToMapInstance r = .ok m) → pages.length ≤ fuel →
      ∃ others, (dataSourceVultrInstanceRead c h fuel d s).trace
          = pageFetches Event.instanceList {} pages ++ others ∧
        ∀ e ∈ others, ∀ o, e ≠ Event.instanceList o) := by
  refine ⟨?_, ?_, ?_, ?_⟩
  · intro pages hl hflat hfuel
    have ht := pagedFilter_trace c.BlockStorageList Event.blockStorageList
      h.structToMapBlockStorage (h.filterLoop (h.buildVultrDataSourceFilter filters))
      pages fuel s {} [] hl hflat hfuel
    have hrun : (dataSourceVultrBlockStorageRead c h fuel d s).trace
        = pageFetches Event.blockStorageList {} pages := by
      simp only [dataSourceVultrBlockStorageRead, hfilter]
      split
      · exact ht
      · exact ht
      · exact ht
      · split <;> exact ht
    exact ⟨hrun, by rw [hrun, pageFetches_length]⟩
  · intro pages hl hflat hfuel
    have ht := pagedFilter_trace c.BareMetalServerList Event.bareMetalServerList
      h.structToMapBareMetalServer (h.filterLoop (h.buildVultrDataSourceFilter filters))
      pages fuel s {} [] hl hflat hfuel
    have hrun : (dataSourceVultrBareMetalServerRead c h fuel d s).trace
        = pageFetches Event.bareMetalServerList {} pages := by
      simp only [dataSourceVultrBareMetalServerRead, hfilter]
      split
      · exact ht
      · exact ht
      · exact ht
      · split <;> exact ht
    exact ⟨hrun, by rw [hrun, pageFetches_length]⟩
  · intro pages hl hflat hfuel
    have ht := pagedFilter_trace c.ISOList Event.isoList
      h.structToMapISO (h.filterLoop (h.buildVultrDataSourceFilter filters))
      pages fuel s {} [] hl hflat hfuel
    have hrun : (dataSourceVultrIsoPrivateRead c h fuel d s).trace
        = pageFetches Event.isoList {} pages := by
      simp only [dataSourceVultrIsoPrivateRead, hfilter]
      split
      · exact ht
      · exact ht
      · exact ht
      · split <;> exact ht
    exact ⟨hrun, by rw [hrun, pageFetches_length]⟩
  · intro pages hl hflat hfuel
    have ht := pagedFilter_trace c.InstanceList Event.instanceList
      h.structToMapInstance (h.filterLoop (h.buildVultrDataSourceFilter filters))
      pages fuel s {} [] hl hflat hfuel
    simp only [dataSourceVultrInstanceRead, hfilter]
    split
    · exact ⟨[], by simpa using ht, by simp⟩
    · exact ⟨[], by simpa using ht, by simp⟩
    · exact ⟨[], by simpa using ht, by simp⟩
    · split
      · exact ⟨[], by simpa using ht, by simp⟩
      · exact ⟨[], by simpa using ht, by simp⟩
      · split
        · exact ⟨_, by rw [ht], by simp⟩
        · split
          · exact ⟨_, by rw [ht], by simp⟩
          · exact ⟨_, by rw [ht], by simp⟩

/-- C18, amended, at the two-page block-storage listing, and at one-page
listings of the other kinds. -/
theorem lookup_fetches_each_page_once_witness :
    (dataSourceVultrBlockStorageRead remoteClient remoteHelpers 2
      (dataWithFilter "label" "tf-bs-rs-1234") twoPageRemote).trace
      = [.blockStorageList {}, .blockStorageList { Cursor := "p2" }] ∧
    (dataSourceVultrBareMetalServerRead remoteClient remoteHelpers 2
      (dataWithFilter "label" "tf-bs-rs-1234") twoPageRemote).trace.length = 1 ∧
    (dataSourceVultrIsoPrivateRead remoteClient remoteHelpers 2
      (dataWithFilter "label" "tf-bs-rs-1234") twoPageRemote).trace.length = 1 ∧
    ∃ others, (dataSourceVultrInstanceRead remoteClient remoteHelpers 2
        (dataWithFilter "label" "tf-bs-rs-1234") twoPageRemote).trace
        = [.instanceList {}, .instanceList { Cursor := "p2" }] ++ others ∧
      ∀ e ∈ others, ∀ o, e ≠ Event.instanceList o :=
  have t := lookup_fetches_each_page_once remoteClient remoteHelpers 2
    (dataWithFilter "label" "tf-bs-rs-1234") twoPageRemote [("label", ["tf-bs-rs-1234"])] rfl
  ⟨(t.1 [([blockOf "b1" "data", blockOf "b2" "tf-bs-rs-1234"], "p2"), ([blockOf "b3" "logs"], "")]
      ⟨rfl, by decide, rfl, rfl⟩ (fun _ _ => ⟨_, rfl⟩) (by decide)).1,
   (t.2.1 [([serverOf "m1" "tf-bs-rs-1234"], "")] ⟨rfl, rfl⟩ (fun _ _ => ⟨_, rfl⟩)
      (by decide)).2,
   (t.2.2.1 [([isoOf "i1" "tf-bs-rs-1234" "complete", isoOf "i2" "other.iso" "complete"], "")]
      ⟨rfl, rfl⟩ (fun _ _ => ⟨_, rfl⟩) (by decide)).2,
   t.2.2.2 [([instanceOf "v1" "192.0.2.5"], "p2"), ([instanceOf "v2" "192.0.2.6"], "")]
      ⟨rfl, by decide, rfl, rfl⟩ (fun _ _ => ⟨_, rfl⟩) (by decide)⟩

/-! ## The instances of the reverse-IPv4 lookup -/

theorem filterInstanceIDs_eq (filters : RawFilter) :
    filterInstanceIDs filters
      = (filters.filter (fun clause => clause.1 == "instance_id")).flatMap Prod.snd := by
  induction filters with
  | nil => rfl
  | cons clause rest ih =>
    obtain ⟨name, values⟩ := clause
    by_cases hn : name = "instance_id"
    · simp [filterInstanceIDs, hn, ih, List.flatMap_cons]
    · simp [filterInstanceIDs, hn, ih]

theorem collectInstanceIDs_listing {σ : Type} (c : Client σ) :
    ∀ (pages : List (List Instance × String)) (fuel : Nat) (s : σ) (o : ListOptions)
      (acc : List String),
      Listing c.InstanceList s o pages → pages.length ≤ fuel →
      (collectInstanceIDs c fuel s o acc).ids
          = some (.ok (acc ++ (records pages).map (fun server => server.ID))) ∧
        (collectInstanceIDs c fuel s o acc).trace = pageFetches Event.instanceList o pages
  | [], _, _, _, _, hl, _ => by simp [Listing] at hl
  | [p], fuel, s, o, acc, hl, hfuel => by
    obtain ⟨hp, hnext⟩ := hl
    cases fuel with
    | zero => simp at hfuel
    | succ fuel =>
      obtain ⟨page, next⟩ := p
      simp only at hnext
      subst hnext
      rcases hls : c.InstanceList s o with ⟨res, s1⟩
      rw [hls] at hp
      simp only at hp
      subst hp
      simp [collectInstanceIDs, hls, records, pageFetches]
  | p :: q :: rest, fuel, s, o, acc, hl, hfuel => by
    obtain ⟨hp, hnext, hrest⟩ := hl
    cases fuel with
    | zero => simp at hfuel
    | succ fuel =>
      obtain ⟨page, next⟩ := p
      simp only at hnext
      rcases hls : c.InstanceList s o with ⟨res, s1⟩
      rw [hls] at hp hrest
      simp only at hp hrest
      subst hp
      have ih := collectInstanceIDs_listing c (q :: rest) fuel s1 { o with Cursor := next }
        (acc ++ page.map (fun server => server.ID)) hrest (by simpa using hfuel)
      simp only [collectInstanceIDs, hls, hnext, if_false, ih]
      refine ⟨?_, rfl⟩
      simp [records, List.map_append]

theorem searchIPv4s_trace {σ M : Type} (c : Client σ) (structToMap : IPv4 → Except String M)
    (keep : M → Bool) :
    ∀ (ids : List String) (s : σ) (r : IPv4Result),
      (searchIPv4s c structToMap keep ids s r).trace <+: ids.map Event.instanceListIPv4 ∧
      (∀ r2, (searchIPv4s c structToMap keep ids s r).result = .ok r2 →
        (searchIPv4s c structToMap keep ids s r).trace = ids.map Event.instanceListIPv4)
  | [], s, r => by simp [searchIPv4s]
  | instanceID :: rest, s, r => by
    rcases hls : c.InstanceListIPv4 s instanceID with ⟨res, s1⟩
    cases res with
    | error err =>
      simp only [searchIPv4s, hls, List.map_cons]
      exact ⟨⟨rest.map Event.instanceListIPv4, rfl⟩, fun r2 h2 => nomatch h2⟩
    | ok ipv4s =>
      cases hscan : scanIPv4s structToMap keep instanceID ipv4s { r with aliased := false } with
      | error err =>
        simp only [searchIPv4s, hls, hscan, List.map_cons]
        exact ⟨⟨rest.map Event.instanceListIPv4, rfl⟩, fun r2 h2 => nomatch h2⟩
      | ok r1 =>
        have ih := searchIPv4s_trace c structToMap keep rest s1 r1
        simp only [searchIPv4s, hls, hscan, List.map_cons]
        refine ⟨?_, ?_⟩
        · obtain ⟨t, ht⟩ := ih.1
          exact ⟨t, by rw [List.cons_append, ht]⟩
        · intro r2 h2
          rw [ih.2 r2 h2]

theorem reverseIPV4Search_trace {σ F M : Type} (c : Client σ) (h : Helpers σ F M)
    (filters : RawFilter) (ids : List String) (d : ResourceData) (s : σ) (before : List Event) :
    ∃ searched, (reverseIPV4Search c h filters ids d s before).trace = before ++ searched ∧
      searched <+: ids.map Event.instanceListIPv4 ∧
      ((reverseIPV4Search c h filters ids d s before).succeeded →
        searched = ids.map Event.instanceListIPv4) := by
  have ht := searchIPv4s_trace c h.structToMapIPv4
    (h.filterLoop (h.buildVultrDataSourceFilter filters)) ids s ⟨none, false, ""⟩
  refine ⟨(searchIPv4s c h.structToMapIPv4
    (h.filterLoop (h.buildVultrDataSourceFilter filters)) ids s ⟨none, false, ""⟩).trace,
    ?_, ht.1, ?_⟩
  · simp only [reverseIPV4Search]
    split
    · rfl
    · split <;> rfl
  · simp only [reverseIPV4Search, Run.succeeded]
    split
    · intro hs
      cases hs
    · rename_i r hr
      intro _
      exact ht.2 r hr

theorem scanIPv4s_flat {M : Type} (structToMap : IPv4 → Except String M) (keep : M → Bool)
    (instanceID : String) (hflat : ∀ r, ∃ m, structToMap r = .ok m) :
    ∀ (ipv4s : List IPv4) (r : IPv4Result),
      (∃ r1, scanIPv4s structToMap keep instanceID ipv4s r = .ok r1) ∨
        scanIPv4s structToMap keep instanceID ipv4s r = .error tooManyResultsIPv4
  | [], r => Or.inl ⟨r, rfl⟩
  | ipv4 :: rest, r => by
    obtain ⟨m, hm⟩ := hflat ipv4
    simp only [scanIPv4s, hm]
    split_ifs <;>
      first
      | exact Or.inr rfl
      | exact scanIPv4s_flat structToMap keep instanceID hflat rest _

theorem searchIPv4s_complete {σ M : Type} (c : Client σ) (structToMap : IPv4 → Except String M)
    (keep : M → Bool) (hflat : ∀ r, ∃ m, structToMap r = .ok m) :
    ∀ (ids : List String) (s : σ) (r : IPv4Result), IPv4Listings c s ids →
      (∃ r2, (searchIPv4s c structToMap keep ids s r).result = .ok r2) ∨
        (searchIPv4s c structToMap keep ids s r).result = .error tooManyResultsIPv4
  | [], s, r, _ => Or.inl ⟨r, rfl⟩
  | instanceID :: rest, s, r, hl => by
    obtain ⟨⟨ipv4s, hok⟩, hrest⟩ := hl
    rcases hls : c.InstanceListIPv4 s instanceID with ⟨res, s1⟩
    rw [hls] at hok hrest
    simp only at hok hrest
    subst hok
    rcases scanIPv4s_flat structToMap keep instanceID hflat ipv4s { r with aliased := false }
      with ⟨r1, hscan⟩ | hscan
    · simp only [searchIPv4s, hls, hscan]
      exact searchIPv4s_complete c structToMap keep hflat rest s1 r1 hrest
    · simp only [searchIPv4s, hls, hscan]
      exact Or.inr trivial

theorem reverseIPV4Search_complete {σ F M : Type} (c : Client σ) (h : Helpers σ F M)
    (filters : RawFilter) (ids : List String) (d : ResourceData) (s : σ) (before : List Event)
    (hlist : IPv4Listings c s ids) (hflat : ∀ r, ∃ m, h.structToMapIPv4 r = .ok m)
    (hstatus : (reverseIPV4Search c h filters ids d s before).status
      ≠ .done (some tooManyResultsIPv4)) :
    (reverseIPV4Search c h filters ids d s before).trace
      = before ++ ids.map Event.instanceListIPv4 := by
  have ht := searchIPv4s_trace c h.structToMapIPv4
    (h.filterLoop (h.buildVultrDataSourceFilter filters)) ids s ⟨none, false, ""⟩
  rcases searchIPv4s_complete c h.structToMapIPv4
    (h.filterLoop (h.buildVultrDataSourceFilter filters)) hflat ids s ⟨none, false, ""⟩ hlist
    with ⟨r2, hok⟩ | herr
  · have hfull := ht.2 r2 hok
    simp only [reverseIPV4Search, hok]
    split <;> simp [hfull]
  · exfalso
    apply hstatus
    simp only [reverseIPV4Search, herr]

/-- C19, counterexample: the filter has no `instance_id` clause and the
instance listing holds `v1`, `v2` and `v3`, whose IPv4 listings can all be
fetched; `v1` and `v2` each hold a matching record. The lookup stops at the
second match: the IPv4 listings of `v1` and `v2` are searched and that of `v3`
is not. -/
theorem reverseIPV4Read_stops_at_second_match :
    filterInstanceIDs [("reverse", ["dup.example.com"])] = [] ∧
    (remoteClient.InstanceList threeInstanceRemote {}).1
      = .ok ([instanceOf "v1" "192.0.2.5", instanceOf "v2" "192.0.2.6",
              instanceOf "v3" "192.0.2.7"], "") ∧
    IPv4Listings remoteClient threeInstanceRemote ["v1", "v2", "v3"] ∧
    (dataSourceVultrReverseIPV4Read remoteClient remoteHelpers 2
      (dataWithFilter "reverse" "dup.example.com") threeInstanceRemote).trace
      = [.instanceList {}, .instanceListIPv4 "v1", .instanceListIPv4 "v2"] ∧
    Event.instanceListIPv4 "v3" ∉ (dataSourceVultrReverseIPV4Read remoteClient remoteHelpers 2
      (dataWithFilter "reverse" "dup.example.com") threeInstanceRemote).trace ∧
    (dataSourceVultrReverseIPV4Read remoteClient remoteHelpers 2
      (dataWithFilter "reverse" "dup.example.com") threeInstanceRemote).status
      = .done (some tooManyResultsIPv4) := by
  refine ⟨by decide, rfl, ⟨⟨_, rfl⟩, ⟨_, rfl⟩, ⟨_, rfl⟩, trivial⟩, by decide, by decide, by decide⟩

/-- C19, amended: the instances to search are the values of the `instance_id`
clauses of the filter when there is at least one (no instance listing is then
fetched), and otherwise the IDs of all instances on all pages of the instance
listing, in listing order. The IPv4 listings fetched are always those of an
initial part of these instances, in order; they are those of all of them when
the lookup succeeds, and whenever the IPv4 fetches and the flattenings all
succeed and the lookup does not stop at a second match (so also when it ends
with "no results"). -/
theorem reverseIPV4Read_searched_instances {σ F M : Type} (c : Client σ) (h : Helpers σ F M)
    (fuel : Nat) (d : ResourceData) (s : σ) (filters : RawFilter)
    (hfilter : d.filter = some filters) :
    filterInstanceIDs filters
      = (filters.filter (fun clause => clause.1 == "instance_id")).flatMap Prod.snd ∧
    (filterInstanceIDs filters ≠ [] →
      (dataSourceVultrReverseIPV4Read c h fuel d s).trace
        <+: (filterInstanceIDs filters).map Event.instanceListIPv4 ∧
      ((dataSourceVultrReverseIPV4Read c h fuel d s).succeeded →
        (dataSourceVultrReverseIPV4Read c h fuel d s).trace
          = (filterInstanceIDs filters).map Event.instanceListIPv4) ∧
      (IPv4Listings c s (filterInstanceIDs filters) →
        (∀ r, ∃ m, h.structToMapIPv4 r = .ok m) →
        (dataSourceVultrReverseIPV4Read c h fuel d s).status
          ≠ .done (some tooManyResultsIPv4) →
        (dataSourceVultrReverseIPV4Read c h fuel d s).trace
          = (filterInstanceIDs filters).map Event.instanceListIPv4)) ∧
    (filterInstanceIDs filters = [] →
      ∀ pages, Listing c.InstanceList s {} pages → pages.length ≤ fuel →
        (∃ searched, (dataSourceVultrReverseIPV4Read c h fuel d s).trace
            = pageFetches Event.instanceList {} pages ++ searched ∧
          searched <+: ((records pages).map (fun server => server.ID)).map
            Event.instanceListIPv4 ∧
          ((dataSourceVultrReverseIPV4Read c h fuel d s).succeeded →
            searched = ((records pages).map (fun server => server.ID)).map
              Event.instanceListIPv4)) ∧
        (IPv4Listings c (collectInstanceIDs c fuel s {} []).world
            ((records pages).map (fun server => server.ID)) →
          (∀ r, ∃ m, h.structToMapIPv4 r = .ok m) →
          (dataSourceVultrReverseIPV4Read c h fuel d s).status
            ≠ .done (some tooManyResultsIPv4) →
          (dataSourceVultrReverseIPV4Read c h fuel d s).trace
            = pageFetches Event.instanceList {} pages ++
              ((records pages).map (fun server => server.ID)).map Event.instanceListIPv4)) := by
  refine ⟨filterInstanceIDs_eq filters, ?_, ?_⟩
  · intro hne
    have hlen : ¬ (filterInstanceIDs filters).length = 0 := by
      simpa [List.length_eq_zero] using hne
    have hrun : dataSourceVultrReverseIPV4Read c h fuel d s
        = reverseIPV4Search c h filters (filterInstanceIDs filters) d s [] := by
      simp only [dataSourceVultrReverseIPV4Read, hfilter, hlen, if_false]
    obtain ⟨searched, htr, hpre, hall⟩ :=
      reverseIPV4Search_trace c h filters (filterInstanceIDs filters) d s []
    rw [hrun]
    rw [List.nil_append] at htr
    refine ⟨htr ▸ hpre, fun hs => ?_, fun hlist hflat hstatus => ?_⟩
    · rw [htr]
      exact hall hs
    · have hc := reverseIPV4Search_complete c h filters (filterInstanceIDs filters) d s []
        hlist hflat hstatus
      rw [List.nil_append] at hc
      exact hc
  · intro hnil pages hl hfuel
    obtain ⟨hids, htrace⟩ := collectInstanceIDs_listing c pages fuel s {} [] hl hfuel
    rw [List.nil_append] at hids
    have hrun : dataSourceVultrReverseIPV4Read c h fuel d s
        = reverseIPV4Search c h filters ((records pages).map (fun server => server.ID)) d
            (collectInstanceIDs c fuel s {} []).world
            (pageFetches Event.instanceList {} pages) := by
      simp only [dataSourceVultrReverseIPV4Read, hfilter, hnil, List.length_nil, if_true, hids,
        htrace]
    rw [hrun]
    exact ⟨reverseIPV4Search_trace c h filters _ d _ _,
      fun hlist hflat hstatus => reverseIPV4Search_complete c h filters _ d _ _ hlist hflat hstatus⟩

/-- C19, amended, at a filter with the clause `instance_id = v1`, and at a
filter without such a clause that no record satisfies, over a one-page
instance listing: the run ends with "no results" after searching `v1`. -/
theorem reverseIPV4Read_searched_instances_witness :
    (dataSourceVultrReverseIPV4Read remoteClient remoteHelpers 2 dataWithInstanceFilter
      reverseRemote).trace = ["v1"].map Event.instanceListIPv4 ∧
    (dataSourceVultrReverseIPV4Read remoteClient remoteHelpers 2
        (dataWithFilter "reverse" "none.example.com") reverseRemote).trace
      = [.instanceList {}] ++ ["v1"].map Event.instanceListIPv4 :=
  ⟨((reverseIPV4Read_searched_instances remoteClient remoteHelpers 2 dataWithInstanceFilter
      reverseRemote [("instance_id", ["v1"]), ("reverse", ["a.example.com"])] rfl).2.1
      (by decide)).2.2 ⟨⟨_, rfl⟩, trivial⟩ (fun _ => ⟨_, rfl⟩) (by decide),
   ((reverseIPV4Read_searched_instances remoteClient remoteHelpers 2
      (dataWithFilter "reverse" "none.example.com") reverseRemote
      [("reverse", ["none.example.com"])] rfl).2.2 (by decide)
      [([instanceOf "v1" "192.0.2.5"], "")] ⟨rfl, rfl⟩ (by decide)).2
      ⟨⟨_, rfl⟩, trivial⟩ (fun _ => ⟨_, rfl⟩) (by decide)⟩

/-! ## Delete errors without recovery -/

/-- C20: when `ISO.Delete` fails and the error text does not decode, or the
decoded `error` field does not contain "is still attached to", or the last
space-separated part of that field is not an IP address,
`resourceVultrIsoDelete` returns an error, and the failed `ISO.Delete` is the
only call it issued: no instance listing, no `DetachISO`, no second
`ISO.Delete`. -/
theorem isoDelete_no_recovery_on_other_errors {σ : Type} (c : Client σ) (lib : GoLib)
    (fuel : Nat) (d : ResourceData) (s s1 : σ) (err : String)
    (hdel : c.ISODelete s d.id = (some err, s1)) :
    (∀ jsonErr, lib.jsonDecodeError err = .error jsonErr →
      (resourceVultrIsoDelete c lib (fuel + 1) d s).failed ∧
      (resourceVultrIsoDelete c lib (fuel + 1) d s).trace = [.isoDelete d.id] ∧
      (resourceVultrIsoDelete c lib (fuel + 1) d s).world = s1) ∧
    (∀ attachedErr, lib.jsonDecodeError err = .ok attachedErr →
      stringsContains attachedErr "is still attached to" = false →
      (resourceVultrIsoDelete c lib (fuel + 1) d s).failed ∧
      (resourceVultrIsoDelete c lib (fuel + 1) d s).trace = [.isoDelete d.id] ∧
      (resourceVultrIsoDelete c lib (fuel + 1) d s).world = s1) ∧
    (∀ attachedErr, lib.jsonDecodeError err = .ok attachedErr →
      stringsContains attachedErr "is still attached to" = true →
      lib.netParseIP (lastPart (stringsSplit attachedErr)) = false →
      (resourceVultrIsoDelete c lib (fuel + 1) d s).failed ∧
      (resourceVultrIsoDelete c lib (fuel + 1) d s).trace = [.isoDelete d.id] ∧
      (resourceVultrIsoDelete c lib (fuel + 1) d s).world = s1) := by
  refine ⟨?_, ?_, ?_⟩
  · intro jsonErr hdec
    simp [resourceVultrIsoDelete, hdel, hdec, Run.failed]
  · intro attachedErr hdec hcont
    simp [resourceVultrIsoDelete, hdel, hdec, hcont, Run.failed]
  · intro attachedErr hdec hcont hip
    simp [resourceVultrIsoDelete, hdel, hdec, hcont, hip, Run.failed]

/-- C20 at a delete error whose last part, `unknown`, is not an IP address. -/
theorem isoDelete_no_recovery_on_other_errors_witness :
    (resourceVultrIsoDelete remoteClient remoteLib 3 isoData namelessRemote).failed ∧
    (resourceVultrIsoDelete remoteClient remoteLib 3 isoData namelessRemote).trace
      = [.isoDelete "iso-1"] ∧
    (resourceVultrIsoDelete remoteClient remoteLib 3 isoData namelessRemote).world
      = namelessRemote :=
  (isoDelete_no_recovery_on_other_errors remoteClient remoteLib 2 isoData namelessRemote
    namelessRemote (stillAttached "unknown") rfl).2.2
    "Unable to delete ISO, it is still attached to unknown" rfl (by decide) (by decide)

/-! ## The private-ISO read -/

/-- C21 (the code departs from the claim): the test of `resourceVultrIsoRead`
is `strings.Contains("Invalid iso", err.Error())`, which asks whether the error
text occurs within "Invalid iso". With the error text of the API, which
contains "Invalid iso", the read returns an error diagnostic and keeps the id;
with the error text `iso`, which does not contain "Invalid iso", it clears the
id and returns no diagnostics. -/
theorem isoRead_tests_error_text_reversed :
    stringsContains invalidIso "Invalid iso" = true ∧
    (resourceVultrIsoRead remoteClient isoData goneRemote).status
      = .done (some ("Error getting ISO iso-1 : " ++ invalidIso)) ∧
    (resourceVultrIsoRead remoteClient isoData goneRemote).d.id = "iso-1" ∧
    stringsContains "iso" "Invalid iso" = false ∧
    (resourceVultrIsoRead remoteClient isoData shortErrorRemote).status = .done none ∧
    (resourceVultrIsoRead remoteClient isoData shortErrorRemote).d.id = "" := by
  decide

/-! ## The resource data after a failed read -/

theorem reverseIPV4Search_failed {σ F M : Type} (c : Client σ) (h : Helpers σ F M)
    (filters : RawFilter) (ids : List String) (d : ResourceData) (s : σ) (before : List Event) :
    (reverseIPV4Search c h filters ids d s before).failed →
      (reverseIPV4Search c h filters ids d s before).d = d := by
  simp only [reverseIPV4Search, Run.failed]
  split
  · intro _
    rfl
  · split
    · intro _
      rfl
    · rintro ⟨msg, hmsg⟩
      cases hmsg

/-- C22, counterexample: the instance lookup finds exactly the instance `v1`
and `GetBackupSchedule` fails: the read returns the error, and the id and the
attributes of `v1` are already written to the resource data. -/
theorem instanceRead_writes_before_follow_up_fails :
    (dataSourceVultrInstanceRead scheduleDownClient remoteHelpers 2 (dataWithFilter "id" "v1")
      twoPageRemote).status
      = .done (some ("error getting backup schedule: " ++ "service unavailable")) ∧
    (dataWithFilter "id" "v1").id = "" ∧
    (dataSourceVultrInstanceRead scheduleDownClient remoteHelpers 2 (dataWithFilter "id" "v1")
      twoPageRemote).d.id = "v1" ∧
    (dataWithFilter "id" "v1").attr "main_ip" = none ∧
    (dataSourceVultrInstanceRead scheduleDownClient remoteHelpers 2 (dataWithFilter "id" "v1")
      twoPageRemote).d.attr "main_ip" = some (.str "192.0.2.5") := by
  decide

/-- C22, amended: whenever the read of the block-storage, bare-metal,
private-ISO or reverse-IPv4 data source returns an error, the resource data is
as it was. For the instance data source this holds of every error returned
before the follow-up calls (no `GetBackupSchedule` issued); an error returned
after `GetBackupSchedule` was issued finds the id of the matched instance
written. -/
theorem read_error_leaves_data_unchanged {σ F M : Type} (c : Client σ) (h : Helpers σ F M)
    (fuel : Nat) (d : ResourceData) (s : σ) :
    ((dataSourceVultrBlockStorageRead c h fuel d s).failed →
      (dataSourceVultrBlockStorageRead c h fuel d s).d = d) ∧
    ((dataSourceVultrBareMetalServerRead c h fuel d s).failed →
      (dataSourceVultrBareMetalServerRead c h fuel d s).d = d) ∧
    ((dataSourceVultrIsoPrivateRead c h fuel d s).failed →
      (dataSourceVultrIsoPrivateRead c h fuel d s).d = d) ∧
    ((dataSourceVultrReverseIPV4Read c h fuel d s).failed →
      (dataSourceVultrReverseIPV4Read c h fuel d s).d = d) ∧
    ((dataSourceVultrInstanceRead c h fuel d s).failed →
      (∀ id, Event.getBackupSchedule id ∉ (dataSourceVultrInstanceRead c h fuel d s).trace) →
      (dataSourceVultrInstanceRead c h fuel d s).d = d) ∧
    ((dataSourceVultrInstanceRead c h fuel d s).failed →
      ∀ id, Event.getBackupSchedule id ∈ (dataSourceVultrInstanceRead c h fuel d s).trace →
      (dataSourceVultrInstanceRead c h fuel d s).d.id = id) := by
  refine ⟨?_, ?_, ?_, ?_, ?_, ?_⟩
  · simp only [dataSourceVultrBlockStorageRead, Run.failed]
    split
    · intro _; rfl
    · split
      · intro _; rfl
      · intro _; rfl
      · intro _; rfl
      · split
        · intro _; rfl
        · intro _; rfl
        · rintro ⟨msg, hmsg⟩
          cases hmsg
  · simp only [dataSourceVultrBareMetalServerRead, Run.failed]
    split
    · intro _; rfl
    · split
      · intro _; rfl
      · intro _; rfl
      · intro _; rfl
      · split
        · intro _; rfl
        · intro _; rfl
        · rintro ⟨msg, hmsg⟩
          cases hmsg
  · simp only [dataSourceVultrIsoPrivateRead, Run.failed]
    split
    · intro _; rfl
    · split
      · intro _; rfl
      · intro _; rfl
      · intro _; rfl
      · split
        · intro _; rfl
        · intro _; rfl
        · rintro ⟨msg, hmsg⟩
          cases hmsg
  · simp only [dataSourceVultrReverseIPV4Read]
    split
    · intro _; rfl
    · split
      · split
        · intro _; rfl
        · intro _; rfl
        · exact reverseIPV4Search_failed c h _ _ d _ _
      · exact reverseIPV4Search_failed c h _ _ d _ _
  · simp only [dataSourceVultrInstanceRead]
    split
    · intro _ _; rfl
    · split
      · intro _ _; rfl
      · intro _ _; rfl
      · intro _ _; rfl
      · split
        · intro _ _; rfl
        · intro _ _; rfl
        · rename_i i hi
          split
          · intro _ hno
            exact absurd (by simp) (hno i.ID)
          · split
            · intro _ hno
              exact absurd (by simp) (hno i.ID)
            · intro _ hno
              exact absurd (by simp) (hno i.ID)
  · simp only [dataSourceVultrInstanceRead]
    split
    · intro _ id hid
      simp at hid
    · have hp : ∀ (fuel : Nat) (s : σ) (o : ListOptions) (acc : List Instance) (id : String),
          Event.getBackupSchedule id ∉
            (pagedFilter c.InstanceList Event.instanceList h.structToMapInstance
              (h.filterLoop (h.buildVultrDataSourceFilter ‹RawFilter›)) fuel s o acc).trace := by
        intro fuel
        induction fuel with
        | zero => intro s o acc id; simp [pagedFilter]
        | succ n ih =>
          intro s o acc id
          simp only [pagedFilter]
          split
          · simp
          · split
            · simp
            · split
              · simp
              · simp only [List.mem_cons, not_or]
                exact ⟨by simp, ih _ _ _ id⟩
      split
      · intro _ id hid
        exact absurd hid (hp _ _ _ _ id)
      · intro _ id hid
        exact absurd hid (hp _ _ _ _ id)
      · intro _ id hid
        exact absurd hid (hp _ _ _ _ id)
      · split
        · intro _ id hid
          exact absurd hid (hp _ _ _ _ id)
        · intro _ id hid
          exact absurd hid (hp _ _ _ _ id)
        · rename_i i hi
          split
          · intro _ id hid
            simp only [List.mem_append, List.mem_singleton, Event.getBackupSchedule.injEq] at hid
            rcases hid with hid | hid
            · exact absurd hid (hp _ _ _ _ id)
            · subst hid
              rfl
          · split
            · intro _ id hid
              simp only [List.mem_append, List.mem_cons, Event.getBackupSchedule.injEq,
                List.mem_singleton, List.not_mem_nil, or_false] at hid
              rcases hid with hid | hid | hid
              · exact absurd hid (hp _ _ _ _ id)
              · subst hid
                rfl
              · cases hid
            · rintro ⟨msg, hmsg⟩
              cases hmsg

/-- C22, amended, at lookups that match no record, and at the instance lookup
whose `GetBackupSchedule` fails. -/
theorem read_error_leaves_data_unchanged_witness :
    (dataSourceVultrBlockStorageRead remoteClient remoteHelpers 2 (dataWithFilter "label" "none")
      twoPageRemote).d = dataWithFilter "label" "none" ∧
    (dataSourceVultrInstanceRead remoteClient remoteHelpers 2 (dataWithFilter "label" "none")
      twoPageRemote).d = dataWithFilter "label" "none" ∧
    (dataSourceVultrInstanceRead scheduleDownClient remoteHelpers 2 (dataWithFilter "id" "v1")
      twoPageRemote).d.id = "v1" :=
  ⟨(read_error_leaves_data_unchanged remoteClient remoteHelpers 2 (dataWithFilter "label" "none")
      twoPageRemote).1 ⟨noResults, by decide⟩,
   (read_error_leaves_data_unchanged remoteClient remoteHelpers 2 (dataWithFilter "label" "none")
      twoPageRemote).2.2.2.2.1 ⟨noResults, by decide⟩
      (fun id hid => by
        have ht : (dataSourceVultrInstanceRead remoteClient remoteHelpers 2
            (dataWithFilter "label" "none") twoPageRemote).trace
            = [.instanceList {}, .instanceList { Cursor := "p2" }] := by decide
        rw [ht] at hid
        simp at hid),
   (read_error_leaves_data_unchanged scheduleDownClient remoteHelpers 2 (dataWithFilter "id" "v1")
      twoPageRemote).2.2.2.2.2
      ⟨"error getting backup schedule: " ++ "service unavailable", by decide⟩ "v1" (by decide)⟩

/-! ## Lookups and flattening errors -/

/-- C2, counterexample: the first page of the block-storage listing holds
exactly one record that satisfies the filter and the second page another, but
a record of the second page fails to flatten: the lookup returns the
flattening error, not the "too many results" error. -/
theorem lookup_returns_flatten_error_before_second_match :
    Listing remoteClient.BlockStorageList mixedRemote {}
      [([blockOf "b1" "dup"], "p2"), ([blockOf "b2" "", blockOf "b3" "dup"], "")] ∧
    ([blockOf "b1" "dup"].filter (accepts strictHelpers.structToMapBlockStorage
      (strictHelpers.filterLoop [("label", ["dup"])]))).length = 1 ∧
    blockOf "b3" "dup" ∈ records [([blockOf "b2" "", blockOf "b3" "dup"], "")] ∧
    accepts strictHelpers.structToMapBlockStorage
      (strictHelpers.filterLoop [("label", ["dup"])]) (blockOf "b3" "dup") = true ∧
    (dataSourceVultrBlockStorageRead remoteClient strictHelpers 2 (dataWithFilter "label" "dup")
      mixedRemote).status = .done (some "json: unsupported value") ∧
    (dataSourceVultrBlockStorageRead remoteClient strictHelpers 2 (dataWithFilter "label" "dup")
      mixedRemote).status ≠ .done (some tooManyResults) := by
  refine ⟨⟨rfl, by decide, rfl, rfl⟩, by decide, by decide, by decide, by decide, by decide⟩

/-- C7, counterexample: the second fetch of the block-storage listing fails,
but a record of the first page fails to flatten: the lookup returns the
flattening error, not the error that wraps the fetch fault, and the failing
fetch is never issued. -/
theorem lookup_returns_flatten_error_before_fetch_failure :
    FailingListing remoteClient.BlockStorageList brokenUnlabelledRemote {}
      [([blockOf "b1" ""], "gone")] "invalid cursor gone" ∧
    (dataSourceVultrBlockStorageRead remoteClient strictHelpers 3 (dataWithFilter "label" "only")
      brokenUnlabelledRemote).status = .done (some "json: unsupported value") ∧
    (dataSourceVultrBlockStorageRead remoteClient strictHelpers 3 (dataWithFilter "label" "only")
      brokenUnlabelledRemote).status
      ≠ .done (some ("error getting block storages: " ++ "invalid cursor gone")) ∧
    (dataSourceVultrBlockStorageRead remoteClient strictHelpers 3 (dataWithFilter "label" "only")
      brokenUnlabelledRemote).trace = [.blockStorageList {}] := by
  refine ⟨⟨rfl, by decide, rfl⟩, by decide, by decide, by decide⟩

/-- C11, counterexample: exactly one record of the block-storage listing, `b1`,
satisfies the filter, but another record fails to flatten: the read returns
the flattening error and sets neither the id nor an attribute. -/
theorem blockStorageRead_sets_nothing_on_flatten_error :
    Listing remoteClient.BlockStorageList partlyLabelledRemote {}
      [([blockOf "b1" "only", blockOf "b2" ""], "")] ∧
    matching strictHelpers.structToMapBlockStorage
      (strictHelpers.filterLoop [("label", ["only"])])
      [([blockOf "b1" "only", blockOf "b2" ""], "")] = [blockOf "b1" "only"] ∧
    (dataSourceVultrBlockStorageRead remoteClient strictHelpers 2 (dataWithFilter "label" "only")
      partlyLabelledRemote).status = .done (some "json: unsupported value") ∧
    (dataSourceVultrBlockStorageRead remoteClient strictHelpers 2 (dataWithFilter "label" "only")
      partlyLabelledRemote).d.id = "" ∧
    (dataSourceVultrBlockStorageRead remoteClient strictHelpers 2 (dataWithFilter "label" "only")
      partlyLabelledRemote).d.attr "label" = none := by
  refine ⟨⟨rfl, rfl⟩, by decide, by decide, by decide, by decide⟩

end Vultr
